import Mathlib

/-!
# Activity state replication: conflict resolution

A shallow embedding of `service/history/ndc/activity_state_replicator.go`:
the activity comparator `compareActivity`, the version-history comparator
`compareVersionHistory`, the per-update driver `syncSingleActivityState` and the entry points
`SyncActivityState` and `SyncActivitiesState`, together with a model of the timer sequence
(`timer_sequence.go`, of which the given sources hold the tests only), followed by the theorems
that settle the specification's statements about them.

Conventions.
* Go's `int32` / `int64` values are `Int`; every operation performed on them in the
  embedded code is a comparison, so no wrap-around is involved there.  The one
  addition on `int64` (inside `time.Unix`) is modelled with `wrapInt64`.
* A Go result `(bool, error)` is a pair `Bool × Option ServiceError`, `none` being `nil`.
* A protobuf pointer field that may be `nil` is an `Option`.
* An entry point returns, next to its error, the trace of its calls to the collaborators
  (workflow cache, execution context, timer sequence, release function); the collaborators
  themselves are parameters, given by what they answer.
-/

namespace Ndc

/-! ## Constants -/

/-- Modelled from the spec: constant `common.EmptyEventID`, declared outside the given
sources; the id that no event carries. -/
def EmptyEventID : Int := 0

/-- Modelled from the spec: constant `common.EmptyVersion`, declared outside the given
sources; the version that no item carries. -/
def EmptyVersion : Int := 0

/-- Message of the resend error raised when local history misses events. -/
def resendMissingEventMessage : String := "Resend missed sync activity events"

/-- Message of the resend error raised when the incoming history has a higher version. -/
def resendHigherVersionMessage : String :=
  "Resend sync activity events due to a higher version received"

/-! ## Time -/

/-- Go's `time.Time` seen as an instant: whole seconds since January 1, year 1, 00:00:00 UTC
and the nanoseconds within that second. -/
structure Time where
  sec : Int
  nsec : Int
  deriving DecidableEq

/-- The zero value `time.Time{}`. -/
def Time.zero : Time := { sec := 0, nsec := 0 }

/-- Go's `Time.IsZero`: the instant is January 1, year 1, 00:00:00 UTC. -/
def Time.IsZero (t : Time) : Bool := t.sec == 0 && t.nsec == 0

/-- Go's `Time.After` for instants without a monotonic reading. -/
def Time.After (t u : Time) : Bool :=
  decide (t.sec > u.sec) || (t.sec == u.sec && decide (t.nsec > u.nsec))

/-- Reduction of an integer to the range of `int64` (two's complement wrap-around). -/
def wrapInt64 (x : Int) : Int := (x + 2 ^ 63) % 2 ^ 64 - 2 ^ 63

/-- Seconds between January 1, year 1 and the Unix epoch (`unixToInternal` in Go). -/
def unixToInternal : Int := 62135596800

/-- Go's `time.Unix(sec, nsec)`. -/
def Time.Unix (sec nsec : Int) : Time :=
  if nsec < 0 ∨ nsec ≥ 1000000000 then
    let n := Int.tdiv nsec 1000000000
    let sec1 := wrapInt64 (sec + n)
    let nsec1 := nsec - n * 1000000000
    if nsec1 < 0 then
      { sec := wrapInt64 (wrapInt64 (sec1 - 1) + unixToInternal), nsec := nsec1 + 1000000000 }
    else
      { sec := wrapInt64 (sec1 + unixToInternal), nsec := nsec1 }
  else
    { sec := wrapInt64 (sec + unixToInternal), nsec := nsec }

/-- The protobuf message `timestamppb.Timestamp`. -/
structure Timestamp where
  seconds : Int
  nanos : Int
  deriving DecidableEq

/-- The method `Timestamp.AsTime` of `timestamppb`. -/
def Timestamp.AsTime (x : Timestamp) : Time := Time.Unix x.seconds x.nanos

/-- Modelled from the spec: helper `timestamp.TimeValue` (package
`common/primitives/timestamp`, outside the given sources): the instant of a timestamp
that is set, the zero time for one that is not. -/
def TimeValue (t : Option Timestamp) : Time :=
  match t with
  | none => Time.zero
  | some x => x.AsTime

/-! ## Data model -/

/-- Modelled from the spec: `historyspb.VersionHistoryItem` (generated code outside the given
sources): one item `(eventId, version)` of a version history. -/
structure VersionHistoryItem where
  eventId : Int
  version : Int
  deriving DecidableEq

/-- Modelled from the spec: `historyspb.VersionHistory` (generated code outside the given
sources): an ordered sequence of items and a branch token. -/
structure VersionHistory where
  branchToken : List Nat
  items : List VersionHistoryItem
  deriving DecidableEq

/-- Modelled from the spec: `historyspb.VersionHistories` (generated code outside the given
sources): the branches of a workflow and the index of the current one. -/
structure VersionHistories where
  currentVersionHistoryIndex : Int
  histories : List VersionHistory
  deriving DecidableEq

/-- Modelled from the spec: `persistencespb.ActivityInfo` (generated code outside the given
sources), reduced to the fields that the replicator and the timer sequence read or write. The
four timeouts are kept as their `time.Duration` value, a number of nanoseconds (what
`timestamp.DurationValue` yields for the protobuf field, zero when the field is unset). -/
structure ActivityInfo where
  Version : Int
  ScheduledEventId : Int
  ScheduledTime : Option Timestamp
  FirstScheduledTime : Option Timestamp
  StartedEventId : Int
  StartedTime : Option Timestamp
  LastHeartbeatUpdateTime : Option Timestamp
  TimerTaskStatus : Int
  Attempt : Int
  Stamp : Int
  ScheduleToStartTimeout : Int := 0
  ScheduleToCloseTimeout : Int := 0
  StartToCloseTimeout : Int := 0
  HeartbeatTimeout : Int := 0
  deriving DecidableEq

/-- Modelled from the spec: `historyservice.ActivitySyncInfo` (generated code outside the given
sources), reduced to the fields that the replicator reads; the version history snapshot is
taken as present. -/
structure ActivitySyncInfo where
  Version : Int
  ScheduledEventId : Int
  ScheduledTime : Option Timestamp
  StartedEventId : Int
  StartedTime : Option Timestamp
  LastHeartbeatTime : Option Timestamp
  Attempt : Int
  Stamp : Int
  FirstScheduledTime : Option Timestamp
  VersionHistory : VersionHistory
  deriving DecidableEq

/-- The identifier `definition.WorkflowKey` as `syncSingleActivityState` fills it. -/
structure WorkflowKey where
  NamespaceID : String
  WorkflowID : String
  RunID : String
  deriving DecidableEq

/-- Modelled from the spec: the enumeration `enumsspb.WorkflowExecutionState` (generated code
outside the given sources); the replicator tests for `COMPLETED` and `ZOMBIE`. -/
inductive WorkflowExecutionState where
  | UNSPECIFIED
  | CREATED
  | RUNNING
  | COMPLETED
  | ZOMBIE
  | VOID
  | CORRUPTED
  deriving DecidableEq

/-- Modelled from the spec: the errors that the comparison and the per-update driver can return:
the hard defects of the version-history helpers, the failure of `UpdateActivityInfo`, and the
retry-replication error built by `serviceerrors.NewRetryReplication` with its eight
arguments in the order of the call; then the errors that the entry points tell apart or pass
on: `serviceerror.NotFound`, `consts.ErrDuplicate`, and any other failure of a collaborator
(`Unavailable`); and `serviceerror.Internal`, with which the timer sequence reports an
obligation whose owner it cannot load. -/
inductive ServiceError where
  | EmptyHistory
  | NoCommonAncestor
  | VersionHistoriesOutOfRange
  | MissingActivityInfo
  | RetryReplication (message namespaceID workflowID runID : String)
      (startEventID startEventVersion endEventID endEventVersion : Int)
  | NotFound (message : String)
  | ErrDuplicate
  | Unavailable (message : String)
  | Internal (message : String)
  deriving DecidableEq

/-- The task `tasks.ActivityRetryTimerTask` with the fields that `syncSingleActivityState`
sets. -/
structure ActivityRetryTimerTask where
  WorkflowKey : WorkflowKey
  VisibilityTimestamp : Time
  EventID : Int
  Version : Int
  Attempt : Int
  Stamp : Int
  deriving DecidableEq

/-- The enumeration `enumspb.TimeoutType` of the public API. -/
inductive TimeoutType where
  | UNSPECIFIED
  | START_TO_CLOSE
  | SCHEDULE_TO_START
  | SCHEDULE_TO_CLOSE
  | HEARTBEAT
  deriving DecidableEq

/-- The number of a timeout type in the public API. -/
def TimeoutType.toInt : TimeoutType → Int
  | .UNSPECIFIED => 0
  | .START_TO_CLOSE => 1
  | .SCHEDULE_TO_START => 2
  | .SCHEDULE_TO_CLOSE => 3
  | .HEARTBEAT => 4

/-- Modelled from the spec: `persistencespb.TimerInfo` (generated code outside the given
sources), a pending user timer with the fields of the spec's data model. -/
structure TimerInfo where
  Version : Int
  TimerId : String
  StartedEventId : Int
  ExpiryTime : Option Timestamp
  TaskStatus : Int
  deriving DecidableEq

/-- The task `tasks.ActivityTimeoutTask` with the fields that `timer_sequence_test.go`
expects. -/
structure ActivityTimeoutTask where
  WorkflowKey : WorkflowKey
  VisibilityTimestamp : Time
  TimeoutType : TimeoutType
  EventID : Int
  Attempt : Int
  deriving DecidableEq

/-- The task `tasks.UserTimerTask` with the fields that `timer_sequence_test.go` expects. -/
structure UserTimerTask where
  WorkflowKey : WorkflowKey
  VisibilityTimestamp : Time
  EventID : Int
  deriving DecidableEq

/-- A task added by the timer sequence. -/
inductive TimerTask where
  | ActivityTimeout (task : ActivityTimeoutTask)
  | UserTimer (task : UserTimerTask)
  deriving DecidableEq

/-- Modelled from the spec: the part of `historyi.MutableState` (implementation outside the
given sources) that the replicator and the timer sequence touch: version histories, workflow
state, the pending activities keyed by scheduled event id and the retry tasks added so far;
then, for the timer sequence, the workflow key, the pending user timers keyed by timer id, the
run expiration time of the execution info, the heartbeat deadlines recorded per activity, and
the timer tasks added so far. -/
structure MutableState where
  versionHistories : VersionHistories
  state : WorkflowExecutionState
  pendingActivityInfoIDs : List (Int × ActivityInfo)
  insertTasks : List ActivityRetryTimerTask
  workflowKey : WorkflowKey := { NamespaceID := "", WorkflowID := "", RunID := "" }
  pendingTimerInfoIDs : List (String × TimerInfo) := []
  WorkflowRunExpirationTime : Option Timestamp := none
  pendingActivityTimerHeartbeats : List (Int × Time) := []
  insertTimerTasks : List TimerTask := []
  deriving DecidableEq

/-! ## `compareActivity` -/

/-- The comparator `compareActivity`: `true` is "apply", `false` is "discard". -/
def compareActivity (version attempt stamp : Int) (lastHeartbeatTime : Time)
    (activityInfo : ActivityInfo) : Bool :=
  if activityInfo.Version > version then
    false
  else if activityInfo.Version < version then
    true
  else if activityInfo.Stamp < stamp then
    true
  else if activityInfo.Stamp > stamp then
    false
  else if activityInfo.Attempt > attempt then
    false
  else if activityInfo.Attempt < attempt then
    true
  else
    match activityInfo.LastHeartbeatUpdateTime with
    | some hb =>
      if !hb.AsTime.IsZero && hb.AsTime.After lastHeartbeatTime then false else true
    | none => true

/-! ## Version histories -/

/-- Modelled from the spec: `versionhistory.GetCurrentVersionHistory` (package
`common/persistence/versionhistory`, outside the given sources): the branch designated by
the index of the current branch; an index that designates no branch is a hard defect. -/
def GetCurrentVersionHistory (h : VersionHistories) : Except ServiceError VersionHistory :=
  if h.currentVersionHistoryIndex < 0 then
    .error .VersionHistoriesOutOfRange
  else
    match h.histories.get? h.currentVersionHistoryIndex.toNat with
    | some v => .ok v
    | none => .error .VersionHistoriesOutOfRange

/-- Modelled from the spec: `versionhistory.GetLastVersionHistoryItem` (outside the given
sources), the spec's `LastItem`: the last item of the history, failing with `EmptyHistory`
if the history has no items. -/
def GetLastVersionHistoryItem (v : VersionHistory) : Except ServiceError VersionHistoryItem :=
  match v.items.getLast? with
  | some item => .ok item
  | none => .error .EmptyHistory

/-- Modelled from the spec: the walk behind `FindLCAVersionHistoryItem`, over two item
sequences given last item first: at the first pair of items that agree
on the version, the item with the smaller event id is the answer; before that the item with
the higher version is dropped. -/
def findLCAWalk : List VersionHistoryItem → List VersionHistoryItem →
    Except ServiceError VersionHistoryItem
  | l :: ls, r :: rs =>
    if l.version = r.version then
      if l.eventId > r.eventId then .ok r else .ok l
    else if l.version > r.version then
      findLCAWalk ls (r :: rs)
    else
      findLCAWalk (l :: ls) rs
  | [], _ => .error .NoCommonAncestor
  | _ :: _, [] => .error .NoCommonAncestor
termination_by a b => a.length + b.length

/-- Modelled from the spec: `versionhistory.FindLCAVersionHistoryItem` (outside the given
sources), the spec's `FindLCA`: walks both item sequences to the greatest event id up to
which both histories agree on the version, failing with `NoCommonAncestor` if they never
shared a version. -/
def FindLCAVersionHistoryItem (a b : VersionHistory) : Except ServiceError VersionHistoryItem :=
  findLCAWalk a.items.reverse b.items.reverse

/-- Modelled from the spec: `versionhistory.IsLCAVersionHistoryItemAppendable` (outside the
given sources), the spec's `IsAppendable`: true iff the item equals the last item of the
history exactly, same event id and same version. -/
def IsLCAVersionHistoryItemAppendable (v : VersionHistory) (lcaItem : VersionHistoryItem) :
    Bool :=
  match v.items.getLast? with
  | some last => last.eventId == lcaItem.eventId && last.version == lcaItem.version
  | none => false

/-! ## `compareVersionHistory` -/

/-- The comparator `compareVersionHistory`: the first component is "should apply", the second
the error (`none` for `nil`). -/
def compareVersionHistory (namespaceID workflowID runID : String) (scheduledEventID : Int)
    (mutableState : MutableState) (incomingVersionHistory : VersionHistory) :
    Bool × Option ServiceError :=
  match GetCurrentVersionHistory mutableState.versionHistories with
  | .error err => (false, some err)
  | .ok currentVersionHistory =>
  match GetLastVersionHistoryItem currentVersionHistory with
  | .error err => (false, some err)
  | .ok lastLocalItem =>
  match GetLastVersionHistoryItem incomingVersionHistory with
  | .error err => (false, some err)
  | .ok lastIncomingItem =>
  match FindLCAVersionHistoryItem currentVersionHistory incomingVersionHistory with
  | .error err => (false, some err)
  | .ok lcaItem =>
    let closing : Bool × Option ServiceError :=
      (decide (mutableState.state ≠ WorkflowExecutionState.COMPLETED), none)
    if IsLCAVersionHistoryItemAppendable currentVersionHistory lcaItem
        || IsLCAVersionHistoryItemAppendable incomingVersionHistory lcaItem then
      -- case 1
      if scheduledEventID > lcaItem.eventId then
        (false, some (.RetryReplication resendMissingEventMessage namespaceID workflowID runID
          lcaItem.eventId lcaItem.version EmptyEventID EmptyVersion))
      else closing
    else
      -- case 2
      if lastIncomingItem.version < lastLocalItem.version then
        -- case 2-1
        (false, none)
      else if lastIncomingItem.version > lastLocalItem.version then
        -- case 2-2
        (false, some (.RetryReplication resendHigherVersionMessage namespaceID workflowID runID
          lcaItem.eventId lcaItem.version EmptyEventID EmptyVersion))
      else closing

/-! ## `syncSingleActivityState` -/

/-- Modelled from the spec: the accessor `MutableState.GetActivityInfo` (implementation outside
the given sources): the pending activity with the given scheduled event id, if any. -/
def MutableState.GetActivityInfo (ms : MutableState) (scheduledEventID : Int) :
    Option ActivityInfo :=
  ms.pendingActivityInfoIDs.lookup scheduledEventID

/-- Modelled from the spec: the mutator `MutableState.AddTasks` (implementation outside the
given sources) for one task: the task joins the tasks added so far. -/
def MutableState.AddTasks (ms : MutableState) (t : ActivityRetryTimerTask) : MutableState :=
  { ms with insertTasks := ms.insertTasks ++ [t] }

/-- Modelled from the spec: `MutableState.ShouldResetActivityTimerTaskMask` (mutable state
implementation, outside the given sources): a reset of the status bitmask is requested
whenever the version or the attempt changes. -/
def ShouldResetActivityTimerTaskMask (current : ActivityInfo) (incomingVersion : Int)
    (incomingAttempt : Int) : Bool :=
  current.Version != incomingVersion || current.Attempt != incomingAttempt

/-- Modelled from the spec: the overwrite performed by `MutableState.UpdateActivityInfo`
(mutable state implementation, outside the given sources): the activity state is updated with
all supplied fields, and the status bitmask is cleared when a reset is requested. -/
def applyActivitySyncInfo (ai : ActivityInfo) (incoming : ActivitySyncInfo) (reset : Bool) :
    ActivityInfo :=
  { ai with
    Version := incoming.Version
    ScheduledTime := incoming.ScheduledTime
    FirstScheduledTime := incoming.FirstScheduledTime
    StartedEventId := incoming.StartedEventId
    StartedTime := incoming.StartedTime
    LastHeartbeatUpdateTime := incoming.LastHeartbeatTime
    Attempt := incoming.Attempt
    Stamp := incoming.Stamp
    TimerTaskStatus := if reset then 0 else ai.TimerTaskStatus }

/-- Modelled from the spec: `MutableState.UpdateActivityInfo` (mutable state implementation,
outside the given sources): overwrites the pending activity that has the update's scheduled
event id, and fails if there is none. -/
def MutableState.UpdateActivityInfo (ms : MutableState) (incoming : ActivitySyncInfo)
    (reset : Bool) : Except ServiceError MutableState :=
  match ms.GetActivityInfo incoming.ScheduledEventId with
  | none => .error .MissingActivityInfo
  | some _ =>
    .ok { ms with
      pendingActivityInfoIDs := ms.pendingActivityInfoIDs.map fun p =>
        if p.1 = incoming.ScheduledEventId then
          (p.1, applyActivitySyncInfo p.2 incoming reset)
        else p }

/-- The driver `syncSingleActivityState`: the Go result `(applied, error)` together with the
mutable state it leaves behind. -/
def syncSingleActivityState (workflowKey : WorkflowKey) (mutableState : MutableState)
    (activitySyncInfo : ActivitySyncInfo) : (Bool × Option ServiceError) × MutableState :=
  let scheduledEventID := activitySyncInfo.ScheduledEventId
  match compareVersionHistory workflowKey.NamespaceID workflowKey.WorkflowID workflowKey.RunID
      scheduledEventID mutableState activitySyncInfo.VersionHistory with
  | (_, some err) => ((false, some err), mutableState)
  | (false, none) => ((false, none), mutableState)
  | (true, none) =>
  match mutableState.GetActivityInfo scheduledEventID with
  | none => ((false, none), mutableState)
  | some activityInfo =>
    if !compareActivity activitySyncInfo.Version activitySyncInfo.Attempt activitySyncInfo.Stamp
        (TimeValue activitySyncInfo.LastHeartbeatTime) activityInfo then
      ((false, none), mutableState)
    else
      let eventTime := TimeValue activitySyncInfo.ScheduledTime
      let ms1 :=
        if activitySyncInfo.StartedEventId = EmptyEventID
            ∧ activitySyncInfo.Attempt > activityInfo.Attempt then
          mutableState.AddTasks
            { WorkflowKey := workflowKey
              VisibilityTimestamp := eventTime
              EventID := activitySyncInfo.ScheduledEventId
              Version := activitySyncInfo.Version
              Attempt := activitySyncInfo.Attempt
              Stamp := activitySyncInfo.Stamp }
        else mutableState
      match ms1.UpdateActivityInfo activitySyncInfo
          (ShouldResetActivityTimerTaskMask activityInfo activitySyncInfo.Version
            activitySyncInfo.Attempt) with
      | .error err => ((false, some err), ms1)
      | .ok ms2 => ((true, none), ms2)

/-- Modelled from the spec: the effect of an applied update as the reordering property states
it (the mutator `UpdateActivityInfo` is outside the given sources): the update overwrites the
version, stamp, attempt and heartbeat time of the activity. -/
def overwriteCompared (ai : ActivityInfo) (u : ActivitySyncInfo) : ActivityInfo :=
  { ai with
    Version := u.Version
    Stamp := u.Stamp
    Attempt := u.Attempt
    LastHeartbeatUpdateTime := u.LastHeartbeatTime }

/-- One replicated update processed against one activity: an update that `compareActivity`
accepts overwrites the activity, one that it discards leaves the activity as it is. -/
def processActivityUpdate (ai : ActivityInfo) (u : ActivitySyncInfo) : ActivityInfo :=
  if compareActivity u.Version u.Attempt u.Stamp (TimeValue u.LastHeartbeatTime) ai then
    overwriteCompared ai u
  else ai

/-! ## The entry points `SyncActivityState` and `SyncActivitiesState` -/

/-- The lease priority `locks.Priority`. -/
inductive Priority where
  | High
  | Low
  deriving DecidableEq

/-- The update mode `persistence.UpdateWorkflowMode`. -/
inductive UpdateWorkflowMode where
  | UpdateCurrent
  | BypassCurrent
  | IgnoreCurrent
  deriving DecidableEq

/-- The transaction policy `historyi.TransactionPolicy`. -/
inductive TransactionPolicy where
  | Active
  | Passive
  deriving DecidableEq

/-- The request `historyservice.SyncActivityRequest`, reduced to the fields that
`SyncActivityState` copies into the `ActivitySyncInfo` of the model. -/
structure SyncActivityRequest where
  NamespaceId : String
  WorkflowId : String
  RunId : String
  Version : Int
  ScheduledEventId : Int
  ScheduledTime : Option Timestamp
  StartedEventId : Int
  StartedTime : Option Timestamp
  LastHeartbeatTime : Option Timestamp
  Attempt : Int
  Stamp : Int
  FirstScheduledTime : Option Timestamp
  VersionHistory : VersionHistory
  deriving DecidableEq

/-- The request `historyservice.SyncActivitiesRequest`. -/
structure SyncActivitiesRequest where
  NamespaceId : String
  WorkflowId : String
  RunId : String
  ActivitiesInfo : List ActivitySyncInfo
  deriving DecidableEq

/-- One step of an entry point as seen from outside: the calls to the workflow cache, the
execution context, the timer sequence and the lease's release function, and each call of
`syncSingleActivityState` with what it returned. -/
inductive Op where
  | GetOrCreateWorkflowExecution (namespaceID workflowID runID : String) (priority : Priority)
  | LoadMutableState
  | syncSingleActivityState (info : ActivitySyncInfo) (applied : Bool)
      (err : Option ServiceError)
  | CreateNextActivityTimer
  | UpdateWorkflowExecutionAsPassive
  | UpdateWorkflowExecutionWithNew (updateMode : UpdateWorkflowMode)
      (newWorkflow : Option MutableState) (updateWorkflowTransactionPolicy : TransactionPolicy)
      (newWorkflowTransactionPolicy : Option TransactionPolicy)
  | release (retError : Option ServiceError)
  deriving DecidableEq

/-- The collaborators of the replicator, each given by what it answers: the workflow cache
(`GetOrCreateWorkflowExecution`, `none` when the lease is granted), the execution context
(`LoadMutableState` and the two commits), the timer sequence (`CreateNextActivityTimer`, which
may change the mutable state) and the dynamic configuration flag. -/
structure Collaborators where
  GetOrCreateWorkflowExecution : Option ServiceError
  LoadMutableState : Except ServiceError MutableState
  CreateNextActivityTimer : MutableState → (Bool × Option ServiceError) × MutableState
  EnableUpdateWorkflowModeIgnoreCurrent : Bool
  UpdateWorkflowExecutionAsPassive : MutableState → Option ServiceError
  UpdateWorkflowExecutionWithNew :
    MutableState → UpdateWorkflowMode → TransactionPolicy → Option ServiceError

/-- What an entry point leaves behind: the error it returns (`none` for `nil`), the steps it
took in order, and the mutable state as it stands at the end (`none` if it was never loaded). -/
structure SyncOutcome where
  err : Option ServiceError
  ops : List Op
  mutableState : Option MutableState

/-- The part shared word for word by both entry points once something was applied: the timer
sequence is asked for the next activity timer, then the state is committed. -/
def createTimerAndCommit (c : Collaborators) (mutableState : MutableState) : SyncOutcome :=
  -- passive logic need to explicitly call create timer
  match c.CreateNextActivityTimer mutableState with
  | ((_, some err), ms1) =>
    { err := some err, ops := [Op.CreateNextActivityTimer], mutableState := some ms1 }
  | ((_, none), ms1) =>
    if c.EnableUpdateWorkflowModeIgnoreCurrent then
      { err := c.UpdateWorkflowExecutionAsPassive ms1
        ops := [Op.CreateNextActivityTimer, Op.UpdateWorkflowExecutionAsPassive]
        mutableState := some ms1 }
    else
      let updateMode :=
        if ms1.state = WorkflowExecutionState.ZOMBIE then UpdateWorkflowMode.BypassCurrent
        else UpdateWorkflowMode.UpdateCurrent
      { err := c.UpdateWorkflowExecutionWithNew ms1 updateMode TransactionPolicy.Passive
        ops := [Op.CreateNextActivityTimer,
          Op.UpdateWorkflowExecutionWithNew updateMode none TransactionPolicy.Passive none]
        mutableState := some ms1 }

/-- The scoped lease of both entry points: the execution is asked from the workflow cache at
high priority; a failure is returned as it is; otherwise the body runs and the deferred
`release(retError)` runs afterwards with the error that the body returns. -/
def withLease (c : Collaborators) (namespaceID workflowID runID : String)
    (body : SyncOutcome) : SyncOutcome :=
  let acquire := Op.GetOrCreateWorkflowExecution namespaceID workflowID runID Priority.High
  match c.GetOrCreateWorkflowExecution with
  | some err => { err := some err, ops := [acquire], mutableState := none }
  | none => { body with ops := acquire :: body.ops ++ [Op.release body.err] }

/-- The `ActivitySyncInfo` that `SyncActivityState` builds from its request. -/
def SyncActivityRequest.toActivitySyncInfo (request : SyncActivityRequest) : ActivitySyncInfo :=
  { Version := request.Version
    ScheduledEventId := request.ScheduledEventId
    ScheduledTime := request.ScheduledTime
    StartedEventId := request.StartedEventId
    StartedTime := request.StartedTime
    LastHeartbeatTime := request.LastHeartbeatTime
    Attempt := request.Attempt
    VersionHistory := request.VersionHistory
    FirstScheduledTime := request.FirstScheduledTime
    Stamp := request.Stamp }

/-- The workflow key that `SyncActivityState` hands to `syncSingleActivityState`. -/
def SyncActivityRequest.workflowKey (request : SyncActivityRequest) : WorkflowKey :=
  { NamespaceID := request.NamespaceId, WorkflowID := request.WorkflowId,
    RunID := request.RunId }

/-- The workflow key that `SyncActivitiesState` hands to `syncSingleActivityState`. -/
def SyncActivitiesRequest.workflowKey (request : SyncActivitiesRequest) : WorkflowKey :=
  { NamespaceID := request.NamespaceId, WorkflowID := request.WorkflowId,
    RunID := request.RunId }

/-- The body of `SyncActivityState` after the lease was granted. -/
def syncActivityStateBody (c : Collaborators) (request : SyncActivityRequest) : SyncOutcome :=
  match c.LoadMutableState with
  | .error (.NotFound _) => { err := none, ops := [Op.LoadMutableState], mutableState := none }
  | .error err => { err := some err, ops := [Op.LoadMutableState], mutableState := none }
  | .ok mutableState =>
    let info := request.toActivitySyncInfo
    let r := syncSingleActivityState request.workflowKey mutableState info
    let call := Op.syncSingleActivityState info r.1.1 r.1.2
    match r.1.2 with
    | some err =>
      { err := some err, ops := [Op.LoadMutableState, call], mutableState := some r.2 }
    | none =>
      if !r.1.1 then
        { err := some .ErrDuplicate, ops := [Op.LoadMutableState, call],
          mutableState := some r.2 }
      else
        let t := createTimerAndCommit c r.2
        { t with ops := [Op.LoadMutableState, call] ++ t.ops }

/-- The entry point `SyncActivityState`. -/
def SyncActivityState (c : Collaborators) (request : SyncActivityRequest) : SyncOutcome :=
  withLease c request.NamespaceId request.WorkflowId request.RunId
    (syncActivityStateBody c request)

/-- The state of the `for` loop of `SyncActivitiesState` when it is left: the error that ended
it (if any), the flag `anyEventApplied`, the mutable state, and the calls made in order. -/
structure LoopResult where
  err : Option ServiceError
  anyEventApplied : Bool
  mutableState : MutableState
  calls : List Op

/-- The `for` loop of `SyncActivitiesState` over the updates that are left. -/
def syncActivitiesLoop (workflowKey : WorkflowKey) :
    MutableState → Bool → List ActivitySyncInfo → LoopResult
  | mutableState, anyEventApplied, [] =>
    { err := none, anyEventApplied := anyEventApplied, mutableState := mutableState,
      calls := [] }
  | mutableState, anyEventApplied, syncActivityInfo :: rest =>
    let r := syncSingleActivityState workflowKey mutableState syncActivityInfo
    let call := Op.syncSingleActivityState syncActivityInfo r.1.1 r.1.2
    match r.1.2 with
    | some err =>
      { err := some err, anyEventApplied := anyEventApplied, mutableState := r.2,
        calls := [call] }
    | none =>
      let next := syncActivitiesLoop workflowKey r.2 (anyEventApplied || r.1.1) rest
      { next with calls := call :: next.calls }

/-- The body of `SyncActivitiesState` after the lease was granted. -/
def syncActivitiesStateBody (c : Collaborators) (request : SyncActivitiesRequest) :
    SyncOutcome :=
  match c.LoadMutableState with
  | .error (.NotFound _) => { err := none, ops := [Op.LoadMutableState], mutableState := none }
  | .error err => { err := some err, ops := [Op.LoadMutableState], mutableState := none }
  | .ok mutableState =>
    let l := syncActivitiesLoop request.workflowKey mutableState false request.ActivitiesInfo
    match l.err with
    | some err =>
      { err := some err, ops := Op.LoadMutableState :: l.calls,
        mutableState := some l.mutableState }
    | none =>
      if !l.anyEventApplied then
        { err := some .ErrDuplicate, ops := Op.LoadMutableState :: l.calls,
          mutableState := some l.mutableState }
      else
        let t := createTimerAndCommit c l.mutableState
        { t with ops := Op.LoadMutableState :: l.calls ++ t.ops }

/-- The entry point `SyncActivitiesState`. -/
def SyncActivitiesState (c : Collaborators) (request : SyncActivitiesRequest) : SyncOutcome :=
  withLease c request.NamespaceId request.WorkflowId request.RunId
    (syncActivitiesStateBody c request)

/-- The step is a call of `syncSingleActivityState` that returned `applied = true`. -/
def Op.isApplied : Op → Bool
  | .syncSingleActivityState _ applied _ => applied
  | _ => false

/-- The step is a call of `syncSingleActivityState`. -/
def Op.isSync : Op → Bool
  | .syncSingleActivityState _ _ _ => true
  | _ => false

/-- The step is a call of the lease's release function. -/
def Op.isRelease : Op → Bool
  | .release _ => true
  | _ => false

/-- The step is a commit of the mutable state. -/
def Op.isCommit : Op → Bool
  | .UpdateWorkflowExecutionAsPassive => true
  | .UpdateWorkflowExecutionWithNew _ _ _ _ => true
  | _ => false

/-! ## The timer sequence -/

/-- Go's `Time.Before` for instants without a monotonic reading. -/
def Time.Before (t u : Time) : Bool :=
  decide (t.sec < u.sec) || (t.sec == u.sec && decide (t.nsec < u.nsec))

/-- The seconds of Go's `Time.addSec`: the sum in `int64`, saturated when it overflows. -/
def Time.addSec (sec d : Int) : Int :=
  let sum := wrapInt64 (sec + d)
  if decide (sum > sec) = decide (d > 0) then sum
  else if d > 0 then 2 ^ 63 - 1
  else -(2 ^ 63 - 1)

/-- Go's `Time.Add` for a `time.Duration` of `d` nanoseconds. -/
def Time.Add (t : Time) (d : Int) : Time :=
  let dsec := Int.tdiv d 1000000000
  let nsec := t.nsec + Int.tmod d 1000000000
  if nsec ≥ 1000000000 then
    { sec := Time.addSec t.sec (dsec + 1), nsec := nsec - 1000000000 }
  else if nsec < 0 then
    { sec := Time.addSec t.sec (dsec - 1), nsec := nsec + 1000000000 }
  else
    { sec := Time.addSec t.sec dsec, nsec := nsec }

/-- Status bit constants, with the values that `TestConversion` asserts. -/
def TimerTaskStatusNone : Int := 0

/-- Status of a user timer whose task was created. -/
def TimerTaskStatusCreated : Int := 1

/-- Bit of the start-to-close timer. -/
def TimerTaskStatusCreatedStartToClose : Int := 1

/-- Bit of the schedule-to-start timer. -/
def TimerTaskStatusCreatedScheduleToStart : Int := 2

/-- Bit of the schedule-to-close timer. -/
def TimerTaskStatusCreatedScheduleToClose : Int := 4

/-- Bit of the heartbeat timer. -/
def TimerTaskStatusCreatedHeartbeat : Int := 8

/-- Modelled from the spec: `TimerSequenceID` (declared in `timer_sequence.go`, outside the
given sources; the fields are those of the literals in `timer_sequence_test.go`). -/
structure TimerSequenceID where
  EventID : Int
  Timestamp : Time
  TimerType : TimeoutType
  TimerCreated : Bool
  Attempt : Int
  deriving DecidableEq

/-- Modelled from the spec: `TimerSequenceIDs.Less` (in `timer_sequence.go`, outside the given
sources), on the two elements that the indices select: the order is by timestamp, then by event
id, then by timer type. -/
def TimerSequenceIDs.Less (this that : TimerSequenceID) : Bool :=
  if this.Timestamp.Before that.Timestamp then true
  else if this.Timestamp.After that.Timestamp then false
  else if this.EventID < that.EventID then true
  else if this.EventID > that.EventID then false
  else decide (this.TimerType.toInt < that.TimerType.toInt)

/-- Modelled from the spec: `getActivityScheduleToStartTimeout` (in `timer_sequence.go`, outside
the given sources): applicable iff the activity is scheduled, not yet started and the
schedule-to-start timeout is positive; the deadline is the scheduled time plus the timeout; the
created flag is read from the bit of the status mask. By the spec's failure semantics a
malformed activity, here one without scheduled time, makes the rule yield nothing. -/
def getActivityScheduleToStartTimeout (activityInfo : ActivityInfo) : Option TimerSequenceID :=
  if activityInfo.ScheduledEventId = EmptyEventID then none
  else if activityInfo.StartedEventId ≠ EmptyEventID then none
  else if activityInfo.ScheduleToStartTimeout ≤ 0 then none
  else
    match activityInfo.ScheduledTime with
    | none => none
    | some scheduledTime =>
      some
        { EventID := activityInfo.ScheduledEventId
          Timestamp := scheduledTime.AsTime.Add activityInfo.ScheduleToStartTimeout
          TimerType := TimeoutType.SCHEDULE_TO_START
          TimerCreated :=
            decide
              (Int.land activityInfo.TimerTaskStatus TimerTaskStatusCreatedScheduleToStart > 0)
          Attempt := activityInfo.Attempt }

/-- Modelled from the spec: `getActivityScheduleToCloseTimeout` (in `timer_sequence.go`, outside
the given sources): applicable iff the activity is scheduled and the schedule-to-close timeout
is positive; the deadline is the first scheduled time plus the timeout. By the spec's failure
semantics an activity without first scheduled time makes the rule yield nothing. -/
def getActivityScheduleToCloseTimeout (activityInfo : ActivityInfo) : Option TimerSequenceID :=
  if activityInfo.ScheduledEventId = EmptyEventID then none
  else if activityInfo.ScheduleToCloseTimeout ≤ 0 then none
  else
    match activityInfo.FirstScheduledTime with
    | none => none
    | some firstScheduledTime =>
      some
        { EventID := activityInfo.ScheduledEventId
          Timestamp := firstScheduledTime.AsTime.Add activityInfo.ScheduleToCloseTimeout
          TimerType := TimeoutType.SCHEDULE_TO_CLOSE
          TimerCreated :=
            decide
              (Int.land activityInfo.TimerTaskStatus TimerTaskStatusCreatedScheduleToClose > 0)
          Attempt := activityInfo.Attempt }

/-- Modelled from the spec: `getActivityStartToCloseTimeout` (in `timer_sequence.go`, outside
the given sources): applicable iff the activity is started and the start-to-close timeout is
positive; the deadline is the started time plus the timeout. By the spec's failure semantics a
started activity without started time makes the rule yield nothing. -/
def getActivityStartToCloseTimeout (activityInfo : ActivityInfo) : Option TimerSequenceID :=
  if activityInfo.StartedEventId = EmptyEventID then none
  else if activityInfo.StartToCloseTimeout ≤ 0 then none
  else
    match activityInfo.StartedTime with
    | none => none
    | some startedTime =>
      some
        { EventID := activityInfo.ScheduledEventId
          Timestamp := startedTime.AsTime.Add activityInfo.StartToCloseTimeout
          TimerType := TimeoutType.START_TO_CLOSE
          TimerCreated :=
            decide (Int.land activityInfo.TimerTaskStatus TimerTaskStatusCreatedStartToClose > 0)
          Attempt := activityInfo.Attempt }

/-- Modelled from the spec: the instant from which the heartbeat deadline is counted: the last
heartbeat time if a heartbeat was recorded, else the started time; nothing if neither is
there. -/
def lastHeartbeatOrStarted (activityInfo : ActivityInfo) : Option Time :=
  match activityInfo.LastHeartbeatUpdateTime with
  | some lastHeartbeat => some lastHeartbeat.AsTime
  | none =>
    match activityInfo.StartedTime with
    | some startedTime => some startedTime.AsTime
    | none => none

/-- Modelled from the spec: `getActivityHeartbeatTimeout` (in `timer_sequence.go`, outside the
given sources): applicable iff the activity is started and the heartbeat timeout is positive;
the deadline is the last heartbeat time plus the timeout if a heartbeat was recorded, else the
started time plus the timeout. By the spec's failure semantics a started activity with neither
a heartbeat nor a started time makes the rule yield nothing. -/
def getActivityHeartbeatTimeout (activityInfo : ActivityInfo) : Option TimerSequenceID :=
  if activityInfo.StartedEventId = EmptyEventID then none
  else if activityInfo.HeartbeatTimeout ≤ 0 then none
  else
    match lastHeartbeatOrStarted activityInfo with
    | none => none
    | some lastHeartbeat =>
      some
        { EventID := activityInfo.ScheduledEventId
          Timestamp := lastHeartbeat.Add activityInfo.HeartbeatTimeout
          TimerType := TimeoutType.HEARTBEAT
          TimerCreated :=
            decide (Int.land activityInfo.TimerTaskStatus TimerTaskStatusCreatedHeartbeat > 0)
          Attempt := activityInfo.Attempt }

/-- Modelled from the spec: the obligations of one activity, each rule evaluated on its own;
a rule that is not applicable yields nothing. -/
def activityTimers (activityInfo : ActivityInfo) : List TimerSequenceID :=
  [getActivityScheduleToStartTimeout activityInfo,
    getActivityScheduleToCloseTimeout activityInfo,
    getActivityStartToCloseTimeout activityInfo,
    getActivityHeartbeatTimeout activityInfo].filterMap id

/-- Modelled from the spec: the order in which the sort puts `a` before `b`: `b` is not less
than `a`. -/
def timerOrder (a b : TimerSequenceID) : Prop := TimerSequenceIDs.Less b a = false

instance timerOrderDecidable : DecidableRel timerOrder :=
  fun a b => inferInstanceAs (Decidable (TimerSequenceIDs.Less b a = false))

/-- Modelled from the spec: `LoadAndSortActivityTimers` (in `timer_sequence.go`, outside the
given sources): the obligations of all pending activities, sorted by `Less`. -/
def LoadAndSortActivityTimers (mutableState : MutableState) : List TimerSequenceID :=
  List.insertionSort timerOrder
    (mutableState.pendingActivityInfoIDs.flatMap fun p => activityTimers p.2)

/-- Modelled from the spec: `timerTypeToTimerMask` (in `timer_sequence.go`, outside the given
sources), with the values that `TestConversion` asserts; the unspecified type has no bit. -/
def timerTypeToTimerMask (timerType : TimeoutType) : Int :=
  match timerType with
  | .START_TO_CLOSE => TimerTaskStatusCreatedStartToClose
  | .SCHEDULE_TO_START => TimerTaskStatusCreatedScheduleToStart
  | .SCHEDULE_TO_CLOSE => TimerTaskStatusCreatedScheduleToClose
  | .HEARTBEAT => TimerTaskStatusCreatedHeartbeat
  | .UNSPECIFIED => TimerTaskStatusNone

/-- Modelled from the spec: `getUserTimerTimeout` (in `timer_sequence.go`, outside the given
sources): one obligation per pending user timer at its expiry time, of type start-to-close,
created iff the task status is not `None`; the attempt is 1 as `TestGetUserTimerTimeout`
expects. -/
def getUserTimerTimeout (timerInfo : TimerInfo) : TimerSequenceID :=
  { EventID := timerInfo.StartedEventId
    Timestamp := TimeValue timerInfo.ExpiryTime
    TimerType := TimeoutType.START_TO_CLOSE
    TimerCreated := decide (timerInfo.TaskStatus ≠ TimerTaskStatusNone)
    Attempt := 1 }

/-- Modelled from the spec: `LoadAndSortUserTimers` (in `timer_sequence.go`, outside the given
sources): the obligations of all pending user timers, sorted by `Less`. -/
def LoadAndSortUserTimers (mutableState : MutableState) : List TimerSequenceID :=
  List.insertionSort timerOrder
    (mutableState.pendingTimerInfoIDs.map fun p => getUserTimerTimeout p.2)

/-- Modelled from the spec: the accessor `MutableState.GetUserTimerInfoByEventID`
(implementation outside the given sources): the pending user timer started by the given
event, if any. -/
def MutableState.GetUserTimerInfoByEventID (ms : MutableState) (startedEventID : Int) :
    Option TimerInfo :=
  (ms.pendingTimerInfoIDs.find? fun p => p.2.StartedEventId = startedEventID).map Prod.snd

/-- Modelled from the spec: the mutator `MutableState.UpdateUserTimerTaskStatus` (implementation
outside the given sources): sets the task status of the pending user timer with the given timer
id, and fails if there is none. -/
def MutableState.UpdateUserTimerTaskStatus (ms : MutableState) (timerID : String)
    (status : Int) : Except ServiceError MutableState :=
  if ms.pendingTimerInfoIDs.any (fun p => p.1 = timerID) then
    .ok { ms with
      pendingTimerInfoIDs := ms.pendingTimerInfoIDs.map fun p =>
        if p.1 = timerID then (p.1, { p.2 with TaskStatus := status }) else p }
  else .error (.Internal "missing timer info")

/-- Modelled from the spec: the mutator `MutableState.UpdateActivityTaskStatusWithTimerHeartbeat`
(implementation outside the given sources): sets the status mask of the pending activity with
the given scheduled event id and, when a heartbeat deadline is handed over, records it for that
activity; fails if there is no such activity. -/
def MutableState.UpdateActivityTaskStatusWithTimerHeartbeat (ms : MutableState)
    (scheduledEventID : Int) (timerTaskStatus : Int) (heartbeatTimeoutVisibility : Option Time) :
    Except ServiceError MutableState :=
  match ms.GetActivityInfo scheduledEventID with
  | none => .error .MissingActivityInfo
  | some _ =>
    .ok { ms with
      pendingActivityInfoIDs := ms.pendingActivityInfoIDs.map fun p =>
        if p.1 = scheduledEventID then (p.1, { p.2 with TimerTaskStatus := timerTaskStatus })
        else p
      pendingActivityTimerHeartbeats :=
        match heartbeatTimeoutVisibility with
        | some t =>
          (scheduledEventID, t) ::
            ms.pendingActivityTimerHeartbeats.filter fun q => q.1 ≠ scheduledEventID
        | none => ms.pendingActivityTimerHeartbeats }

/-- Modelled from the spec: the mutator `MutableState.AddTasks` for one task of the timer
sequence: the task joins the timer tasks added so far. -/
def MutableState.AddTimerTask (ms : MutableState) (t : TimerTask) : MutableState :=
  { ms with insertTimerTasks := ms.insertTimerTasks ++ [t] }

/-- Modelled from the spec and from the `*_AfterWorkflowExpiry` tests: the workflow run
expiration time is set and the deadline is strictly after it. -/
def afterWorkflowExpiry (ms : MutableState) (deadline : Time) : Bool :=
  match ms.WorkflowRunExpirationTime with
  | none => false
  | some expiry => deadline.After expiry.AsTime

/-- Modelled from the spec: `CreateNextUserTimer` (in `timer_sequence.go`, outside the given
sources). The next-due obligation is the first of the sorted list. If it is already created
nothing is done (the spec's exactly-once property and the `AlreadyCreated` tests); if its
deadline is after the workflow run expiration time nothing is done (the `AfterWorkflowExpiry`
tests); otherwise the owning timer is marked created and one user timer task is added at the
obligation's deadline. The result is `(modified, error)` and the mutable state left behind. -/
def CreateNextUserTimer (ms : MutableState) : (Bool × Option ServiceError) × MutableState :=
  match LoadAndSortUserTimers ms with
  | [] => ((false, none), ms)
  | firstTimerTask :: _ =>
    if firstTimerTask.TimerCreated then
      ((false, none), ms)
    else if afterWorkflowExpiry ms firstTimerTask.Timestamp then
      ((false, none), ms)
    else
      match ms.GetUserTimerInfoByEventID firstTimerTask.EventID with
      | none => ((false, some (.Internal "unable to load timer info")), ms)
      | some timerInfo =>
        match ms.UpdateUserTimerTaskStatus timerInfo.TimerId TimerTaskStatusCreated with
        | .error err => ((false, some err), ms)
        | .ok ms1 =>
          ((true, none),
            ms1.AddTimerTask (.UserTimer
              { WorkflowKey := ms.workflowKey
                VisibilityTimestamp := firstTimerTask.Timestamp
                EventID := firstTimerTask.EventID }))

/-- Modelled from the spec: `CreateNextActivityTimer` (in `timer_sequence.go`, outside the given
sources), on the lines of `CreateNextUserTimer`: the status mask of the owning activity becomes
the old mask OR the mask of the obligation's kind, the heartbeat deadline is handed over for a
heartbeat obligation only (as the `HeartbeatTimer` tests expect), and one activity timeout task
is added at the obligation's deadline. -/
def CreateNextActivityTimer (ms : MutableState) : (Bool × Option ServiceError) × MutableState :=
  match LoadAndSortActivityTimers ms with
  | [] => ((false, none), ms)
  | firstTimerTask :: _ =>
    if firstTimerTask.TimerCreated then
      ((false, none), ms)
    else if afterWorkflowExpiry ms firstTimerTask.Timestamp then
      ((false, none), ms)
    else
      match ms.GetActivityInfo firstTimerTask.EventID with
      | none => ((false, some (.Internal "unable to load activity info")), ms)
      | some activityInfo =>
        let timerTaskStatus :=
          Int.lor activityInfo.TimerTaskStatus (timerTypeToTimerMask firstTimerTask.TimerType)
        let heartbeat :=
          if firstTimerTask.TimerType = TimeoutType.HEARTBEAT then some firstTimerTask.Timestamp
          else none
        match ms.UpdateActivityTaskStatusWithTimerHeartbeat activityInfo.ScheduledEventId
            timerTaskStatus heartbeat with
        | .error err => ((false, some err), ms)
        | .ok ms1 =>
          ((true, none),
            ms1.AddTimerTask (.ActivityTimeout
              { WorkflowKey := ms.workflowKey
                VisibilityTimestamp := firstTimerTask.Timestamp
                TimeoutType := firstTimerTask.TimerType
                EventID := firstTimerTask.EventID
                Attempt := firstTimerTask.Attempt }))

/-! ## Sample inputs -/

/-- A version history with an empty branch token. -/
def historyOf (items : List VersionHistoryItem) : VersionHistory :=
  { branchToken := [], items := items }

/-- A mutable state with one branch, no pending activity and no task. -/
def stateOf (items : List VersionHistoryItem) (st : WorkflowExecutionState) : MutableState :=
  { versionHistories := { currentVersionHistoryIndex := 0, histories := [historyOf items] }
    state := st
    pendingActivityInfoIDs := []
    insertTasks := [] }

/-- A pending activity at version 1, stamp 1, attempt 1 without heartbeat. -/
def sampleActivity : ActivityInfo :=
  { Version := 1, ScheduledEventId := 5, ScheduledTime := none, FirstScheduledTime := none,
    StartedEventId := 6, StartedTime := none, LastHeartbeatUpdateTime := none,
    TimerTaskStatus := 0, Attempt := 1, Stamp := 1 }

/-- An update for `sampleActivity` at version 1, stamp 1, attempt 2 with a heartbeat at Unix
second 1700000000. -/
def sampleUpdate : ActivitySyncInfo :=
  { Version := 1, ScheduledEventId := 5, ScheduledTime := none, StartedEventId := 6,
    StartedTime := none, LastHeartbeatTime := some { seconds := 1700000000, nanos := 0 },
    Attempt := 2, Stamp := 1, FirstScheduledTime := none,
    VersionHistory := historyOf [{ eventId := 10, version := 1 }] }

/-- The activity `sampleActivity` once it carries the compared fields of `sampleUpdate`. -/
def sampleActivityUpdated : ActivityInfo :=
  { Version := 1, ScheduledEventId := 5, ScheduledTime := none, FirstScheduledTime := none,
    StartedEventId := 6, StartedTime := none,
    LastHeartbeatUpdateTime := some { seconds := 1700000000, nanos := 0 },
    TimerTaskStatus := 0, Attempt := 2, Stamp := 1 }

/-- The update `sampleUpdate` with stamp 2 and attempt 0. -/
def sampleUpdateStamp2 : ActivitySyncInfo :=
  { sampleUpdate with Stamp := 2, Attempt := 0 }

/-- A running workflow whose only branch ends at event 10 with version 1 and whose only
pending activity is `sampleActivity`. -/
def sampleState : MutableState :=
  { stateOf [{ eventId := 10, version := 1 }] WorkflowExecutionState.RUNNING with
    pendingActivityInfoIDs := [(5, sampleActivity)] }

/-- A workflow key. -/
def sampleKey : WorkflowKey := { NamespaceID := "ns", WorkflowID := "wf", RunID := "run" }

/-- The activity `sampleActivity` after `sampleUpdate` and then `sampleUpdateStamp2` were
applied to it. -/
def sampleActivityAfterBoth : ActivityInfo :=
  { Version := 1, ScheduledEventId := 5, ScheduledTime := none, FirstScheduledTime := none,
    StartedEventId := 6, StartedTime := none,
    LastHeartbeatUpdateTime := some { seconds := 1700000000, nanos := 0 },
    TimerTaskStatus := 0, Attempt := 0, Stamp := 2 }

/-- The state `sampleState` with `sampleActivityAfterBoth` in place of `sampleActivity`. -/
def sampleStateAfterBoth : MutableState :=
  { sampleState with pendingActivityInfoIDs := [(5, sampleActivityAfterBoth)] }

/-- A batch of two updates for `sampleActivity`, both of which are applied in this order. -/
def sampleBatch : SyncActivitiesRequest :=
  { NamespaceId := "ns", WorkflowId := "wf", RunId := "run",
    ActivitiesInfo := [sampleUpdate, sampleUpdateStamp2] }

/-- A batch of two updates for `sampleActivity` at its own version, stamp and attempt with
heartbeats; local state `sampleStateAfterBoth` discards both. -/
def sampleStaleBatch : SyncActivitiesRequest :=
  { NamespaceId := "ns", WorkflowId := "wf", RunId := "run",
    ActivitiesInfo := [sampleUpdate, sampleUpdate] }

/-- The single-update request that carries the fields of `sampleUpdate`. -/
def sampleRequest : SyncActivityRequest :=
  { NamespaceId := "ns", WorkflowId := "wf", RunId := "run",
    Version := 1, ScheduledEventId := 5, ScheduledTime := none, StartedEventId := 6,
    StartedTime := none, LastHeartbeatTime := some { seconds := 1700000000, nanos := 0 },
    Attempt := 2, Stamp := 1, FirstScheduledTime := none,
    VersionHistory := historyOf [{ eventId := 10, version := 1 }] }

/-- Collaborators that grant the lease, load the given state, create no timer and commit
without error; the configuration flag is as given. -/
def collaboratorsOf (ms : MutableState) (flag : Bool) : Collaborators :=
  { GetOrCreateWorkflowExecution := none
    LoadMutableState := .ok ms
    CreateNextActivityTimer := fun m => ((false, none), m)
    EnableUpdateWorkflowModeIgnoreCurrent := flag
    UpdateWorkflowExecutionAsPassive := fun _ => none
    UpdateWorkflowExecutionWithNew := fun _ _ _ => none }

/-- The update `sampleUpdate` without started event: a retry at attempt 2. -/
def sampleRetryUpdate : ActivitySyncInfo :=
  { sampleUpdate with StartedEventId := 0, ScheduledTime := some { seconds := 1700000100, nanos := 0 } }

/-- The state `sampleState` of a zombie workflow. -/
def sampleZombieState : MutableState :=
  { sampleState with state := WorkflowExecutionState.ZOMBIE }

/-- Collaborators that grant the lease and fail to load the mutable state with the given
error. -/
def collaboratorsFailingLoad (e : ServiceError) : Collaborators :=
  { GetOrCreateWorkflowExecution := none
    LoadMutableState := .error e
    CreateNextActivityTimer := fun m => ((false, none), m)
    EnableUpdateWorkflowModeIgnoreCurrent := false
    UpdateWorkflowExecutionAsPassive := fun _ => none
    UpdateWorkflowExecutionWithNew := fun _ _ _ => none }

/-- The first activity of `TestLoadAndSortActivityTimers_Multiple`, with `now` at Unix second
1700000000: started 200 ms after it was scheduled, heartbeat recorded, no heartbeat timeout. -/
def testActivity1 : ActivityInfo :=
  { Version := 123, ScheduledEventId := 234
    ScheduledTime := some { seconds := 1700000000, nanos := 0 }
    FirstScheduledTime := some { seconds := 1700000000, nanos := 0 }
    StartedEventId := 345
    StartedTime := some { seconds := 1700000000, nanos := 200000000 }
    LastHeartbeatUpdateTime := some { seconds := 1700000000, nanos := 400000000 }
    TimerTaskStatus := TimerTaskStatusNone, Attempt := 12, Stamp := 0
    ScheduleToStartTimeout := 10000000000, ScheduleToCloseTimeout := 1000000000000
    StartToCloseTimeout := 100000000000, HeartbeatTimeout := 0 }

/-- The second activity of `TestLoadAndSortActivityTimers_Multiple`: scheduled, not started. -/
def testActivity2 : ActivityInfo :=
  { Version := 123, ScheduledEventId := 2345
    ScheduledTime := some { seconds := 1700000000, nanos := 0 }
    FirstScheduledTime := some { seconds := 1700000000, nanos := 0 }
    StartedEventId := EmptyEventID
    StartedTime := none
    LastHeartbeatUpdateTime := some { seconds := 1700000000, nanos := 800000000 }
    TimerTaskStatus := TimerTaskStatusNone, Attempt := 21, Stamp := 0
    ScheduleToStartTimeout := 11000000000, ScheduleToCloseTimeout := 1001000000000
    StartToCloseTimeout := 101000000000, HeartbeatTimeout := 6000000000 }

/-- The activity of `TestLoadAndSortActivityTimers_FirstScheduledTime`: first scheduled one
second after the latest scheduled time. -/
def testActivityFirstScheduled : ActivityInfo :=
  { Version := 0, ScheduledEventId := 234
    ScheduledTime := some { seconds := 1700000000, nanos := 0 }
    FirstScheduledTime := some { seconds := 1700000001, nanos := 0 }
    StartedEventId := 0
    StartedTime := none
    LastHeartbeatUpdateTime := none
    TimerTaskStatus := 6, Attempt := 12, Stamp := 0
    ScheduleToStartTimeout := 10000000000, ScheduleToCloseTimeout := 1000000000000
    StartToCloseTimeout := 100000000000, HeartbeatTimeout := 1000000000 }

/-- The activity of `TestGetActivityHeartbeatTimeout_WithHeartbeat_Started_Heartbeated`. -/
def testActivityHeartbeated : ActivityInfo :=
  { testActivity1 with HeartbeatTimeout := 1000000000, TimerTaskStatus := 8 }

/-- The first element of `TestLess_CompareType`. -/
def testSequenceID1 : TimerSequenceID :=
  { EventID := 123, Timestamp := Timestamp.AsTime { seconds := 1700000000, nanos := 0 }
    TimerType := TimeoutType.SCHEDULE_TO_CLOSE, TimerCreated := true, Attempt := 12 }

/-- The second element of `TestLess_CompareType`. -/
def testSequenceID2 : TimerSequenceID :=
  { EventID := 123, Timestamp := Timestamp.AsTime { seconds := 1700000000, nanos := 0 }
    TimerType := TimeoutType.HEARTBEAT, TimerCreated := true, Attempt := 12 }

/-- The position of the bit that `timerTypeToTimerMask` gives to a timer type. -/
def timerTypeBit (timerType : TimeoutType) : Nat :=
  match timerType with
  | .START_TO_CLOSE => 0
  | .SCHEDULE_TO_START => 1
  | .SCHEDULE_TO_CLOSE => 2
  | .HEARTBEAT => 3
  | .UNSPECIFIED => 0

/-- The activity of the spec's scenario before it starts: scheduled at Unix second 1700000000
with a schedule-to-start timeout of 10 s and a start-to-close timeout of 100 s, no other
timeout, no timer created. -/
def scenarioScheduled : ActivityInfo :=
  { Version := 1, ScheduledEventId := 5
    ScheduledTime := some { seconds := 1700000000, nanos := 0 }
    FirstScheduledTime := some { seconds := 1700000000, nanos := 0 }
    StartedEventId := EmptyEventID, StartedTime := none, LastHeartbeatUpdateTime := none
    TimerTaskStatus := TimerTaskStatusNone, Attempt := 1, Stamp := 0
    ScheduleToStartTimeout := 10000000000, StartToCloseTimeout := 100000000000 }

/-- The activity of the spec's scenario after it was marked started two seconds after it was
scheduled. -/
def scenarioStarted : ActivityInfo :=
  { scenarioScheduled with
    StartedEventId := 6, StartedTime := some { seconds := 1700000002, nanos := 0 } }

/-- The activity of `TestLoadAndSortActivityTimers_One_Scheduled_Started_WithHeartbeatTimeout`:
started, no heartbeat recorded, the bits of schedule-to-close, start-to-close and heartbeat
set. -/
def testActivityStartedBits : ActivityInfo :=
  { Version := 123, ScheduledEventId := 234
    ScheduledTime := some { seconds := 1700000000, nanos := 0 }
    FirstScheduledTime := some { seconds := 1700000000, nanos := 0 }
    StartedEventId := 345
    StartedTime := some { seconds := 1700000000, nanos := 200000000 }
    LastHeartbeatUpdateTime := none
    TimerTaskStatus := 13, Attempt := 12, Stamp := 0
    ScheduleToStartTimeout := 10000000000, ScheduleToCloseTimeout := 1000000000000
    StartToCloseTimeout := 100000000000, HeartbeatTimeout := 1000000000 }

/-- A workflow key for the snapshots of the timer tests. -/
def testWorkflowKey : WorkflowKey :=
  { NamespaceID := "namespace", WorkflowID := "workflow", RunID := "run" }

/-- A snapshot for the timer tests: the pending activities, the pending user timers and the
workflow run expiration time, on a running workflow with no task added so far. -/
def timerStateOf (activities : List ActivityInfo) (timers : List TimerInfo)
    (expiry : Option Timestamp) : MutableState :=
  { versionHistories := { currentVersionHistoryIndex := 0, histories := [historyOf []] }
    state := WorkflowExecutionState.RUNNING
    pendingActivityInfoIDs := activities.map fun a => (a.ScheduledEventId, a)
    insertTasks := []
    workflowKey := testWorkflowKey
    pendingTimerInfoIDs := timers.map fun t => (t.TimerId, t)
    WorkflowRunExpirationTime := expiry }

/-- The user timer of the `TestCreateNextUserTimer_*` tests, with `now` at Unix second
1700000000: it expires 100 ns after `now`; the task status is the parameter. -/
def testTimerInfo (status : Int) : TimerInfo :=
  { Version := 123, TimerId := "some random timer ID", StartedEventId := 456
    ExpiryTime := some { seconds := 1700000000, nanos := 100 }
    TaskStatus := status }

/-- The activity of the `TestCreateNextActivityTimer_NotCreated_*` tests: scheduled at `now`,
not started, all four timeouts set; the status mask is the parameter. -/
def testActivityScheduled (status : Int) : ActivityInfo :=
  { Version := 123, ScheduledEventId := 234
    ScheduledTime := some { seconds := 1700000000, nanos := 0 }
    FirstScheduledTime := some { seconds := 1700000000, nanos := 0 }
    StartedEventId := EmptyEventID, StartedTime := none, LastHeartbeatUpdateTime := none
    TimerTaskStatus := status, Attempt := 12, Stamp := 0
    ScheduleToStartTimeout := 10000000000, ScheduleToCloseTimeout := 1000000000000
    StartToCloseTimeout := 100000000000, HeartbeatTimeout := 1000000000 }

/-- The activity of the `TestCreateNextActivityTimer_HeartbeatTimer_*` tests: started 200 ms
after `now`, no heartbeat recorded, all four timeouts set; the status mask is the parameter. -/
def testActivityStarted (status : Int) : ActivityInfo :=
  { testActivityScheduled status with
    StartedEventId := 345, StartedTime := some { seconds := 1700000000, nanos := 200000000 } }

/-- The workflow run expiration time of the `*_BeforeWorkflowExpiry` activity tests: 2000 s
after `now`. -/
def testExpiryLate : Timestamp := { seconds := 1700002000, nanos := 0 }

/-- The workflow run expiration time of the `*_AfterWorkflowExpiry` activity tests: 2000 s
before `now`. -/
def testExpiryEarly : Timestamp := { seconds := 1699998000, nanos := 0 }

/-- The workflow run expiration time of the `TestCreateNextUserTimer_*_AfterWorkflowExpiry`
tests: one second before the expiry of the timer. -/
def testExpiryBeforeTimer : Timestamp := { seconds := 1699999999, nanos := 100 }

/-- The workflow run expiration time of the `TestCreateNextUserTimer_*_BeforeWorkflowExpiry`
tests: one second after the expiry of the timer. -/
def testExpiryAfterTimer : Timestamp := { seconds := 1700000001, nanos := 100 }

/-! ## Auxiliary lemmas -/

theorem Time.After_irrefl (t : Time) : t.After t = false := by
  simp [Time.After]

theorem compareActivity_true_iff (version attempt stamp : Int) (t : Time) (ai : ActivityInfo) :
    compareActivity version attempt stamp t ai = true ↔
      ai.Version < version ∨ (ai.Version = version ∧ (ai.Stamp < stamp ∨ (ai.Stamp = stamp ∧
        (ai.Attempt < attempt ∨ (ai.Attempt = attempt ∧
          ¬ ∃ hb, ai.LastHeartbeatUpdateTime = some hb ∧ hb.AsTime.IsZero = false ∧
            hb.AsTime.After t = true))))) := by
  unfold compareActivity
  split_ifs with h1 h2 h3 h4 h5 h6
  · constructor
    · intro h; cases h
    · intro h; omega
  · simp [h2]
  · have : ai.Version = version := by omega
    simp [this, h3]
  · have : ai.Version = version := by omega
    constructor
    · intro h; cases h
    · intro h; omega
  · have : ai.Version = version := by omega
    have : ai.Stamp = stamp := by omega
    constructor
    · intro h; cases h
    · intro h; omega
  · have hv : ai.Version = version := by omega
    have hs : ai.Stamp = stamp := by omega
    simp [hv, hs, h6]
  · have hv : ai.Version = version := by omega
    have hs : ai.Stamp = stamp := by omega
    have ha : ai.Attempt = attempt := by omega
    cases hhb : ai.LastHeartbeatUpdateTime with
    | none => simp [hv, hs, ha]
    | some hb =>
      by_cases hz : hb.AsTime.IsZero = true <;> by_cases hafter : hb.AsTime.After t = true <;>
        simp [hv, hs, ha, hz, hafter]

theorem GetActivityInfo_AddTasks (ms : MutableState) (t : ActivityRetryTimerTask) (k : Int) :
    (ms.AddTasks t).GetActivityInfo k = ms.GetActivityInfo k := rfl

theorem UpdateActivityInfo_found (ms : MutableState) (u : ActivitySyncInfo) (reset : Bool)
    (ai : ActivityInfo) (h : ms.GetActivityInfo u.ScheduledEventId = some ai) :
    ∃ ms2, ms.UpdateActivityInfo u reset = .ok ms2 := by
  unfold MutableState.UpdateActivityInfo
  rw [h]
  exact ⟨_, rfl⟩

/-- With the version-history comparison passed and the activity found, the driver returns
exactly what `compareActivity` says on the update's version, attempt, stamp and heartbeat. -/
theorem syncSingleActivityState_applied (key : WorkflowKey) (ms : MutableState)
    (u : ActivitySyncInfo) (ai : ActivityInfo)
    (hvh : compareVersionHistory key.NamespaceID key.WorkflowID key.RunID u.ScheduledEventId ms
      u.VersionHistory = (true, none))
    (hget : ms.GetActivityInfo u.ScheduledEventId = some ai) :
    (syncSingleActivityState key ms u).1 =
      (compareActivity u.Version u.Attempt u.Stamp (TimeValue u.LastHeartbeatTime) ai, none) := by
  unfold syncSingleActivityState
  simp only [hvh, hget]
  cases hc : compareActivity u.Version u.Attempt u.Stamp (TimeValue u.LastHeartbeatTime) ai with
  | false => simp
  | true =>
    simp only [Bool.not_true, Bool.false_eq_true, if_false]
    have hfound : ∀ ms1 : MutableState, ms1.GetActivityInfo u.ScheduledEventId = some ai →
        (match ms1.UpdateActivityInfo u
            (ShouldResetActivityTimerTaskMask ai u.Version u.Attempt) with
          | .error err => (((false, some err) : Bool × Option ServiceError), ms1)
          | .ok ms2 => ((true, none), ms2)).1 = (true, none) := by
      intro ms1 h1
      obtain ⟨ms2, h2⟩ := UpdateActivityInfo_found ms1 u
        (ShouldResetActivityTimerTaskMask ai u.Version u.Attempt) ai h1
      rw [h2]
    split_ifs with hretry
    · exact hfound _ (by rw [GetActivityInfo_AddTasks]; exact hget)
    · exact hfound _ hget

theorem IsLCAVersionHistoryItemAppendable_eq (v : VersionHistory)
    (last lcaItem : VersionHistoryItem) (h : GetLastVersionHistoryItem v = .ok last) :
    IsLCAVersionHistoryItemAppendable v lcaItem = decide (lcaItem = last) := by
  unfold GetLastVersionHistoryItem at h
  unfold IsLCAVersionHistoryItemAppendable
  cases hl : v.items.getLast? with
  | none => rw [hl] at h; cases h
  | some x =>
    rw [hl] at h
    injection h with h
    subst h
    cases x with
    | mk e1 v1 =>
      cases lcaItem with
      | mk e2 v2 =>
        rw [Bool.eq_iff_iff]
        simp only [Bool.and_eq_true, beq_iff_eq, decide_eq_true_iff,
          VersionHistoryItem.mk.injEq]
        constructor
        · rintro ⟨h1, h2⟩; exact ⟨h1.symm, h2.symm⟩
        · rintro ⟨h1, h2⟩; exact ⟨h1.symm, h2.symm⟩

/-- The decision tree of `compareVersionHistory` once the current branch, both last items and
the LCA item are known. -/
theorem compareVersionHistory_eq (namespaceID workflowID runID : String) (scheduledEventID : Int)
    (ms : MutableState) (incoming current : VersionHistory)
    (lastLocal lastIncoming lcaItem : VersionHistoryItem)
    (hcur : GetCurrentVersionHistory ms.versionHistories = .ok current)
    (hll : GetLastVersionHistoryItem current = .ok lastLocal)
    (hli : GetLastVersionHistoryItem incoming = .ok lastIncoming)
    (hlca : FindLCAVersionHistoryItem current incoming = .ok lcaItem) :
    compareVersionHistory namespaceID workflowID runID scheduledEventID ms incoming =
      if lcaItem = lastLocal ∨ lcaItem = lastIncoming then
        if scheduledEventID > lcaItem.eventId then
          (false, some (.RetryReplication resendMissingEventMessage namespaceID workflowID runID
            lcaItem.eventId lcaItem.version EmptyEventID EmptyVersion))
        else (decide (ms.state ≠ WorkflowExecutionState.COMPLETED), none)
      else if lastIncoming.version < lastLocal.version then
        (false, none)
      else if lastIncoming.version > lastLocal.version then
        (false, some (.RetryReplication resendHigherVersionMessage namespaceID workflowID runID
          lcaItem.eventId lcaItem.version EmptyEventID EmptyVersion))
      else (decide (ms.state ≠ WorkflowExecutionState.COMPLETED), none) := by
  unfold compareVersionHistory
  simp only [hcur, hll, hli, hlca]
  rw [IsLCAVersionHistoryItemAppendable_eq current lastLocal lcaItem hll,
    IsLCAVersionHistoryItemAppendable_eq incoming lastIncoming lcaItem hli]
  simp only [Bool.or_eq_true, decide_eq_true_iff]

/-- With a completed workflow `compareVersionHistory` never answers "apply". -/
theorem compareVersionHistory_fst_of_completed (namespaceID workflowID runID : String)
    (scheduledEventID : Int) (ms : MutableState) (incoming : VersionHistory)
    (hst : ms.state = WorkflowExecutionState.COMPLETED) :
    (compareVersionHistory namespaceID workflowID runID scheduledEventID ms incoming).1
      = false := by
  unfold compareVersionHistory
  simp only [hst]
  repeat' split
  all_goals simp

/-! ## Auxiliary lemmas on the entry points -/

theorem syncSingleActivityState_err_not_applied (key : WorkflowKey) (ms : MutableState)
    (u : ActivitySyncInfo) (e : ServiceError)
    (h : (syncSingleActivityState key ms u).1.2 = some e) :
    (syncSingleActivityState key ms u).1.1 = false := by
  revert h
  unfold syncSingleActivityState
  dsimp only
  split
  · simp
  · simp
  · split
    · simp
    · split_ifs
      · simp
      · split <;> simp
      · split <;> simp

theorem syncActivitiesLoop_cons_err (key : WorkflowKey) (ms : MutableState) (any : Bool)
    (u : ActivitySyncInfo) (rest : List ActivitySyncInfo) (e : ServiceError)
    (h : (syncSingleActivityState key ms u).1.2 = some e) :
    syncActivitiesLoop key ms any (u :: rest) =
      { err := some e, anyEventApplied := any,
        mutableState := (syncSingleActivityState key ms u).2,
        calls := [Op.syncSingleActivityState u false (some e)] } := by
  have hna := syncSingleActivityState_err_not_applied key ms u e h
  simp only [syncActivitiesLoop, h, hna]

theorem syncActivitiesLoop_cons_ok (key : WorkflowKey) (ms : MutableState) (any : Bool)
    (u : ActivitySyncInfo) (rest : List ActivitySyncInfo)
    (h : (syncSingleActivityState key ms u).1.2 = none) :
    syncActivitiesLoop key ms any (u :: rest) =
      { err := (syncActivitiesLoop key (syncSingleActivityState key ms u).2
          (any || (syncSingleActivityState key ms u).1.1) rest).err,
        anyEventApplied := (syncActivitiesLoop key (syncSingleActivityState key ms u).2
          (any || (syncSingleActivityState key ms u).1.1) rest).anyEventApplied,
        mutableState := (syncActivitiesLoop key (syncSingleActivityState key ms u).2
          (any || (syncSingleActivityState key ms u).1.1) rest).mutableState,
        calls := Op.syncSingleActivityState u (syncSingleActivityState key ms u).1.1 none ::
          (syncActivitiesLoop key (syncSingleActivityState key ms u).2
            (any || (syncSingleActivityState key ms u).1.1) rest).calls } := by
  simp only [syncActivitiesLoop, h]

theorem syncActivitiesLoop_calls_isSync (key : WorkflowKey) (infos : List ActivitySyncInfo) :
    ∀ (ms : MutableState) (any : Bool), ∀ op ∈ (syncActivitiesLoop key ms any infos).calls,
      op.isSync = true := by
  induction infos with
  | nil => intro ms any op h; simp [syncActivitiesLoop] at h
  | cons u rest ih =>
    intro ms any op h
    cases hr : (syncSingleActivityState key ms u).1.2 with
    | some e =>
      rw [syncActivitiesLoop_cons_err key ms any u rest e hr] at h
      simp only [List.mem_singleton] at h
      subst h
      rfl
    | none =>
      rw [syncActivitiesLoop_cons_ok key ms any u rest hr] at h
      simp only [List.mem_cons] at h
      rcases h with h | h
      · subst h
        rfl
      · exact ih _ _ op h

theorem syncActivitiesLoop_anyEventApplied (key : WorkflowKey) (infos : List ActivitySyncInfo) :
    ∀ (ms : MutableState) (any : Bool),
      (syncActivitiesLoop key ms any infos).anyEventApplied =
        (any || (syncActivitiesLoop key ms any infos).calls.any Op.isApplied) := by
  induction infos with
  | nil => intro ms any; simp [syncActivitiesLoop]
  | cons u rest ih =>
    intro ms any
    cases hr : (syncSingleActivityState key ms u).1.2 with
    | some e =>
      rw [syncActivitiesLoop_cons_err key ms any u rest e hr]
      simp [Op.isApplied]
    | none =>
      rw [syncActivitiesLoop_cons_ok key ms any u rest hr]
      simp only [List.any_cons, Op.isApplied]
      rw [ih, Bool.or_assoc]

theorem syncActivitiesLoop_calls_of_no_error (key : WorkflowKey)
    (infos : List ActivitySyncInfo) :
    ∀ (ms : MutableState) (any : Bool), (syncActivitiesLoop key ms any infos).err = none →
      List.Forall₂ (fun op info => ∃ applied, op = Op.syncSingleActivityState info applied none)
        (syncActivitiesLoop key ms any infos).calls infos := by
  induction infos with
  | nil => intro ms any _; simp [syncActivitiesLoop]
  | cons u rest ih =>
    intro ms any h
    cases hr : (syncSingleActivityState key ms u).1.2 with
    | some e =>
      rw [syncActivitiesLoop_cons_err key ms any u rest e hr] at h
      cases h
    | none =>
      rw [syncActivitiesLoop_cons_ok key ms any u rest hr] at h ⊢
      exact List.Forall₂.cons ⟨_, rfl⟩ (ih _ _ h)

theorem syncActivitiesStateBody_of_loop_err (c : Collaborators) (request : SyncActivitiesRequest)
    (ms : MutableState) (e : ServiceError) (hload : c.LoadMutableState = .ok ms)
    (he : (syncActivitiesLoop request.workflowKey ms false request.ActivitiesInfo).err = some e) :
    syncActivitiesStateBody c request =
      { err := some e
        ops := Op.LoadMutableState ::
          (syncActivitiesLoop request.workflowKey ms false request.ActivitiesInfo).calls
        mutableState := some
          (syncActivitiesLoop request.workflowKey ms false request.ActivitiesInfo).mutableState } := by
  simp only [syncActivitiesStateBody, hload, he]

theorem syncActivitiesStateBody_of_none_applied (c : Collaborators)
    (request : SyncActivitiesRequest) (ms : MutableState) (hload : c.LoadMutableState = .ok ms)
    (he : (syncActivitiesLoop request.workflowKey ms false request.ActivitiesInfo).err = none)
    (ha : (syncActivitiesLoop request.workflowKey ms false
      request.ActivitiesInfo).anyEventApplied = false) :
    syncActivitiesStateBody c request =
      { err := some .ErrDuplicate
        ops := Op.LoadMutableState ::
          (syncActivitiesLoop request.workflowKey ms false request.ActivitiesInfo).calls
        mutableState := some
          (syncActivitiesLoop request.workflowKey ms false request.ActivitiesInfo).mutableState } := by
  simp [syncActivitiesStateBody, hload, he, ha]

theorem syncActivitiesStateBody_of_applied (c : Collaborators)
    (request : SyncActivitiesRequest) (ms : MutableState) (hload : c.LoadMutableState = .ok ms)
    (he : (syncActivitiesLoop request.workflowKey ms false request.ActivitiesInfo).err = none)
    (ha : (syncActivitiesLoop request.workflowKey ms false
      request.ActivitiesInfo).anyEventApplied = true) :
    syncActivitiesStateBody c request =
      { err := (createTimerAndCommit c (syncActivitiesLoop request.workflowKey ms false
          request.ActivitiesInfo).mutableState).err
        ops := Op.LoadMutableState ::
          ((syncActivitiesLoop request.workflowKey ms false request.ActivitiesInfo).calls ++
            (createTimerAndCommit c (syncActivitiesLoop request.workflowKey ms false
              request.ActivitiesInfo).mutableState).ops)
        mutableState := (createTimerAndCommit c (syncActivitiesLoop request.workflowKey ms false
          request.ActivitiesInfo).mutableState).mutableState } := by
  simp [syncActivitiesStateBody, hload, he, ha]

theorem syncActivitiesStateBody_of_not_found (c : Collaborators)
    (request : SyncActivitiesRequest) (msg : String)
    (hload : c.LoadMutableState = .error (.NotFound msg)) :
    syncActivitiesStateBody c request =
      { err := none, ops := [Op.LoadMutableState], mutableState := none } := by
  simp only [syncActivitiesStateBody, hload]

theorem syncActivitiesStateBody_of_load_error (c : Collaborators)
    (request : SyncActivitiesRequest) (e : ServiceError)
    (hload : c.LoadMutableState = .error e) (hne : ∀ msg, e ≠ .NotFound msg) :
    syncActivitiesStateBody c request =
      { err := some e, ops := [Op.LoadMutableState], mutableState := none } := by
  unfold syncActivitiesStateBody
  split
  · rename_i msg h
    rw [hload] at h
    injection h with h
    exact absurd h (hne msg)
  · rename_i e2 _ h
    rw [hload] at h
    injection h with h
    subst h
    rfl
  · rename_i ms h
    rw [hload] at h
    cases h

theorem syncActivityStateBody_of_not_found (c : Collaborators)
    (request : SyncActivityRequest) (msg : String)
    (hload : c.LoadMutableState = .error (.NotFound msg)) :
    syncActivityStateBody c request =
      { err := none, ops := [Op.LoadMutableState], mutableState := none } := by
  simp only [syncActivityStateBody, hload]

theorem syncActivityStateBody_of_load_error (c : Collaborators)
    (request : SyncActivityRequest) (e : ServiceError)
    (hload : c.LoadMutableState = .error e) (hne : ∀ msg, e ≠ .NotFound msg) :
    syncActivityStateBody c request =
      { err := some e, ops := [Op.LoadMutableState], mutableState := none } := by
  unfold syncActivityStateBody
  split
  · rename_i msg h
    rw [hload] at h
    injection h with h
    exact absurd h (hne msg)
  · rename_i e2 _ h
    rw [hload] at h
    injection h with h
    subst h
    rfl
  · rename_i ms h
    rw [hload] at h
    cases h

theorem syncActivityStateBody_of_err (c : Collaborators) (request : SyncActivityRequest)
    (ms : MutableState) (e : ServiceError) (hload : c.LoadMutableState = .ok ms)
    (he : (syncSingleActivityState request.workflowKey ms request.toActivitySyncInfo).1.2
      = some e) :
    syncActivityStateBody c request =
      { err := some e
        ops := [Op.LoadMutableState,
          Op.syncSingleActivityState request.toActivitySyncInfo false (some e)]
        mutableState := some
          (syncSingleActivityState request.workflowKey ms request.toActivitySyncInfo).2 } := by
  have hna := syncSingleActivityState_err_not_applied _ _ _ e he
  simp only [syncActivityStateBody, hload, he, hna]

theorem syncActivityStateBody_of_not_applied (c : Collaborators) (request : SyncActivityRequest)
    (ms : MutableState) (hload : c.LoadMutableState = .ok ms)
    (he : (syncSingleActivityState request.workflowKey ms request.toActivitySyncInfo).1.2 = none)
    (ha : (syncSingleActivityState request.workflowKey ms request.toActivitySyncInfo).1.1
      = false) :
    syncActivityStateBody c request =
      { err := some .ErrDuplicate
        ops := [Op.LoadMutableState,
          Op.syncSingleActivityState request.toActivitySyncInfo false none]
        mutableState := some
          (syncSingleActivityState request.workflowKey ms request.toActivitySyncInfo).2 } := by
  simp [syncActivityStateBody, hload, he, ha]

theorem syncActivityStateBody_of_applied (c : Collaborators) (request : SyncActivityRequest)
    (ms : MutableState) (hload : c.LoadMutableState = .ok ms)
    (he : (syncSingleActivityState request.workflowKey ms request.toActivitySyncInfo).1.2 = none)
    (ha : (syncSingleActivityState request.workflowKey ms request.toActivitySyncInfo).1.1
      = true) :
    syncActivityStateBody c request =
      { err := (createTimerAndCommit c
          (syncSingleActivityState request.workflowKey ms request.toActivitySyncInfo).2).err
        ops := Op.LoadMutableState ::
          Op.syncSingleActivityState request.toActivitySyncInfo true none ::
          (createTimerAndCommit c
            (syncSingleActivityState request.workflowKey ms request.toActivitySyncInfo).2).ops
        mutableState := (createTimerAndCommit c
          (syncSingleActivityState request.workflowKey ms request.toActivitySyncInfo).2).mutableState } := by
  simp [syncActivityStateBody, hload, he, ha]

theorem createTimerAndCommit_of_timer_error (c : Collaborators) (ms ms1 : MutableState)
    (b : Bool) (e : ServiceError) (h : c.CreateNextActivityTimer ms = ((b, some e), ms1)) :
    createTimerAndCommit c ms =
      { err := some e, ops := [Op.CreateNextActivityTimer], mutableState := some ms1 } := by
  simp only [createTimerAndCommit, h]

theorem createTimerAndCommit_of_timer_ok (c : Collaborators) (ms ms1 : MutableState)
    (b : Bool) (h : c.CreateNextActivityTimer ms = ((b, none), ms1)) :
    createTimerAndCommit c ms =
      if c.EnableUpdateWorkflowModeIgnoreCurrent then
        { err := c.UpdateWorkflowExecutionAsPassive ms1
          ops := [Op.CreateNextActivityTimer, Op.UpdateWorkflowExecutionAsPassive]
          mutableState := some ms1 }
      else
        { err := c.UpdateWorkflowExecutionWithNew ms1
            (if ms1.state = WorkflowExecutionState.ZOMBIE then UpdateWorkflowMode.BypassCurrent
              else UpdateWorkflowMode.UpdateCurrent) TransactionPolicy.Passive
          ops := [Op.CreateNextActivityTimer,
            Op.UpdateWorkflowExecutionWithNew
              (if ms1.state = WorkflowExecutionState.ZOMBIE then UpdateWorkflowMode.BypassCurrent
                else UpdateWorkflowMode.UpdateCurrent) none TransactionPolicy.Passive none]
          mutableState := some ms1 } := by
  simp only [createTimerAndCommit, h]

/-- The timer sequence is asked exactly once by the shared tail, as its first step, and no
step of the tail is a release or a call of `syncSingleActivityState`. -/
theorem createTimerAndCommit_ops (c : Collaborators) (ms : MutableState) :
    (createTimerAndCommit c ms).ops.count Op.CreateNextActivityTimer = 1 ∧
    (∀ op ∈ (createTimerAndCommit c ms).ops, op.isRelease = false) ∧
    (∀ op ∈ (createTimerAndCommit c ms).ops, op.isSync = false) := by
  rcases hc : c.CreateNextActivityTimer ms with ⟨⟨b, oe⟩, ms1⟩
  cases oe with
  | some e =>
    rw [createTimerAndCommit_of_timer_error c ms ms1 b e hc]
    simp [Op.isRelease, Op.isSync]
  | none =>
    rw [createTimerAndCommit_of_timer_ok c ms ms1 b hc]
    split_ifs <;> simp [Op.isRelease, Op.isSync]

theorem createTimerAndCommit_err_ne_duplicate (c : Collaborators) (ms : MutableState)
    (hcoll : ∀ ms1, (c.CreateNextActivityTimer ms1).1.2 ≠ some .ErrDuplicate ∧
        c.UpdateWorkflowExecutionAsPassive ms1 ≠ some .ErrDuplicate ∧
        ∀ mode policy, c.UpdateWorkflowExecutionWithNew ms1 mode policy ≠ some .ErrDuplicate) :
    (createTimerAndCommit c ms).err ≠ some .ErrDuplicate := by
  rcases hc : c.CreateNextActivityTimer ms with ⟨⟨b, oe⟩, ms1⟩
  cases oe with
  | some e =>
    rw [createTimerAndCommit_of_timer_error c ms ms1 b e hc]
    have := (hcoll ms).1
    rw [hc] at this
    exact this
  | none =>
    rw [createTimerAndCommit_of_timer_ok c ms ms1 b hc]
    split_ifs
    · exact (hcoll ms1).2.1
    · exact (hcoll ms1).2.2 _ _
    · exact (hcoll ms1).2.2 _ _

theorem isRelease_of_isSync (op : Op) (h : op.isSync = true) : op.isRelease = false := by
  cases op <;> first | rfl | simp [Op.isSync] at h

theorem syncActivityStateBody_ops_not_release (c : Collaborators)
    (request : SyncActivityRequest) :
    ∀ op ∈ (syncActivityStateBody c request).ops, op.isRelease = false := by
  have ht := fun ms => (createTimerAndCommit_ops c ms).2.1
  cases hload : c.LoadMutableState with
  | error e =>
    by_cases hnf : ∃ msg, e = .NotFound msg
    · obtain ⟨msg, rfl⟩ := hnf
      rw [syncActivityStateBody_of_not_found c request msg hload]
      simp [Op.isRelease]
    · push_neg at hnf
      rw [syncActivityStateBody_of_load_error c request e hload hnf]
      simp [Op.isRelease]
  | ok ms =>
    cases herr : (syncSingleActivityState request.workflowKey ms
        request.toActivitySyncInfo).1.2 with
    | some e =>
      rw [syncActivityStateBody_of_err c request ms e hload herr]
      simp [Op.isRelease]
    | none =>
      cases ha : (syncSingleActivityState request.workflowKey ms
          request.toActivitySyncInfo).1.1 with
      | false =>
        rw [syncActivityStateBody_of_not_applied c request ms hload herr ha]
        simp [Op.isRelease]
      | true =>
        rw [syncActivityStateBody_of_applied c request ms hload herr ha]
        intro op hop
        simp only [List.mem_cons] at hop
        rcases hop with h | h | h
        · subst h; rfl
        · subst h; rfl
        · exact ht _ op h

theorem syncActivitiesStateBody_ops_not_release (c : Collaborators)
    (request : SyncActivitiesRequest) :
    ∀ op ∈ (syncActivitiesStateBody c request).ops, op.isRelease = false := by
  have ht := fun ms => (createTimerAndCommit_ops c ms).2.1
  have hs : ∀ ms, ∀ op ∈ (syncActivitiesLoop request.workflowKey ms false
      request.ActivitiesInfo).calls, op.isRelease = false :=
    fun ms op hop => isRelease_of_isSync op (syncActivitiesLoop_calls_isSync _ _ _ _ op hop)
  cases hload : c.LoadMutableState with
  | error e =>
    by_cases hnf : ∃ msg, e = .NotFound msg
    · obtain ⟨msg, rfl⟩ := hnf
      rw [syncActivitiesStateBody_of_not_found c request msg hload]
      simp [Op.isRelease]
    · push_neg at hnf
      rw [syncActivitiesStateBody_of_load_error c request e hload hnf]
      simp [Op.isRelease]
  | ok ms =>
    cases herr : (syncActivitiesLoop request.workflowKey ms false
        request.ActivitiesInfo).err with
    | some e =>
      rw [syncActivitiesStateBody_of_loop_err c request ms e hload herr]
      intro op hop
      simp only [List.mem_cons] at hop
      rcases hop with h | h
      · subst h; rfl
      · exact hs _ op h
    | none =>
      cases ha : (syncActivitiesLoop request.workflowKey ms false
          request.ActivitiesInfo).anyEventApplied with
      | false =>
        rw [syncActivitiesStateBody_of_none_applied c request ms hload herr ha]
        intro op hop
        simp only [List.mem_cons] at hop
        rcases hop with h | h
        · subst h; rfl
        · exact hs _ op h
      | true =>
        rw [syncActivitiesStateBody_of_applied c request ms hload herr ha]
        intro op hop
        simp only [List.mem_cons, List.mem_append] at hop
        rcases hop with h | h | h
        · subst h; rfl
        · exact hs _ op h
        · exact ht _ op h

theorem filter_eq_nil_of_forall_false {α : Type} (p : α → Bool) (l : List α)
    (h : ∀ a ∈ l, p a = false) : l.filter p = [] := by
  rw [List.filter_eq_nil_iff]
  intro a ha
  rw [h a ha]
  simp

/-- The releases in the trace of a leased body: none if the lease was refused, otherwise exactly
one, the last step, carrying the error that is returned. -/
theorem withLease_release (c : Collaborators) (namespaceID workflowID runID : String)
    (body : SyncOutcome) (hbody : ∀ op ∈ body.ops, op.isRelease = false) :
    (∀ e, c.GetOrCreateWorkflowExecution = some e →
      (withLease c namespaceID workflowID runID body).err = some e ∧
      (withLease c namespaceID workflowID runID body).ops.filter Op.isRelease = []) ∧
    (c.GetOrCreateWorkflowExecution = none →
      (withLease c namespaceID workflowID runID body).ops.filter Op.isRelease
        = [Op.release (withLease c namespaceID workflowID runID body).err] ∧
      (withLease c namespaceID workflowID runID body).ops.getLast?
        = some (Op.release (withLease c namespaceID workflowID runID body).err)) := by
  constructor
  · intro e he
    simp [withLease, he, Op.isRelease]
  · intro hn
    simp only [withLease, hn]
    constructor
    · rw [List.cons_append, List.filter_cons, List.filter_append,
        filter_eq_nil_of_forall_false _ _ hbody]
      simp [Op.isRelease]
    · rw [List.cons_append, ← List.cons_append, List.getLast?_append]
      simp

theorem sampleUpdate_applied :
    syncSingleActivityState sampleKey sampleState sampleUpdate =
      ((true, none),
        { sampleState with pendingActivityInfoIDs := [(5, sampleActivityUpdated)] }) := by
  simp [syncSingleActivityState, compareVersionHistory, GetCurrentVersionHistory,
    GetLastVersionHistoryItem, IsLCAVersionHistoryItemAppendable, FindLCAVersionHistoryItem,
    historyOf, stateOf, findLCAWalk, sampleState, sampleUpdate, sampleKey,
    MutableState.GetActivityInfo, List.lookup, compareActivity, sampleActivity,
    MutableState.UpdateActivityInfo, EmptyEventID, applyActivitySyncInfo,
    ShouldResetActivityTimerTaskMask, sampleActivityUpdated]

theorem sampleZombie_applied :
    syncSingleActivityState sampleKey
        { sampleState with state := WorkflowExecutionState.ZOMBIE } sampleUpdate =
      ((true, none),
        { sampleState with
          state := WorkflowExecutionState.ZOMBIE
          pendingActivityInfoIDs := [(5, sampleActivityUpdated)] }) := by
  simp [syncSingleActivityState, compareVersionHistory, GetCurrentVersionHistory,
    GetLastVersionHistoryItem, IsLCAVersionHistoryItemAppendable, FindLCAVersionHistoryItem,
    historyOf, stateOf, findLCAWalk, sampleState, sampleUpdate, sampleKey,
    MutableState.GetActivityInfo, List.lookup, compareActivity, sampleActivity,
    MutableState.UpdateActivityInfo, EmptyEventID, applyActivitySyncInfo,
    ShouldResetActivityTimerTaskMask, sampleActivityUpdated]

theorem sampleLoop_eval :
    syncActivitiesLoop sampleKey sampleState false [sampleUpdate, sampleUpdateStamp2] =
      { err := none, anyEventApplied := true, mutableState := sampleStateAfterBoth,
        calls := [Op.syncSingleActivityState sampleUpdate true none,
          Op.syncSingleActivityState sampleUpdateStamp2 true none] } := by
  simp [syncActivitiesLoop, syncSingleActivityState, compareVersionHistory, GetCurrentVersionHistory,
    GetLastVersionHistoryItem, IsLCAVersionHistoryItemAppendable, FindLCAVersionHistoryItem,
    historyOf, stateOf, findLCAWalk, sampleState, sampleUpdate, sampleKey, sampleUpdateStamp2,
    MutableState.GetActivityInfo, List.lookup, compareActivity, sampleActivity,
    MutableState.UpdateActivityInfo, EmptyEventID, applyActivitySyncInfo,
    ShouldResetActivityTimerTaskMask, sampleActivityUpdated, sampleStateAfterBoth,
    sampleActivityAfterBoth]

theorem sampleStaleLoop_eval :
    syncActivitiesLoop sampleKey sampleStateAfterBoth false [sampleUpdate, sampleUpdate] =
      { err := none, anyEventApplied := false, mutableState := sampleStateAfterBoth,
        calls := [Op.syncSingleActivityState sampleUpdate false none,
          Op.syncSingleActivityState sampleUpdate false none] } := by
  simp [syncActivitiesLoop, syncSingleActivityState, compareVersionHistory, GetCurrentVersionHistory,
    GetLastVersionHistoryItem, IsLCAVersionHistoryItemAppendable, FindLCAVersionHistoryItem,
    historyOf, stateOf, findLCAWalk, sampleState, sampleUpdate, sampleKey,
    MutableState.GetActivityInfo, List.lookup, compareActivity, sampleStateAfterBoth,
    sampleActivityAfterBoth]

/-! ## Auxiliary lemmas on the timer sequence -/

theorem TimerSequenceIDs.Less_iff (a b : TimerSequenceID) :
    TimerSequenceIDs.Less a b = true ↔
      a.Timestamp.sec < b.Timestamp.sec ∨ (a.Timestamp.sec = b.Timestamp.sec ∧
        (a.Timestamp.nsec < b.Timestamp.nsec ∨ (a.Timestamp.nsec = b.Timestamp.nsec ∧
          (a.EventID < b.EventID ∨ (a.EventID = b.EventID ∧
            a.TimerType.toInt < b.TimerType.toInt))))) := by
  unfold TimerSequenceIDs.Less Time.Before Time.After
  rcases lt_trichotomy a.Timestamp.sec b.Timestamp.sec with h | h | h
  · simp [h]
  · rcases lt_trichotomy a.Timestamp.nsec b.Timestamp.nsec with h2 | h2 | h2
    · simp [h, h2]
    · rcases lt_trichotomy a.EventID b.EventID with h3 | h3 | h3
      · simp [h, h2, h3]
      · simp [h, h2, h3]
      · simp [h, h2, h3, not_lt_of_gt h3, ne_of_gt h3]
    · simp [h, h2, not_lt_of_gt h2, ne_of_gt h2]
  · simp [h, not_lt_of_gt h, ne_of_gt h]

theorem timerOrder_iff (a b : TimerSequenceID) :
    timerOrder a b ↔ ¬ TimerSequenceIDs.Less b a = true := by
  unfold timerOrder
  simp

theorem timerOrder_total (a b : TimerSequenceID) : timerOrder a b ∨ timerOrder b a := by
  rw [timerOrder_iff, timerOrder_iff, TimerSequenceIDs.Less_iff, TimerSequenceIDs.Less_iff]
  omega

theorem timerOrder_trans (a b c : TimerSequenceID) (hab : timerOrder a b)
    (hbc : timerOrder b c) : timerOrder a c := by
  rw [timerOrder_iff, TimerSequenceIDs.Less_iff] at *
  omega

theorem sorted_by_timerOrder (ms : MutableState) :
    List.Sorted timerOrder (LoadAndSortActivityTimers ms) :=
  @List.sorted_insertionSort _ timerOrder _ ⟨timerOrder_total⟩ ⟨timerOrder_trans⟩ _

theorem Time.Before_iff (t u : Time) :
    t.Before u = true ↔ t.sec < u.sec ∨ (t.sec = u.sec ∧ t.nsec < u.nsec) := by
  simp [Time.Before]

theorem Time.eq_iff (t u : Time) : t = u ↔ t.sec = u.sec ∧ t.nsec = u.nsec := by
  cases t
  cases u
  simp

/-! ## The activity comparator -/

/-- C1: when the incoming version differs from the local version, `compareActivity` answers
"apply" exactly when the local version is strictly lower than the incoming one, whatever the
stamps, attempts and heartbeat times are. -/
theorem compareActivity_version_differs (version attempt stamp : Int) (lastHeartbeatTime : Time)
    (activityInfo : ActivityInfo) (hne : activityInfo.Version ≠ version) :
    compareActivity version attempt stamp lastHeartbeatTime activityInfo = true ↔
      activityInfo.Version < version := by
  rw [compareActivity_true_iff]
  constructor
  · rintro (h | ⟨h, _⟩)
    · exact h
    · exact absurd h hne
  · intro h
    exact Or.inl h

/-- Instance of C1: local version 3 against incoming version 7 is applied although the local
stamp and attempt are higher. -/
theorem compareActivity_version_differs_witness :
    compareActivity 7 0 0 Time.zero { sampleActivity with Version := 3, Stamp := 9, Attempt := 9 }
      = true ↔ (3 : Int) < 7 :=
  compareActivity_version_differs 7 0 0 Time.zero
    { sampleActivity with Version := 3, Stamp := 9, Attempt := 9 } (by decide)

/-- C2: with equal versions and different stamps, `compareActivity` answers "apply" exactly when
the incoming stamp is strictly higher than the local stamp, whatever the attempt and heartbeat
time are; and `syncSingleActivityState`, once the version histories agree and the activity is
found, applies the update exactly when the update's stamp is higher than the local one, whatever
the update's attempt is. -/
theorem compareActivity_stamp_differs (activityInfo : ActivityInfo) (u : ActivitySyncInfo)
    (attempt : Int) (lastHeartbeatTime : Time)
    (hv : activityInfo.Version = u.Version) (hs : activityInfo.Stamp ≠ u.Stamp) :
    (compareActivity u.Version attempt u.Stamp lastHeartbeatTime activityInfo = true ↔
      activityInfo.Stamp < u.Stamp) ∧
    (∀ (key : WorkflowKey) (ms : MutableState),
      compareVersionHistory key.NamespaceID key.WorkflowID key.RunID u.ScheduledEventId ms
        u.VersionHistory = (true, none) →
      ms.GetActivityInfo u.ScheduledEventId = some activityInfo →
      (syncSingleActivityState key ms u).1 = (decide (activityInfo.Stamp < u.Stamp), none)) := by
  have key : ∀ (a : Int) (t : Time),
      (compareActivity u.Version a u.Stamp t activityInfo = true ↔
        activityInfo.Stamp < u.Stamp) := by
    intro a t
    rw [compareActivity_true_iff]
    constructor
    · rintro (h | ⟨_, h | ⟨h, _⟩⟩)
      · omega
      · exact h
      · exact absurd h hs
    · intro h
      exact Or.inr ⟨hv, Or.inl h⟩
  refine ⟨key attempt lastHeartbeatTime, ?_⟩
  intro k ms hvh hget
  rw [syncSingleActivityState_applied k ms u activityInfo hvh hget]
  congr 1
  rw [Bool.eq_iff_iff, key, decide_eq_true_iff]

/-- C3: `compareActivity` orders (version, stamp, attempt, heartbeat time) lexicographically;
with equal version and equal stamp but different attempts it answers "apply" exactly when the
local attempt is strictly lower than the incoming one, whatever the heartbeat times are. -/
theorem compareActivity_attempt_differs (version attempt stamp : Int) (lastHeartbeatTime : Time)
    (activityInfo : ActivityInfo) :
    (compareActivity version attempt stamp lastHeartbeatTime activityInfo = true ↔
      activityInfo.Version < version ∨ (activityInfo.Version = version ∧
        (activityInfo.Stamp < stamp ∨ (activityInfo.Stamp = stamp ∧
          (activityInfo.Attempt < attempt ∨ (activityInfo.Attempt = attempt ∧
            ¬ ∃ hb, activityInfo.LastHeartbeatUpdateTime = some hb ∧ hb.AsTime.IsZero = false ∧
              hb.AsTime.After lastHeartbeatTime = true)))))) ∧
    (activityInfo.Version = version → activityInfo.Stamp = stamp →
      activityInfo.Attempt ≠ attempt →
      (compareActivity version attempt stamp lastHeartbeatTime activityInfo = true ↔
        activityInfo.Attempt < attempt)) := by
  refine ⟨compareActivity_true_iff version attempt stamp lastHeartbeatTime activityInfo, ?_⟩
  intro hv hs ha
  rw [compareActivity_true_iff]
  constructor
  · rintro (h | ⟨_, h | ⟨_, h | ⟨h, _⟩⟩⟩)
    · omega
    · omega
    · exact h
    · exact absurd h ha
  · intro h
    exact Or.inr ⟨hv, Or.inr ⟨hs, Or.inl h⟩⟩

/-- C4: with equal version, stamp and attempt, `compareActivity` answers "discard" exactly when
the local last heartbeat time is set, is not the zero time and is strictly after the incoming
last heartbeat time; otherwise it answers "apply". -/
theorem compareActivity_heartbeat (version attempt stamp : Int) (lastHeartbeatTime : Time)
    (activityInfo : ActivityInfo) (hv : activityInfo.Version = version)
    (hs : activityInfo.Stamp = stamp) (ha : activityInfo.Attempt = attempt) :
    (compareActivity version attempt stamp lastHeartbeatTime activityInfo = false ↔
      ∃ hb, activityInfo.LastHeartbeatUpdateTime = some hb ∧ hb.AsTime.IsZero = false ∧
        hb.AsTime.After lastHeartbeatTime = true) ∧
    ((¬ ∃ hb, activityInfo.LastHeartbeatUpdateTime = some hb ∧ hb.AsTime.IsZero = false ∧
        hb.AsTime.After lastHeartbeatTime = true) →
      compareActivity version attempt stamp lastHeartbeatTime activityInfo = true) := by
  have h := compareActivity_true_iff version attempt stamp lastHeartbeatTime activityInfo
  have h2 : compareActivity version attempt stamp lastHeartbeatTime activityInfo = true ↔
      ¬ ∃ hb, activityInfo.LastHeartbeatUpdateTime = some hb ∧ hb.AsTime.IsZero = false ∧
        hb.AsTime.After lastHeartbeatTime = true := by
    rw [h]
    constructor
    · rintro (h | ⟨_, h | ⟨_, h | ⟨_, h⟩⟩⟩)
      · omega
      · omega
      · omega
      · exact h
    · intro hn
      exact Or.inr ⟨hv, Or.inr ⟨hs, Or.inr ⟨ha, hn⟩⟩⟩
  refine ⟨?_, h2.mpr⟩
  rw [← Bool.not_eq_true, h2, not_not]

/-- Instance of C2: local (version 1, stamp 1, attempt 1) against an update at version 1,
stamp 2, attempt 0 is applied, by the comparator and by the driver. -/
theorem compareActivity_stamp_differs_witness :
    (compareActivity 1 7 2 Time.zero sampleActivity = true ↔ (1 : Int) < 2) ∧
    (syncSingleActivityState sampleKey sampleState sampleUpdateStamp2).1 = (true, none) :=
  ⟨(compareActivity_stamp_differs sampleActivity sampleUpdateStamp2 7 Time.zero
      (by decide) (by decide)).1,
   (compareActivity_stamp_differs sampleActivity sampleUpdateStamp2 7 Time.zero
      (by decide) (by decide)).2 sampleKey sampleState
      (by simp [compareVersionHistory, GetCurrentVersionHistory, GetLastVersionHistoryItem,
            IsLCAVersionHistoryItemAppendable, FindLCAVersionHistoryItem, historyOf, stateOf,
            findLCAWalk, sampleState, sampleUpdateStamp2, sampleUpdate, sampleKey])
      (by rfl)⟩

/-- Instance of C3: local (version 1, stamp 1, attempt 1) against an incoming (1, 1, attempt 4)
is applied because 1 < 4. -/
theorem compareActivity_attempt_differs_witness :
    compareActivity 1 4 1 Time.zero sampleActivity = true ↔ (1 : Int) < 4 :=
  (compareActivity_attempt_differs 1 4 1 Time.zero sampleActivity).2 (by decide) (by decide)
    (by decide)

/-- Instance of C4: a local heartbeat at Unix second 1700000000 against the same version, stamp
and attempt with an incoming heartbeat one second earlier is discarded. -/
theorem compareActivity_heartbeat_witness :
    compareActivity 1 2 1 (Timestamp.AsTime { seconds := 1699999999, nanos := 0 })
      sampleActivityUpdated = false :=
  ((compareActivity_heartbeat 1 2 1 (Timestamp.AsTime { seconds := 1699999999, nanos := 0 })
      sampleActivityUpdated (by decide) (by decide) (by decide)).1).mpr
    ⟨{ seconds := 1700000000, nanos := 0 }, rfl, by decide, by decide⟩

/-- C5, counterexample: `sampleUpdate` is accepted against `sampleActivity`; against the
activity that carries the update's version, stamp, attempt and last heartbeat time the same
update is accepted again, not discarded. -/
theorem second_comparison_accepts_example :
    compareActivity sampleUpdate.Version sampleUpdate.Attempt sampleUpdate.Stamp
        (TimeValue sampleUpdate.LastHeartbeatTime) sampleActivity = true ∧
    (sampleActivityUpdated.Version = sampleUpdate.Version ∧
      sampleActivityUpdated.Stamp = sampleUpdate.Stamp ∧
      sampleActivityUpdated.Attempt = sampleUpdate.Attempt ∧
      sampleActivityUpdated.LastHeartbeatUpdateTime = sampleUpdate.LastHeartbeatTime) ∧
    compareActivity sampleUpdate.Version sampleUpdate.Attempt sampleUpdate.Stamp
        (TimeValue sampleUpdate.LastHeartbeatTime) sampleActivityUpdated ≠ false := by
  decide

/-- C5, amended: once the activity info carries the update's version, stamp, attempt and last
heartbeat time, comparing the same update against it again yields "apply": a tie on all four
compared values is accepted. -/
theorem compareActivity_second_time_applies (activityInfo : ActivityInfo)
    (u : ActivitySyncInfo) (hv : activityInfo.Version = u.Version)
    (hs : activityInfo.Stamp = u.Stamp) (ha : activityInfo.Attempt = u.Attempt)
    (hh : activityInfo.LastHeartbeatUpdateTime = u.LastHeartbeatTime) :
    compareActivity u.Version u.Attempt u.Stamp (TimeValue u.LastHeartbeatTime) activityInfo
      = true := by
  rw [compareActivity_true_iff]
  refine Or.inr ⟨hv, Or.inr ⟨hs, Or.inr ⟨ha, ?_⟩⟩⟩
  rintro ⟨hb, h1, _, h3⟩
  rw [← hh, h1] at h3
  simp [TimeValue, Time.After_irrefl] at h3

/-- Instance of the amended C5 at `sampleUpdate`. -/
theorem compareActivity_second_time_applies_witness :
    compareActivity 1 2 1 (TimeValue (some { seconds := 1700000000, nanos := 0 }))
      sampleActivityUpdated = true :=
  compareActivity_second_time_applies sampleActivityUpdated sampleUpdate rfl rfl rfl rfl

/-- C6: for updates U1 (version 1, stamp 1) and U2 (version 1, stamp 2) and any local activity,
processing U1 then U2 and processing U2 then U1 both end in the activity info that processing
U2 alone produces. -/
theorem processActivityUpdate_reorder (activityInfo : ActivityInfo) (u1 u2 : ActivitySyncInfo)
    (h1v : u1.Version = 1) (h1s : u1.Stamp = 1) (h2v : u2.Version = 1) (h2s : u2.Stamp = 2) :
    processActivityUpdate (processActivityUpdate activityInfo u1) u2
        = processActivityUpdate activityInfo u2 ∧
    processActivityUpdate (processActivityUpdate activityInfo u2) u1
        = processActivityUpdate activityInfo u2 := by
  constructor
  · by_cases c1 : compareActivity u1.Version u1.Attempt u1.Stamp
        (TimeValue u1.LastHeartbeatTime) activityInfo = true
    · have c2 : compareActivity u2.Version u2.Attempt u2.Stamp
          (TimeValue u2.LastHeartbeatTime) activityInfo = true := by
        rw [compareActivity_true_iff] at c1 ⊢
        rcases c1 with h | ⟨hv, h | ⟨hs, _⟩⟩
        · exact Or.inl (by omega)
        · exact Or.inr ⟨by omega, Or.inl (by omega)⟩
        · exact Or.inr ⟨by omega, Or.inl (by omega)⟩
      have c3 : compareActivity u2.Version u2.Attempt u2.Stamp
          (TimeValue u2.LastHeartbeatTime) (overwriteCompared activityInfo u1) = true := by
        rw [compareActivity_true_iff]
        exact Or.inr ⟨by simp [overwriteCompared]; omega,
          Or.inl (by simp [overwriteCompared]; omega)⟩
      simp only [processActivityUpdate, c1, c2, c3, if_true]
      simp [overwriteCompared]
    · simp [processActivityUpdate, c1]
  · by_cases c2 : compareActivity u2.Version u2.Attempt u2.Stamp
        (TimeValue u2.LastHeartbeatTime) activityInfo = true
    · have c3 : ¬ compareActivity u1.Version u1.Attempt u1.Stamp
          (TimeValue u1.LastHeartbeatTime) (overwriteCompared activityInfo u2) = true := by
        rw [compareActivity_true_iff]
        simp only [overwriteCompared]
        rintro (h | ⟨_, h | ⟨h, _⟩⟩) <;> omega
      simp [processActivityUpdate, c2, c3]
    · have c3 : ¬ compareActivity u1.Version u1.Attempt u1.Stamp
          (TimeValue u1.LastHeartbeatTime) activityInfo = true := by
        rw [compareActivity_true_iff] at c2 ⊢
        rintro (h | ⟨hv, h | ⟨hs, _⟩⟩)
        · exact c2 (Or.inl (by omega))
        · exact c2 (Or.inr ⟨by omega, Or.inl (by omega)⟩)
        · exact c2 (Or.inr ⟨by omega, Or.inl (by omega)⟩)
      simp [processActivityUpdate, c2, c3]

/-- Instance of C6: starting from `sampleActivity`, both orders of an update at stamp 1 and an
update at stamp 2 end where the update at stamp 2 alone ends. -/
theorem processActivityUpdate_reorder_witness :
    processActivityUpdate (processActivityUpdate sampleActivity sampleUpdate) sampleUpdateStamp2
        = processActivityUpdate sampleActivity sampleUpdateStamp2 ∧
    processActivityUpdate (processActivityUpdate sampleActivity sampleUpdateStamp2) sampleUpdate
        = processActivityUpdate sampleActivity sampleUpdateStamp2 :=
  processActivityUpdate_reorder sampleActivity sampleUpdate sampleUpdateStamp2 rfl rfl rfl rfl

/-! ## The version-history comparator -/

/-- C7: when the LCA item equals the last item of the local current history or of the incoming
history, `compareVersionHistory` fails with the "resend missed events" retry-replication error
from (LCA event id, LCA version) to (EmptyEventID, EmptyVersion) if the scheduled event id is
strictly greater than the LCA event id, and returns no error if it is at most the LCA event
id. -/
theorem compareVersionHistory_pure_extension (namespaceID workflowID runID : String)
    (scheduledEventID : Int) (ms : MutableState) (incoming current : VersionHistory)
    (lastLocal lastIncoming lcaItem : VersionHistoryItem)
    (hcur : GetCurrentVersionHistory ms.versionHistories = .ok current)
    (hll : GetLastVersionHistoryItem current = .ok lastLocal)
    (hli : GetLastVersionHistoryItem incoming = .ok lastIncoming)
    (hlca : FindLCAVersionHistoryItem current incoming = .ok lcaItem)
    (hext : lcaItem = lastLocal ∨ lcaItem = lastIncoming) :
    (scheduledEventID > lcaItem.eventId →
      compareVersionHistory namespaceID workflowID runID scheduledEventID ms incoming =
        (false, some (.RetryReplication resendMissingEventMessage namespaceID workflowID runID
          lcaItem.eventId lcaItem.version EmptyEventID EmptyVersion))) ∧
    (scheduledEventID ≤ lcaItem.eventId →
      (compareVersionHistory namespaceID workflowID runID scheduledEventID ms incoming).2
        = none) := by
  rw [compareVersionHistory_eq namespaceID workflowID runID scheduledEventID ms incoming current
    lastLocal lastIncoming lcaItem hcur hll hli hlca, if_pos hext]
  constructor
  · intro h
    rw [if_pos h]
  · intro h
    rw [if_neg (by omega)]

/-- Instance of C7: the local history ends at event 50 with version 3, the incoming history
extends it to event 120, the update is scheduled at event 80: resend from (50, 3). -/
theorem compareVersionHistory_pure_extension_witness :
    compareVersionHistory "ns" "wf" "run" 80
        (stateOf [{ eventId := 50, version := 3 }] WorkflowExecutionState.RUNNING)
        (historyOf [{ eventId := 120, version := 3 }]) =
      (false, some (.RetryReplication resendMissingEventMessage "ns" "wf" "run" 50 3
        EmptyEventID EmptyVersion)) :=
  (compareVersionHistory_pure_extension "ns" "wf" "run" 80
    (stateOf [{ eventId := 50, version := 3 }] WorkflowExecutionState.RUNNING)
    (historyOf [{ eventId := 120, version := 3 }])
    (historyOf [{ eventId := 50, version := 3 }])
    { eventId := 50, version := 3 } { eventId := 120, version := 3 }
    { eventId := 50, version := 3 }
    rfl rfl rfl (by simp [FindLCAVersionHistoryItem, historyOf, findLCAWalk])
    (Or.inl rfl)).1 (by decide)

/-- C8: when the LCA item is the last item of neither history and the last version of the
incoming history is strictly greater than the last version of the local history,
`compareVersionHistory` fails with the "higher version" retry-replication error that starts at
(LCA event id, LCA version), for every scheduled event id. -/
theorem compareVersionHistory_diverged_higher (namespaceID workflowID runID : String)
    (scheduledEventID : Int) (ms : MutableState) (incoming current : VersionHistory)
    (lastLocal lastIncoming lcaItem : VersionHistoryItem)
    (hcur : GetCurrentVersionHistory ms.versionHistories = .ok current)
    (hll : GetLastVersionHistoryItem current = .ok lastLocal)
    (hli : GetLastVersionHistoryItem incoming = .ok lastIncoming)
    (hlca : FindLCAVersionHistoryItem current incoming = .ok lcaItem)
    (hdl : lcaItem ≠ lastLocal) (hdi : lcaItem ≠ lastIncoming)
    (hgt : lastIncoming.version > lastLocal.version) :
    compareVersionHistory namespaceID workflowID runID scheduledEventID ms incoming =
      (false, some (.RetryReplication resendHigherVersionMessage namespaceID workflowID runID
        lcaItem.eventId lcaItem.version EmptyEventID EmptyVersion)) := by
  rw [compareVersionHistory_eq namespaceID workflowID runID scheduledEventID ms incoming current
    lastLocal lastIncoming lcaItem hcur hll hli hlca,
    if_neg (by rintro (h | h); exact hdl h; exact hdi h), if_neg (by omega), if_pos hgt]

/-- Instance of C8: local last item (100, 5), incoming last item (90, 7), LCA (80, 5): resend
from (80, 5). -/
theorem compareVersionHistory_diverged_higher_witness :
    compareVersionHistory "ns" "wf" "run" 60
        (stateOf [{ eventId := 100, version := 5 }] WorkflowExecutionState.RUNNING)
        (historyOf [{ eventId := 80, version := 5 }, { eventId := 90, version := 7 }]) =
      (false, some (.RetryReplication resendHigherVersionMessage "ns" "wf" "run" 80 5
        EmptyEventID EmptyVersion)) :=
  compareVersionHistory_diverged_higher "ns" "wf" "run" 60
    (stateOf [{ eventId := 100, version := 5 }] WorkflowExecutionState.RUNNING)
    (historyOf [{ eventId := 80, version := 5 }, { eventId := 90, version := 7 }])
    (historyOf [{ eventId := 100, version := 5 }])
    { eventId := 100, version := 5 } { eventId := 90, version := 7 }
    { eventId := 80, version := 5 }
    rfl rfl rfl (by simp [FindLCAVersionHistoryItem, historyOf, findLCAWalk])
    (by decide) (by decide) (by decide)

/-- C9: when the LCA item is the last item of neither history and the last version of the
incoming history is strictly lower than the last version of the local history,
`compareVersionHistory` returns (false, nil): the update is discarded without error, for every
scheduled event id and every workflow state. -/
theorem compareVersionHistory_diverged_lower (namespaceID workflowID runID : String)
    (scheduledEventID : Int) (ms : MutableState) (incoming current : VersionHistory)
    (lastLocal lastIncoming lcaItem : VersionHistoryItem)
    (hcur : GetCurrentVersionHistory ms.versionHistories = .ok current)
    (hll : GetLastVersionHistoryItem current = .ok lastLocal)
    (hli : GetLastVersionHistoryItem incoming = .ok lastIncoming)
    (hlca : FindLCAVersionHistoryItem current incoming = .ok lcaItem)
    (hdl : lcaItem ≠ lastLocal) (hdi : lcaItem ≠ lastIncoming)
    (hlt : lastIncoming.version < lastLocal.version) :
    compareVersionHistory namespaceID workflowID runID scheduledEventID ms incoming =
      (false, none) := by
  rw [compareVersionHistory_eq namespaceID workflowID runID scheduledEventID ms incoming current
    lastLocal lastIncoming lcaItem hcur hll hli hlca,
    if_neg (by rintro (h | h); exact hdl h; exact hdi h), if_pos hlt]

/-- Instance of C9: local last item (100, 7), incoming last item (90, 5), LCA (80, 5): the update
is discarded without error. -/
theorem compareVersionHistory_diverged_lower_witness :
    compareVersionHistory "ns" "wf" "run" 60
        (stateOf [{ eventId := 80, version := 5 }, { eventId := 100, version := 7 }]
          WorkflowExecutionState.RUNNING)
        (historyOf [{ eventId := 90, version := 5 }]) = (false, none) :=
  compareVersionHistory_diverged_lower "ns" "wf" "run" 60
    (stateOf [{ eventId := 80, version := 5 }, { eventId := 100, version := 7 }]
      WorkflowExecutionState.RUNNING)
    (historyOf [{ eventId := 90, version := 5 }])
    (historyOf [{ eventId := 80, version := 5 }, { eventId := 100, version := 7 }])
    { eventId := 100, version := 7 } { eventId := 90, version := 5 }
    { eventId := 80, version := 5 }
    rfl rfl rfl (by simp [FindLCAVersionHistoryItem, historyOf, findLCAWalk])
    (by decide) (by decide) (by decide)

/-- C10, counterexample: a completed workflow whose history ends at event 50 receives an update
scheduled at event 80 on a history that extends the local one to event 120; the call returns
the "resend missed events" error, not (false, nil). -/
theorem completed_workflow_resend_example :
    (stateOf [{ eventId := 50, version := 3 }] WorkflowExecutionState.COMPLETED).state
        = WorkflowExecutionState.COMPLETED ∧
    compareVersionHistory "ns" "wf" "run" 80
        (stateOf [{ eventId := 50, version := 3 }] WorkflowExecutionState.COMPLETED)
        (historyOf [{ eventId := 50, version := 3 }, { eventId := 120, version := 4 }]) =
      (false, some (.RetryReplication resendMissingEventMessage "ns" "wf" "run" 50 3
        EmptyEventID EmptyVersion)) ∧
    compareVersionHistory "ns" "wf" "run" 80
        (stateOf [{ eventId := 50, version := 3 }] WorkflowExecutionState.COMPLETED)
        (historyOf [{ eventId := 50, version := 3 }, { eventId := 120, version := 4 }]) ≠
      (false, none) := by
  have h : compareVersionHistory "ns" "wf" "run" 80
        (stateOf [{ eventId := 50, version := 3 }] WorkflowExecutionState.COMPLETED)
        (historyOf [{ eventId := 50, version := 3 }, { eventId := 120, version := 4 }]) =
      (false, some (.RetryReplication resendMissingEventMessage "ns" "wf" "run" 50 3
        EmptyEventID EmptyVersion)) := by
    simp [compareVersionHistory, GetCurrentVersionHistory, GetLastVersionHistoryItem,
      IsLCAVersionHistoryItemAppendable, FindLCAVersionHistoryItem, historyOf, stateOf,
      findLCAWalk]
  refine ⟨rfl, h, ?_⟩
  rw [h]
  simp

/-- C10, amended: with a completed workflow (both histories non-empty with a common ancestor)
`compareVersionHistory` never answers "apply", and it returns (false, nil) exactly when the
version-history comparison raises no resend: in the pure-extension case with the scheduled event
id at most the LCA event id, and in the diverged case with the incoming last version at most the
local last version. -/
theorem compareVersionHistory_completed (namespaceID workflowID runID : String)
    (scheduledEventID : Int) (ms : MutableState) (incoming current : VersionHistory)
    (lastLocal lastIncoming lcaItem : VersionHistoryItem)
    (hst : ms.state = WorkflowExecutionState.COMPLETED)
    (hcur : GetCurrentVersionHistory ms.versionHistories = .ok current)
    (hll : GetLastVersionHistoryItem current = .ok lastLocal)
    (hli : GetLastVersionHistoryItem incoming = .ok lastIncoming)
    (hlca : FindLCAVersionHistoryItem current incoming = .ok lcaItem) :
    (compareVersionHistory namespaceID workflowID runID scheduledEventID ms incoming).1 = false ∧
    (compareVersionHistory namespaceID workflowID runID scheduledEventID ms incoming
        = (false, none) ↔
      ((lcaItem = lastLocal ∨ lcaItem = lastIncoming) ∧ scheduledEventID ≤ lcaItem.eventId) ∨
      (¬ (lcaItem = lastLocal ∨ lcaItem = lastIncoming) ∧
        lastIncoming.version ≤ lastLocal.version)) := by
  refine ⟨compareVersionHistory_fst_of_completed namespaceID workflowID runID scheduledEventID ms
    incoming hst, ?_⟩
  rw [compareVersionHistory_eq namespaceID workflowID runID scheduledEventID ms incoming current
    lastLocal lastIncoming lcaItem hcur hll hli hlca]
  by_cases hext : lcaItem = lastLocal ∨ lcaItem = lastIncoming
  · rw [if_pos hext]
    by_cases hs : scheduledEventID > lcaItem.eventId
    · rw [if_pos hs]
      simp [hext]
      omega
    · rw [if_neg hs]
      simp [hext, hst]
      omega
  · rw [if_neg hext]
    by_cases h1 : lastIncoming.version < lastLocal.version
    · rw [if_pos h1]
      simp [hext]
      omega
    · rw [if_neg h1]
      by_cases h2 : lastIncoming.version > lastLocal.version
      · rw [if_pos h2]
        simp [hext]
        omega
      · rw [if_neg h2]
        simp [hext, hst]
        omega

/-- Instance of the amended C10: a completed workflow whose history ends at event 50 and an
update scheduled at event 40 on a history extending the local one: discarded without error. -/
theorem compareVersionHistory_completed_witness :
    compareVersionHistory "ns" "wf" "run" 40
        (stateOf [{ eventId := 50, version := 3 }] WorkflowExecutionState.COMPLETED)
        (historyOf [{ eventId := 50, version := 3 }, { eventId := 70, version := 4 }])
      = (false, none) :=
  ((compareVersionHistory_completed "ns" "wf" "run" 40
    (stateOf [{ eventId := 50, version := 3 }] WorkflowExecutionState.COMPLETED)
    (historyOf [{ eventId := 50, version := 3 }, { eventId := 70, version := 4 }])
    (historyOf [{ eventId := 50, version := 3 }])
    { eventId := 50, version := 3 } { eventId := 70, version := 4 }
    { eventId := 50, version := 3 }
    rfl rfl rfl rfl (by simp [FindLCAVersionHistoryItem, historyOf, findLCAWalk])).2).mpr
    (Or.inl ⟨Or.inl rfl, by decide⟩)

/-! ## The entry points -/

/-- C11: with the lease acquired, the mutable state loaded and no update returning an error,
`SyncActivitiesState` makes one call of `syncSingleActivityState` per update; if every call
returned `applied = false` it returns `ErrDuplicate` without asking for a timer or committing;
if some call returned `applied = true` it goes on to timer creation and commit and returns what
they return; so, the timer sequence and the commits not answering `ErrDuplicate` themselves, it
returns `ErrDuplicate` if and only if every update was discarded. -/
theorem SyncActivitiesState_duplicate (c : Collaborators) (request : SyncActivitiesRequest)
    (ms : MutableState) (l : LoopResult)
    (hacq : c.GetOrCreateWorkflowExecution = none) (hload : c.LoadMutableState = .ok ms)
    (hl : syncActivitiesLoop request.workflowKey ms false request.ActivitiesInfo = l)
    (herr : l.err = none) :
    List.Forall₂ (fun op info => ∃ applied, op = Op.syncSingleActivityState info applied none)
      l.calls request.ActivitiesInfo ∧
    ((∀ op ∈ l.calls, op.isApplied = false) →
      (SyncActivitiesState c request).err = some .ErrDuplicate ∧
      (SyncActivitiesState c request).ops =
        Op.GetOrCreateWorkflowExecution request.NamespaceId request.WorkflowId request.RunId
            Priority.High :: Op.LoadMutableState :: l.calls
          ++ [Op.release (some .ErrDuplicate)]) ∧
    ((∃ op ∈ l.calls, op.isApplied = true) →
      (SyncActivitiesState c request).err = (createTimerAndCommit c l.mutableState).err ∧
      (SyncActivitiesState c request).ops =
        Op.GetOrCreateWorkflowExecution request.NamespaceId request.WorkflowId request.RunId
            Priority.High :: Op.LoadMutableState :: l.calls
          ++ (createTimerAndCommit c l.mutableState).ops
          ++ [Op.release (createTimerAndCommit c l.mutableState).err] ∧
      Op.CreateNextActivityTimer ∈ (SyncActivitiesState c request).ops) ∧
    ((∀ ms1, (c.CreateNextActivityTimer ms1).1.2 ≠ some .ErrDuplicate ∧
        c.UpdateWorkflowExecutionAsPassive ms1 ≠ some .ErrDuplicate ∧
        ∀ mode policy, c.UpdateWorkflowExecutionWithNew ms1 mode policy ≠ some .ErrDuplicate) →
      ((SyncActivitiesState c request).err = some .ErrDuplicate ↔
        ∀ op ∈ l.calls, op.isApplied = false)) := by
  subst hl
  have hany := syncActivitiesLoop_anyEventApplied request.workflowKey request.ActivitiesInfo
    ms false
  rw [Bool.false_or] at hany
  have hdisc : (∀ op ∈ (syncActivitiesLoop request.workflowKey ms false
        request.ActivitiesInfo).calls, op.isApplied = false) →
      (SyncActivitiesState c request).err = some .ErrDuplicate ∧
      (SyncActivitiesState c request).ops =
        Op.GetOrCreateWorkflowExecution request.NamespaceId request.WorkflowId request.RunId
            Priority.High :: Op.LoadMutableState ::
            (syncActivitiesLoop request.workflowKey ms false request.ActivitiesInfo).calls
          ++ [Op.release (some .ErrDuplicate)] := by
    intro hall
    have ha : (syncActivitiesLoop request.workflowKey ms false
        request.ActivitiesInfo).anyEventApplied = false := by
      rw [hany, List.any_eq_false]
      intro op hop
      rw [hall op hop]
      simp
    simp [SyncActivitiesState, withLease, hacq,
      syncActivitiesStateBody_of_none_applied c request ms hload herr ha]
  have happ : (∃ op ∈ (syncActivitiesLoop request.workflowKey ms false
        request.ActivitiesInfo).calls, op.isApplied = true) →
      (SyncActivitiesState c request).err = (createTimerAndCommit c
        (syncActivitiesLoop request.workflowKey ms false
          request.ActivitiesInfo).mutableState).err ∧
      (SyncActivitiesState c request).ops =
        Op.GetOrCreateWorkflowExecution request.NamespaceId request.WorkflowId request.RunId
            Priority.High :: Op.LoadMutableState ::
            (syncActivitiesLoop request.workflowKey ms false request.ActivitiesInfo).calls
          ++ (createTimerAndCommit c (syncActivitiesLoop request.workflowKey ms false
            request.ActivitiesInfo).mutableState).ops
          ++ [Op.release (createTimerAndCommit c (syncActivitiesLoop request.workflowKey ms false
            request.ActivitiesInfo).mutableState).err] := by
    rintro ⟨op, hop, hopa⟩
    have ha : (syncActivitiesLoop request.workflowKey ms false
        request.ActivitiesInfo).anyEventApplied = true := by
      rw [hany, List.any_eq_true]
      exact ⟨op, hop, hopa⟩
    simp [SyncActivitiesState, withLease, hacq,
      syncActivitiesStateBody_of_applied c request ms hload herr ha]
  refine ⟨syncActivitiesLoop_calls_of_no_error _ _ _ _ herr, hdisc, ?_, ?_⟩
  · intro h
    obtain ⟨h1, h2⟩ := happ h
    refine ⟨h1, h2, ?_⟩
    rw [h2]
    have hc := (createTimerAndCommit_ops c (syncActivitiesLoop request.workflowKey ms false
      request.ActivitiesInfo).mutableState).1
    have hmem : Op.CreateNextActivityTimer ∈ (createTimerAndCommit c
        (syncActivitiesLoop request.workflowKey ms false
          request.ActivitiesInfo).mutableState).ops := by
      rw [← List.count_pos_iff, hc]
      exact Nat.one_pos
    simp [hmem]
  · intro hcoll
    constructor
    · intro hd
      by_contra hnot
      push_neg at hnot
      obtain ⟨op, hop, hopa⟩ := hnot
      have hopa2 : op.isApplied = true := by
        cases h : op.isApplied with
        | true => rfl
        | false => exact absurd h hopa
      obtain ⟨h1, _⟩ := happ ⟨op, hop, hopa2⟩
      rw [h1] at hd
      exact createTimerAndCommit_err_ne_duplicate c _ hcoll hd
    · intro hall
      exact (hdisc hall).1

/-- C12: in both entry points, if loading the mutable state fails with a NotFound error the
call returns nil after the steps acquire, load, release(nil), with no call of
`syncSingleActivityState`, no timer creation and no commit; any other load error is returned
unchanged after the steps acquire, load, release(that error). -/
theorem load_not_found_swallowed (c : Collaborators)
    (hacq : c.GetOrCreateWorkflowExecution = none) :
    (∀ msg, c.LoadMutableState = .error (.NotFound msg) →
      (∀ request : SyncActivityRequest,
        (SyncActivityState c request).err = none ∧
        (SyncActivityState c request).ops =
          [Op.GetOrCreateWorkflowExecution request.NamespaceId request.WorkflowId request.RunId
            Priority.High, Op.LoadMutableState, Op.release none] ∧
        (SyncActivityState c request).mutableState = none) ∧
      (∀ request : SyncActivitiesRequest,
        (SyncActivitiesState c request).err = none ∧
        (SyncActivitiesState c request).ops =
          [Op.GetOrCreateWorkflowExecution request.NamespaceId request.WorkflowId request.RunId
            Priority.High, Op.LoadMutableState, Op.release none] ∧
        (SyncActivitiesState c request).mutableState = none)) ∧
    (∀ e, c.LoadMutableState = .error e → (∀ msg, e ≠ .NotFound msg) →
      (∀ request : SyncActivityRequest,
        (SyncActivityState c request).err = some e ∧
        (SyncActivityState c request).ops =
          [Op.GetOrCreateWorkflowExecution request.NamespaceId request.WorkflowId request.RunId
            Priority.High, Op.LoadMutableState, Op.release (some e)]) ∧
      (∀ request : SyncActivitiesRequest,
        (SyncActivitiesState c request).err = some e ∧
        (SyncActivitiesState c request).ops =
          [Op.GetOrCreateWorkflowExecution request.NamespaceId request.WorkflowId request.RunId
            Priority.High, Op.LoadMutableState, Op.release (some e)])) := by
  refine ⟨fun msg hload => ⟨fun request => ?_, fun request => ?_⟩,
    fun e hload hne => ⟨fun request => ?_, fun request => ?_⟩⟩
  · simp [SyncActivityState, withLease, hacq, syncActivityStateBody_of_not_found c request msg hload]
  · simp [SyncActivitiesState, withLease, hacq,
      syncActivitiesStateBody_of_not_found c request msg hload]
  · simp [SyncActivityState, withLease, hacq,
      syncActivityStateBody_of_load_error c request e hload hne]
  · simp [SyncActivitiesState, withLease, hacq,
      syncActivitiesStateBody_of_load_error c request e hload hne]

/-- C13: for an update that passes both comparisons in `syncSingleActivityState`, the tasks of
the mutable state afterwards are the tasks before followed by exactly one
`ActivityRetryTimerTask` if the update has no started event and its attempt is strictly greater
than the local attempt, and the tasks before otherwise; that task is visible at the update's
scheduled time and carries the update's scheduled event id, version, attempt and stamp. -/
theorem syncSingleActivityState_retry_task (key : WorkflowKey) (ms : MutableState)
    (u : ActivitySyncInfo) (ai : ActivityInfo)
    (hvh : compareVersionHistory key.NamespaceID key.WorkflowID key.RunID u.ScheduledEventId ms
      u.VersionHistory = (true, none))
    (hget : ms.GetActivityInfo u.ScheduledEventId = some ai)
    (hcmp : compareActivity u.Version u.Attempt u.Stamp (TimeValue u.LastHeartbeatTime) ai
      = true) :
    (syncSingleActivityState key ms u).1 = (true, none) ∧
    (syncSingleActivityState key ms u).2.insertTasks =
      if u.StartedEventId = EmptyEventID ∧ u.Attempt > ai.Attempt then
        ms.insertTasks ++
          [{ WorkflowKey := key
             VisibilityTimestamp := TimeValue u.ScheduledTime
             EventID := u.ScheduledEventId
             Version := u.Version
             Attempt := u.Attempt
             Stamp := u.Stamp }]
      else ms.insertTasks := by
  refine ⟨by rw [syncSingleActivityState_applied key ms u ai hvh hget, hcmp], ?_⟩
  have hupd : ∀ ms1 : MutableState, ms1.GetActivityInfo u.ScheduledEventId = some ai →
      (match ms1.UpdateActivityInfo u
          (ShouldResetActivityTimerTaskMask ai u.Version u.Attempt) with
        | .error err => (((false, some err) : Bool × Option ServiceError), ms1)
        | .ok ms2 => ((true, none), ms2)).2.insertTasks = ms1.insertTasks := by
    intro ms1 h1
    unfold MutableState.UpdateActivityInfo
    rw [h1]
  unfold syncSingleActivityState
  simp only [hvh, hget, hcmp, Bool.not_true, Bool.false_eq_true, if_false]
  split_ifs with hretry
  · rw [hupd _ (by rw [GetActivityInfo_AddTasks]; exact hget)]
    rfl
  · rw [hupd _ hget]

/-- C14: in every batch processed by `SyncActivitiesState` the timer sequence is asked for the
next activity timer exactly once if no update returned an error and at least one was applied,
and not at all if the lease was refused, the load failed, an update returned an error or nothing
was applied; the number of applied updates plays no part. -/
theorem SyncActivitiesState_timer_once (c : Collaborators) (request : SyncActivitiesRequest) :
    (c.GetOrCreateWorkflowExecution ≠ none →
      (SyncActivitiesState c request).ops.count Op.CreateNextActivityTimer = 0) ∧
    (∀ e, c.LoadMutableState = .error e →
      (SyncActivitiesState c request).ops.count Op.CreateNextActivityTimer = 0) ∧
    (∀ ms l, c.GetOrCreateWorkflowExecution = none → c.LoadMutableState = .ok ms →
      syncActivitiesLoop request.workflowKey ms false request.ActivitiesInfo = l →
      (l.err = none → (∃ op ∈ l.calls, op.isApplied = true) →
        (SyncActivitiesState c request).ops.count Op.CreateNextActivityTimer = 1) ∧
      ((l.err ≠ none ∨ ∀ op ∈ l.calls, op.isApplied = false) →
        (SyncActivitiesState c request).ops.count Op.CreateNextActivityTimer = 0)) := by
  have hcalls : ∀ ms, List.count Op.CreateNextActivityTimer
      (syncActivitiesLoop request.workflowKey ms false request.ActivitiesInfo).calls = 0 := by
    intro ms
    rw [List.count_eq_zero]
    intro hmem
    have := syncActivitiesLoop_calls_isSync _ _ _ _ _ hmem
    simp [Op.isSync] at this
  refine ⟨?_, ?_, ?_⟩
  · intro h
    cases hq : c.GetOrCreateWorkflowExecution with
    | none => exact absurd hq h
    | some e => simp [SyncActivitiesState, withLease, hq]
  · intro e hload
    cases hq : c.GetOrCreateWorkflowExecution with
    | some e2 => simp [SyncActivitiesState, withLease, hq]
    | none =>
      by_cases hnf : ∃ msg, e = .NotFound msg
      · obtain ⟨msg, rfl⟩ := hnf
        simp [SyncActivitiesState, withLease, hq,
          syncActivitiesStateBody_of_not_found c request msg hload]
      · push_neg at hnf
        simp [SyncActivitiesState, withLease, hq,
          syncActivitiesStateBody_of_load_error c request e hload hnf]
  · intro ms l hacq hload hl
    subst hl
    have hany := syncActivitiesLoop_anyEventApplied request.workflowKey request.ActivitiesInfo
      ms false
    rw [Bool.false_or] at hany
    constructor
    · rintro herr ⟨op, hop, hopa⟩
      have ha : (syncActivitiesLoop request.workflowKey ms false
          request.ActivitiesInfo).anyEventApplied = true := by
        rw [hany, List.any_eq_true]
        exact ⟨op, hop, hopa⟩
      have hc := (createTimerAndCommit_ops c (syncActivitiesLoop request.workflowKey ms false
        request.ActivitiesInfo).mutableState).1
      simp [SyncActivitiesState, withLease, hacq,
        syncActivitiesStateBody_of_applied c request ms hload herr ha, hcalls, hc]
    · intro h
      cases herr : (syncActivitiesLoop request.workflowKey ms false
          request.ActivitiesInfo).err with
      | some e =>
        simp [SyncActivitiesState, withLease, hacq,
          syncActivitiesStateBody_of_loop_err c request ms e hload herr, hcalls]
      | none =>
        rcases h with h | hall
        · exact absurd herr h
        · have ha : (syncActivitiesLoop request.workflowKey ms false
              request.ActivitiesInfo).anyEventApplied = false := by
            rw [hany, List.any_eq_false]
            intro op hop
            rw [hall op hop]
            simp
          simp [SyncActivitiesState, withLease, hacq,
            syncActivitiesStateBody_of_none_applied c request ms hload herr ha, hcalls]

/-- C15: in both entry points, if the lease is refused the refusal is returned and release is
not called; once the lease was granted, whatever the exit path, release is called exactly once,
as the last step, with exactly the error that the call returns. -/
theorem lease_released_once (c : Collaborators) :
    (∀ e, c.GetOrCreateWorkflowExecution = some e →
      (∀ request : SyncActivityRequest,
        (SyncActivityState c request).err = some e ∧
        (SyncActivityState c request).ops.filter Op.isRelease = []) ∧
      (∀ request : SyncActivitiesRequest,
        (SyncActivitiesState c request).err = some e ∧
        (SyncActivitiesState c request).ops.filter Op.isRelease = [])) ∧
    (c.GetOrCreateWorkflowExecution = none →
      (∀ request : SyncActivityRequest,
        (SyncActivityState c request).ops.filter Op.isRelease
          = [Op.release (SyncActivityState c request).err] ∧
        (SyncActivityState c request).ops.getLast?
          = some (Op.release (SyncActivityState c request).err)) ∧
      (∀ request : SyncActivitiesRequest,
        (SyncActivitiesState c request).ops.filter Op.isRelease
          = [Op.release (SyncActivitiesState c request).err] ∧
        (SyncActivitiesState c request).ops.getLast?
          = some (Op.release (SyncActivitiesState c request).err))) := by
  refine ⟨fun e he => ⟨fun request => ?_, fun request => ?_⟩,
    fun hn => ⟨fun request => ?_, fun request => ?_⟩⟩
  · exact (withLease_release c _ _ _ _ (syncActivityStateBody_ops_not_release c request)).1 e he
  · exact (withLease_release c _ _ _ _ (syncActivitiesStateBody_ops_not_release c request)).1 e he
  · exact (withLease_release c _ _ _ _ (syncActivityStateBody_ops_not_release c request)).2 hn
  · exact (withLease_release c _ _ _ _ (syncActivitiesStateBody_ops_not_release c request)).2 hn

/-- C16: in both entry points, once an update was applied and the timer creation succeeded,
the state is committed exactly once, and the call returns what that commit returns: with
EnableUpdateWorkflowModeIgnoreCurrent on the commit is UpdateWorkflowExecutionAsPassive;
otherwise it is UpdateWorkflowExecutionWithNew with no new workflow, the passive transaction
policy, and update mode bypass-current if the workflow state is ZOMBIE and update-current if it
is not. -/
theorem commit_mode (c : Collaborators) (ms applied committed : MutableState) (b : Bool)
    (hacq : c.GetOrCreateWorkflowExecution = none) (hload : c.LoadMutableState = .ok ms)
    (htimer : c.CreateNextActivityTimer applied = ((b, none), committed)) :
    (∀ request : SyncActivityRequest,
      syncSingleActivityState request.workflowKey ms request.toActivitySyncInfo
        = ((true, none), applied) →
      (SyncActivityState c request).ops.filter Op.isCommit =
        [if c.EnableUpdateWorkflowModeIgnoreCurrent then Op.UpdateWorkflowExecutionAsPassive
          else Op.UpdateWorkflowExecutionWithNew
            (if committed.state = WorkflowExecutionState.ZOMBIE then
              UpdateWorkflowMode.BypassCurrent else UpdateWorkflowMode.UpdateCurrent)
            none TransactionPolicy.Passive none] ∧
      (SyncActivityState c request).err =
        if c.EnableUpdateWorkflowModeIgnoreCurrent then
          c.UpdateWorkflowExecutionAsPassive committed
        else c.UpdateWorkflowExecutionWithNew committed
          (if committed.state = WorkflowExecutionState.ZOMBIE then
            UpdateWorkflowMode.BypassCurrent else UpdateWorkflowMode.UpdateCurrent)
          TransactionPolicy.Passive) ∧
    (∀ (request : SyncActivitiesRequest) (l : LoopResult),
      syncActivitiesLoop request.workflowKey ms false request.ActivitiesInfo = l →
      l.err = none → (∃ op ∈ l.calls, op.isApplied = true) → l.mutableState = applied →
      (SyncActivitiesState c request).ops.filter Op.isCommit =
        [if c.EnableUpdateWorkflowModeIgnoreCurrent then Op.UpdateWorkflowExecutionAsPassive
          else Op.UpdateWorkflowExecutionWithNew
            (if committed.state = WorkflowExecutionState.ZOMBIE then
              UpdateWorkflowMode.BypassCurrent else UpdateWorkflowMode.UpdateCurrent)
            none TransactionPolicy.Passive none] ∧
      (SyncActivitiesState c request).err =
        if c.EnableUpdateWorkflowModeIgnoreCurrent then
          c.UpdateWorkflowExecutionAsPassive committed
        else c.UpdateWorkflowExecutionWithNew committed
          (if committed.state = WorkflowExecutionState.ZOMBIE then
            UpdateWorkflowMode.BypassCurrent else UpdateWorkflowMode.UpdateCurrent)
          TransactionPolicy.Passive) := by
  have ht := createTimerAndCommit_of_timer_ok c applied committed b htimer
  constructor
  · intro request hsync
    have he : (syncSingleActivityState request.workflowKey ms
        request.toActivitySyncInfo).1.2 = none := by rw [hsync]
    have ha : (syncSingleActivityState request.workflowKey ms
        request.toActivitySyncInfo).1.1 = true := by rw [hsync]
    have hbody := syncActivityStateBody_of_applied c request ms hload he ha
    rw [hsync] at hbody
    simp only [SyncActivityState, withLease, hacq, hbody, ht]
    split_ifs <;> simp [Op.isCommit, List.filter]
  · intro request l hl herr happ hms
    subst hl
    have hany := syncActivitiesLoop_anyEventApplied request.workflowKey request.ActivitiesInfo
      ms false
    rw [Bool.false_or] at hany
    have ha : (syncActivitiesLoop request.workflowKey ms false
        request.ActivitiesInfo).anyEventApplied = true := by
      rw [hany, List.any_eq_true]
      exact happ
    have hcalls : List.filter Op.isCommit (syncActivitiesLoop request.workflowKey ms false
        request.ActivitiesInfo).calls = [] := by
      apply filter_eq_nil_of_forall_false
      intro op hop
      have := syncActivitiesLoop_calls_isSync _ _ _ _ op hop
      cases op <;> first | rfl | simp [Op.isSync] at this
    have hbody := syncActivitiesStateBody_of_applied c request ms hload herr ha
    rw [hms] at hbody
    simp only [SyncActivitiesState, withLease, hacq, hbody, ht]
    split_ifs <;> simp [Op.isCommit, List.filter, hcalls]

/-- Instance of C11: a batch of two stale updates against `sampleStateAfterBoth` returns
`ErrDuplicate` after acquire, load, two discarded calls and release(ErrDuplicate). -/
theorem SyncActivitiesState_duplicate_witness :
    (SyncActivitiesState (collaboratorsOf sampleStateAfterBoth false) sampleStaleBatch).err
        = some .ErrDuplicate ∧
    (SyncActivitiesState (collaboratorsOf sampleStateAfterBoth false) sampleStaleBatch).ops =
      Op.GetOrCreateWorkflowExecution "ns" "wf" "run" Priority.High :: Op.LoadMutableState ::
        [Op.syncSingleActivityState sampleUpdate false none,
          Op.syncSingleActivityState sampleUpdate false none]
        ++ [Op.release (some .ErrDuplicate)] :=
  (SyncActivitiesState_duplicate (collaboratorsOf sampleStateAfterBoth false) sampleStaleBatch
    sampleStateAfterBoth
    { err := none, anyEventApplied := false, mutableState := sampleStateAfterBoth,
      calls := [Op.syncSingleActivityState sampleUpdate false none,
        Op.syncSingleActivityState sampleUpdate false none] }
    rfl rfl sampleStaleLoop_eval rfl).2.1 (by simp [Op.isApplied])

/-- Instance of C12: a load that fails with NotFound makes `SyncActivityState` return nil after
acquire, load and release(nil). -/
theorem load_not_found_swallowed_witness :
    (SyncActivityState (collaboratorsFailingLoad (.NotFound "gone")) sampleRequest).err = none ∧
    (SyncActivityState (collaboratorsFailingLoad (.NotFound "gone")) sampleRequest).ops =
      [Op.GetOrCreateWorkflowExecution "ns" "wf" "run" Priority.High, Op.LoadMutableState,
        Op.release none] ∧
    (SyncActivityState (collaboratorsFailingLoad (.NotFound "gone")) sampleRequest).mutableState
      = none :=
  ((load_not_found_swallowed (collaboratorsFailingLoad (.NotFound "gone")) rfl).1 "gone" rfl).1
    sampleRequest

/-- Instance of C13: the retry `sampleRetryUpdate` (no started event, attempt 2 against local
attempt 1) adds one retry timer task at its scheduled time. -/
theorem syncSingleActivityState_retry_task_witness :
    (syncSingleActivityState sampleKey sampleState sampleRetryUpdate).2.insertTasks =
      [{ WorkflowKey := sampleKey
         VisibilityTimestamp := TimeValue (some { seconds := 1700000100, nanos := 0 })
         EventID := 5
         Version := 1
         Attempt := 2
         Stamp := 1 }] :=
  (syncSingleActivityState_retry_task sampleKey sampleState sampleRetryUpdate sampleActivity
    (by simp [compareVersionHistory, GetCurrentVersionHistory, GetLastVersionHistoryItem,
          IsLCAVersionHistoryItemAppendable, FindLCAVersionHistoryItem, historyOf, stateOf,
          findLCAWalk, sampleState, sampleRetryUpdate, sampleUpdate, sampleKey])
    rfl (by decide)).2.trans (by decide)

/-- Instance of C14: in `sampleBatch` both updates are applied and the timer sequence is asked
once. -/
theorem SyncActivitiesState_timer_once_witness :
    (SyncActivitiesState (collaboratorsOf sampleState false) sampleBatch).ops.count
      Op.CreateNextActivityTimer = 1 :=
  ((SyncActivitiesState_timer_once (collaboratorsOf sampleState false) sampleBatch).2.2
    sampleState
    { err := none, anyEventApplied := true, mutableState := sampleStateAfterBoth,
      calls := [Op.syncSingleActivityState sampleUpdate true none,
        Op.syncSingleActivityState sampleUpdateStamp2 true none] }
    rfl rfl sampleLoop_eval).1 rfl
    ⟨Op.syncSingleActivityState sampleUpdate true none, by simp, rfl⟩

/-- Instance of C15: with the load failing with an Unavailable error, `SyncActivitiesState`
calls release once, last, with that error. -/
theorem lease_released_once_witness :
    (SyncActivitiesState (collaboratorsFailingLoad (.Unavailable "db")) sampleBatch).ops.filter
        Op.isRelease
      = [Op.release
          (SyncActivitiesState (collaboratorsFailingLoad (.Unavailable "db")) sampleBatch).err] ∧
    (SyncActivitiesState (collaboratorsFailingLoad (.Unavailable "db")) sampleBatch).ops.getLast?
      = some (Op.release
          (SyncActivitiesState (collaboratorsFailingLoad (.Unavailable "db")) sampleBatch).err) :=
  ((lease_released_once (collaboratorsFailingLoad (.Unavailable "db"))).2 rfl).2 sampleBatch

/-- Instance of C16: the update `sampleRequest` applied to a zombie workflow is committed with
update mode bypass-current, no new workflow and the passive policy. -/
theorem commit_mode_witness :
    (SyncActivityState (collaboratorsOf sampleZombieState false) sampleRequest).ops.filter
        Op.isCommit =
      [Op.UpdateWorkflowExecutionWithNew UpdateWorkflowMode.BypassCurrent none
        TransactionPolicy.Passive none] :=
  ((commit_mode (collaboratorsOf sampleZombieState false) sampleZombieState
    { sampleState with
      state := WorkflowExecutionState.ZOMBIE
      pendingActivityInfoIDs := [(5, sampleActivityUpdated)] }
    { sampleState with
      state := WorkflowExecutionState.ZOMBIE
      pendingActivityInfoIDs := [(5, sampleActivityUpdated)] }
    false rfl rfl rfl).1 sampleRequest sampleZombie_applied).1

/-! ## The timer sequence -/

/-- The model replays `TestLoadAndSortActivityTimers_Multiple`: four obligations in the order
that the test expects. -/
theorem LoadAndSortActivityTimers_test_multiple :
    LoadAndSortActivityTimers
        { stateOf [] WorkflowExecutionState.RUNNING with
          pendingActivityInfoIDs := [(234, testActivity1), (2345, testActivity2)] } =
      [{ EventID := 2345
         Timestamp := (Timestamp.AsTime { seconds := 1700000000, nanos := 0 }).Add 11000000000
         TimerType := TimeoutType.SCHEDULE_TO_START, TimerCreated := false, Attempt := 21 },
       { EventID := 234
         Timestamp :=
          (Timestamp.AsTime { seconds := 1700000000, nanos := 200000000 }).Add 100000000000
         TimerType := TimeoutType.START_TO_CLOSE, TimerCreated := false, Attempt := 12 },
       { EventID := 234
         Timestamp := (Timestamp.AsTime { seconds := 1700000000, nanos := 0 }).Add 1000000000000
         TimerType := TimeoutType.SCHEDULE_TO_CLOSE, TimerCreated := false, Attempt := 12 },
       { EventID := 2345
         Timestamp := (Timestamp.AsTime { seconds := 1700000000, nanos := 0 }).Add 1001000000000
         TimerType := TimeoutType.SCHEDULE_TO_CLOSE, TimerCreated := false, Attempt := 21 }] := by
  decide

/-- C17: the list returned by `LoadAndSortActivityTimers` holds the obligations of the pending
activities sorted ascending by (Timestamp, EventID, TimerType) compared lexicographically;
`Less` holds exactly when its first element comes before the second in that order (earlier
timestamp; on equal timestamps smaller event id; on equal timestamp and event id smaller timer
type), so `Less` is irreflexive and asymmetric. -/
theorem LoadAndSortActivityTimers_sorted (mutableState : MutableState) :
    List.Pairwise
      (fun a b => a.Timestamp.Before b.Timestamp = true ∨ (a.Timestamp = b.Timestamp ∧
        (a.EventID < b.EventID ∨ (a.EventID = b.EventID ∧
          a.TimerType.toInt ≤ b.TimerType.toInt))))
      (LoadAndSortActivityTimers mutableState) ∧
    List.Perm (LoadAndSortActivityTimers mutableState)
      (mutableState.pendingActivityInfoIDs.flatMap fun p => activityTimers p.2) ∧
    (∀ a b, TimerSequenceIDs.Less a b = true ↔
      a.Timestamp.Before b.Timestamp = true ∨ (a.Timestamp = b.Timestamp ∧
        (a.EventID < b.EventID ∨ (a.EventID = b.EventID ∧
          a.TimerType.toInt < b.TimerType.toInt)))) ∧
    (∀ a, TimerSequenceIDs.Less a a = false) ∧
    (∀ a b, TimerSequenceIDs.Less a b = true → TimerSequenceIDs.Less b a = false) := by
  refine ⟨?_, List.perm_insertionSort _ _, ?_, ?_, ?_⟩
  · refine List.Pairwise.imp ?_ (sorted_by_timerOrder mutableState)
    intro a b h
    rw [timerOrder_iff, TimerSequenceIDs.Less_iff] at h
    rw [Time.Before_iff, Time.eq_iff]
    omega
  · intro a b
    rw [TimerSequenceIDs.Less_iff, Time.Before_iff, Time.eq_iff]
    omega
  · intro a
    rw [← Bool.not_eq_true, TimerSequenceIDs.Less_iff]
    omega
  · intro a b h
    rw [← Bool.not_eq_true]
    rw [TimerSequenceIDs.Less_iff] at *
    omega

/-- Instance of C17, the elements of `TestLess_CompareType`: with equal timestamps and event
ids the schedule-to-close element is less than the heartbeat element and not the other way
round. -/
theorem LoadAndSortActivityTimers_sorted_witness :
    TimerSequenceIDs.Less testSequenceID1 testSequenceID2 = true ∧
    TimerSequenceIDs.Less testSequenceID2 testSequenceID1 = false :=
  ⟨by decide,
   (LoadAndSortActivityTimers_sorted (stateOf [] WorkflowExecutionState.RUNNING)).2.2.2.2
     testSequenceID1 testSequenceID2 (by decide)⟩

/-- C18, as the rule behaves: the activity of the
`TestCreateNextActivityTimer_AlreadyCreated_*` tests is scheduled and has a schedule-to-close
timeout of 1000 s, but no first scheduled time; the rule yields no obligation. -/
theorem getActivityScheduleToCloseTimeout_no_first_scheduled_time_counterexample :
    ({ testActivityScheduled 6 with FirstScheduledTime := none } : ActivityInfo).ScheduledEventId
      ≠ EmptyEventID ∧
    ({ testActivityScheduled 6 with
        FirstScheduledTime := none } : ActivityInfo).ScheduleToCloseTimeout > 0 ∧
    getActivityScheduleToCloseTimeout
      { testActivityScheduled 6 with FirstScheduledTime := none } = none := by
  decide

/-- C18, amended: `getActivityScheduleToCloseTimeout` yields an obligation if and only if the
activity is scheduled, its schedule-to-close timeout is positive and its first scheduled time is
present; the obligation's timestamp is the first scheduled time plus that timeout, whatever the
latest scheduled time is, its event id is the scheduled event id and its attempt is the
activity's attempt; without first scheduled time the rule yields nothing. -/
theorem getActivityScheduleToCloseTimeout_spec (activityInfo : ActivityInfo) :
    ((getActivityScheduleToCloseTimeout activityInfo).isSome = true ↔
      activityInfo.ScheduledEventId ≠ EmptyEventID ∧ activityInfo.ScheduleToCloseTimeout > 0 ∧
      activityInfo.FirstScheduledTime.isSome = true) ∧
    (∀ t, getActivityScheduleToCloseTimeout activityInfo = some t →
      ∃ firstScheduledTime, activityInfo.FirstScheduledTime = some firstScheduledTime ∧
        t.Timestamp = firstScheduledTime.AsTime.Add activityInfo.ScheduleToCloseTimeout ∧
        t.EventID = activityInfo.ScheduledEventId ∧ t.Attempt = activityInfo.Attempt ∧
        t.TimerType = TimeoutType.SCHEDULE_TO_CLOSE) ∧
    (∀ scheduledTime,
      getActivityScheduleToCloseTimeout { activityInfo with ScheduledTime := scheduledTime } =
        getActivityScheduleToCloseTimeout activityInfo) ∧
    (activityInfo.FirstScheduledTime = none →
      getActivityScheduleToCloseTimeout activityInfo = none) := by
  refine ⟨?_, ?_, fun _ => rfl, ?_⟩
  · unfold getActivityScheduleToCloseTimeout
    cases hbase : activityInfo.FirstScheduledTime <;> split_ifs with h1 h2 <;> simp [h1] <;>
      omega
  · intro t ht
    unfold getActivityScheduleToCloseTimeout at ht
    split_ifs at ht
    cases hbase : activityInfo.FirstScheduledTime with
    | none => simp [hbase] at ht
    | some firstScheduledTime =>
      simp only [hbase, Option.some.injEq] at ht
      subst ht
      exact ⟨firstScheduledTime, rfl, rfl, rfl, rfl, rfl⟩
  · intro hbase
    unfold getActivityScheduleToCloseTimeout
    split_ifs <;> simp [hbase]

/-- Instance of C18 as amended, the activity of
`TestLoadAndSortActivityTimers_FirstScheduledTime`: the deadline is 1000 s after the first
scheduled time 1700000001, not after the scheduled time. -/
theorem getActivityScheduleToCloseTimeout_spec_witness :
    getActivityScheduleToCloseTimeout testActivityFirstScheduled = some
        { EventID := 234
          Timestamp :=
            (Timestamp.AsTime { seconds := 1700000001, nanos := 0 }).Add 1000000000000
          TimerType := TimeoutType.SCHEDULE_TO_CLOSE, TimerCreated := true, Attempt := 12 } ∧
    (Timestamp.AsTime { seconds := 1700000001, nanos := 0 }).Add 1000000000000
      = Timestamp.AsTime { seconds := 1700001001, nanos := 0 } ∧
    (∃ firstScheduledTime,
      testActivityFirstScheduled.FirstScheduledTime = some firstScheduledTime ∧
      ({ EventID := 234
         Timestamp :=
          (Timestamp.AsTime { seconds := 1700000001, nanos := 0 }).Add 1000000000000
         TimerType := TimeoutType.SCHEDULE_TO_CLOSE, TimerCreated := true
         Attempt := 12 } : TimerSequenceID).Timestamp =
        firstScheduledTime.AsTime.Add testActivityFirstScheduled.ScheduleToCloseTimeout ∧
      (234 : Int) = testActivityFirstScheduled.ScheduledEventId ∧
      (12 : Int) = testActivityFirstScheduled.Attempt ∧
      TimeoutType.SCHEDULE_TO_CLOSE = TimeoutType.SCHEDULE_TO_CLOSE) :=
  ⟨by decide, by decide,
   (getActivityScheduleToCloseTimeout_spec testActivityFirstScheduled).2.1
     { EventID := 234
       Timestamp := (Timestamp.AsTime { seconds := 1700000001, nanos := 0 }).Add 1000000000000
       TimerType := TimeoutType.SCHEDULE_TO_CLOSE, TimerCreated := true, Attempt := 12 }
     (by decide)⟩

/-- C19, as the rule behaves: the activity of the
`TestCreateNextActivityTimer_HeartbeatTimer_*` tests with its started time taken away is
started and has a heartbeat timeout of 1 s, but neither a heartbeat nor a started time; the rule
yields no obligation. -/
theorem getActivityHeartbeatTimeout_no_started_time_counterexample :
    ({ testActivityStarted TimerTaskStatusNone with StartedTime := none } :
      ActivityInfo).StartedEventId ≠ EmptyEventID ∧
    ({ testActivityStarted TimerTaskStatusNone with StartedTime := none } :
      ActivityInfo).HeartbeatTimeout > 0 ∧
    getActivityHeartbeatTimeout
      { testActivityStarted TimerTaskStatusNone with StartedTime := none } = none := by
  decide

/-- C19, amended: `getActivityHeartbeatTimeout` yields an obligation if and only if the activity
is started, its heartbeat timeout is positive and a heartbeat was recorded or the started time
is present; the obligation's timestamp is the last heartbeat time plus that timeout when a
heartbeat was recorded, and the started time plus that timeout otherwise; with neither a
heartbeat nor a started time the rule yields nothing. -/
theorem getActivityHeartbeatTimeout_spec (activityInfo : ActivityInfo) :
    ((getActivityHeartbeatTimeout activityInfo).isSome = true ↔
      activityInfo.StartedEventId ≠ EmptyEventID ∧ activityInfo.HeartbeatTimeout > 0 ∧
      (activityInfo.LastHeartbeatUpdateTime.isSome = true ∨
        activityInfo.StartedTime.isSome = true)) ∧
    (∀ t hb, getActivityHeartbeatTimeout activityInfo = some t →
      activityInfo.LastHeartbeatUpdateTime = some hb →
      t.Timestamp = hb.AsTime.Add activityInfo.HeartbeatTimeout) ∧
    (∀ t, getActivityHeartbeatTimeout activityInfo = some t →
      activityInfo.LastHeartbeatUpdateTime = none →
      ∃ startedTime, activityInfo.StartedTime = some startedTime ∧
        t.Timestamp = startedTime.AsTime.Add activityInfo.HeartbeatTimeout) ∧
    (activityInfo.LastHeartbeatUpdateTime = none → activityInfo.StartedTime = none →
      getActivityHeartbeatTimeout activityInfo = none) := by
  refine ⟨?_, ?_, ?_, ?_⟩
  · unfold getActivityHeartbeatTimeout lastHeartbeatOrStarted
    cases hhb : activityInfo.LastHeartbeatUpdateTime <;>
      cases hst : activityInfo.StartedTime <;> split_ifs with h1 h2 <;> simp [h1] <;> omega
  · intro t hb ht hhb
    unfold getActivityHeartbeatTimeout lastHeartbeatOrStarted at ht
    split_ifs at ht
    simp only [hhb, Option.some.injEq] at ht
    subst ht
    rfl
  · intro t ht hhb
    unfold getActivityHeartbeatTimeout lastHeartbeatOrStarted at ht
    split_ifs at ht
    cases hst : activityInfo.StartedTime with
    | none => simp [hhb, hst] at ht
    | some startedTime =>
      simp only [hhb, hst, Option.some.injEq] at ht
      subst ht
      exact ⟨startedTime, rfl, rfl⟩
  · intro hhb hst
    unfold getActivityHeartbeatTimeout lastHeartbeatOrStarted
    split_ifs <;> simp [hhb, hst]

/-- Instance of C19 as amended, the activity of
`TestGetActivityHeartbeatTimeout_WithHeartbeat_Started_Heartbeated`: the deadline is one second
after the heartbeat recorded 400 ms after `now`. -/
theorem getActivityHeartbeatTimeout_spec_witness :
    getActivityHeartbeatTimeout testActivityHeartbeated = some
        { EventID := 234
          Timestamp :=
            (Timestamp.AsTime { seconds := 1700000000, nanos := 400000000 }).Add 1000000000
          TimerType := TimeoutType.HEARTBEAT, TimerCreated := true, Attempt := 12 } ∧
    ({ EventID := 234
       Timestamp :=
        (Timestamp.AsTime { seconds := 1700000000, nanos := 400000000 }).Add 1000000000
       TimerType := TimeoutType.HEARTBEAT, TimerCreated := true
       Attempt := 12 } : TimerSequenceID).Timestamp =
      (Timestamp.AsTime { seconds := 1700000000, nanos := 400000000 }).Add
        testActivityHeartbeated.HeartbeatTimeout ∧
    (∃ startedTime, (testActivityStarted TimerTaskStatusNone).StartedTime = some startedTime ∧
      ({ EventID := 234
         Timestamp :=
          (Timestamp.AsTime { seconds := 1700000000, nanos := 200000000 }).Add 1000000000
         TimerType := TimeoutType.HEARTBEAT, TimerCreated := false
         Attempt := 12 } : TimerSequenceID).Timestamp =
        startedTime.AsTime.Add (testActivityStarted TimerTaskStatusNone).HeartbeatTimeout) ∧
    getActivityHeartbeatTimeout
      { testActivityStarted TimerTaskStatusNone with StartedTime := none } = none :=
  ⟨by decide,
   (getActivityHeartbeatTimeout_spec testActivityHeartbeated).2.1 _
     { seconds := 1700000000, nanos := 400000000 } (by decide) rfl,
   (getActivityHeartbeatTimeout_spec (testActivityStarted TimerTaskStatusNone)).2.2.1
     { EventID := 234
       Timestamp := (Timestamp.AsTime { seconds := 1700000000, nanos := 200000000 }).Add 1000000000
       TimerType := TimeoutType.HEARTBEAT, TimerCreated := false, Attempt := 12 }
     (by decide) rfl,
   (getActivityHeartbeatTimeout_spec
     { testActivityStarted TimerTaskStatusNone with StartedTime := none }).2.2.2 rfl rfl⟩

/-- C20, as the rule behaves: the activity of the
`TestCreateNextActivityTimer_NotCreated_*` tests with its scheduled time taken away is
scheduled, not started and has a schedule-to-start timeout of 10 s, but no scheduled time; the
rule yields no obligation. -/
theorem getActivityScheduleToStartTimeout_no_scheduled_time_counterexample :
    ({ testActivityScheduled TimerTaskStatusNone with ScheduledTime := none } :
      ActivityInfo).ScheduledEventId ≠ EmptyEventID ∧
    ({ testActivityScheduled TimerTaskStatusNone with ScheduledTime := none } :
      ActivityInfo).StartedEventId = EmptyEventID ∧
    ({ testActivityScheduled TimerTaskStatusNone with ScheduledTime := none } :
      ActivityInfo).ScheduleToStartTimeout > 0 ∧
    getActivityScheduleToStartTimeout
      { testActivityScheduled TimerTaskStatusNone with ScheduledTime := none } = none := by
  decide

/-- C20, amended: `getActivityScheduleToStartTimeout` yields an obligation if and only if the
activity is scheduled, not yet started, its schedule-to-start timeout is positive and its
scheduled time is present; the obligation's timestamp is the scheduled time plus that timeout
and its type is SCHEDULE_TO_START; in every other case it yields nothing, whatever the bits of
the status mask are. -/
theorem getActivityScheduleToStartTimeout_spec (activityInfo : ActivityInfo) :
    ((getActivityScheduleToStartTimeout activityInfo).isSome = true ↔
      activityInfo.ScheduledEventId ≠ EmptyEventID ∧
      activityInfo.StartedEventId = EmptyEventID ∧ activityInfo.ScheduleToStartTimeout > 0 ∧
      activityInfo.ScheduledTime.isSome = true) ∧
    (∀ t, getActivityScheduleToStartTimeout activityInfo = some t →
      ∃ scheduledTime, activityInfo.ScheduledTime = some scheduledTime ∧
        t.Timestamp = scheduledTime.AsTime.Add activityInfo.ScheduleToStartTimeout ∧
        t.TimerType = TimeoutType.SCHEDULE_TO_START ∧
        t.EventID = activityInfo.ScheduledEventId ∧ t.Attempt = activityInfo.Attempt) ∧
    (∀ status, ¬ (activityInfo.ScheduledEventId ≠ EmptyEventID ∧
        activityInfo.StartedEventId = EmptyEventID ∧ activityInfo.ScheduleToStartTimeout > 0 ∧
        activityInfo.ScheduledTime.isSome = true) →
      getActivityScheduleToStartTimeout { activityInfo with TimerTaskStatus := status }
        = none) := by
  refine ⟨?_, ?_, ?_⟩
  · unfold getActivityScheduleToStartTimeout
    cases hbase : activityInfo.ScheduledTime <;> split_ifs with h1 h2 h3 <;> simp [h1] <;>
      omega
  · intro t ht
    unfold getActivityScheduleToStartTimeout at ht
    split_ifs at ht
    cases hbase : activityInfo.ScheduledTime with
    | none => simp [hbase] at ht
    | some scheduledTime =>
      simp only [hbase, Option.some.injEq] at ht
      subst ht
      exact ⟨scheduledTime, rfl, rfl, rfl, rfl, rfl⟩
  · intro status hn
    unfold getActivityScheduleToStartTimeout
    dsimp only
    split_ifs with h1 h2 h3
    · rfl
    · rfl
    · rfl
    · cases hbase : activityInfo.ScheduledTime with
      | none => rfl
      | some scheduledTime =>
        exact absurd ⟨h1, not_not.mp h2, by omega, by simp [hbase]⟩ hn

/-- Instance of C20 as amended, the second activity of `TestLoadAndSortActivityTimers_Multiple`:
scheduled, not started, timeout 11 s; once it is started the rule yields nothing although the
bit of the schedule-to-start timer is set. -/
theorem getActivityScheduleToStartTimeout_spec_witness :
    getActivityScheduleToStartTimeout testActivity2 = some
        { EventID := 2345
          Timestamp := (Timestamp.AsTime { seconds := 1700000000, nanos := 0 }).Add 11000000000
          TimerType := TimeoutType.SCHEDULE_TO_START, TimerCreated := false, Attempt := 21 } ∧
    (∃ scheduledTime, testActivity2.ScheduledTime = some scheduledTime ∧
      ({ EventID := 2345
         Timestamp := (Timestamp.AsTime { seconds := 1700000000, nanos := 0 }).Add 11000000000
         TimerType := TimeoutType.SCHEDULE_TO_START, TimerCreated := false
         Attempt := 21 } : TimerSequenceID).Timestamp =
        scheduledTime.AsTime.Add testActivity2.ScheduleToStartTimeout ∧
      TimeoutType.SCHEDULE_TO_START = TimeoutType.SCHEDULE_TO_START ∧
      (2345 : Int) = testActivity2.ScheduledEventId ∧ (21 : Int) = testActivity2.Attempt) ∧
    getActivityScheduleToStartTimeout { testActivity1 with TimerTaskStatus := 2 } = none :=
  ⟨by decide,
   (getActivityScheduleToStartTimeout_spec testActivity2).2.1
     { EventID := 2345
       Timestamp := (Timestamp.AsTime { seconds := 1700000000, nanos := 0 }).Add 11000000000
       TimerType := TimeoutType.SCHEDULE_TO_START, TimerCreated := false, Attempt := 21 }
     (by decide),
   (getActivityScheduleToStartTimeout_spec testActivity1).2.2 2 (by decide)⟩


/-! ## Version-history helpers, discards and the two entry points compared -/

/-- In the walk that models `FindLCAVersionHistoryItem`, two histories whose last items carry
the same version have one of these two items as their LCA item. -/
theorem FindLCAVersionHistoryItem_of_equal_last_versions (a b : VersionHistory)
    (lastA lastB lcaItem : VersionHistoryItem)
    (ha : GetLastVersionHistoryItem a = .ok lastA) (hb : GetLastVersionHistoryItem b = .ok lastB)
    (hlca : FindLCAVersionHistoryItem a b = .ok lcaItem) (heq : lastA.version = lastB.version) :
    lcaItem = lastA ∨ lcaItem = lastB := by
  unfold GetLastVersionHistoryItem at ha hb
  unfold FindLCAVersionHistoryItem at hlca
  cases ha2 : a.items.getLast? with
  | none => rw [ha2] at ha; cases ha
  | some x =>
    cases hb2 : b.items.getLast? with
    | none => rw [hb2] at hb; cases hb
    | some y =>
      rw [ha2] at ha
      rw [hb2] at hb
      injection ha with ha
      injection hb with hb
      subst ha
      subst hb
      rw [List.getLast?_eq_head?_reverse] at ha2 hb2
      cases hra : a.items.reverse with
      | nil => rw [hra] at ha2; cases ha2
      | cons l ls =>
        cases hrb : b.items.reverse with
        | nil => rw [hrb] at hb2; cases hb2
        | cons r rs =>
          rw [hra] at ha2
          rw [hrb] at hb2
          simp only [List.head?_cons, Option.some.injEq] at ha2 hb2
          subst ha2
          subst hb2
          rw [hra, hrb, findLCAWalk] at hlca
          rw [if_pos heq] at hlca
          split_ifs at hlca
          · injection hlca with h
            exact Or.inr h.symm
          · injection hlca with h
            exact Or.inl h.symm

theorem findLCAWalk_cons_cons (l r : VersionHistoryItem) (ls rs : List VersionHistoryItem) :
    findLCAWalk (l :: ls) (r :: rs) =
      if l.version = r.version then
        if l.eventId > r.eventId then .ok r else .ok l
      else if l.version > r.version then findLCAWalk ls (r :: rs)
      else findLCAWalk (l :: ls) rs := by
  rw [findLCAWalk]

theorem findLCAWalk_comm : ∀ (n : Nat) (as bs : List VersionHistoryItem),
    as.length + bs.length ≤ n → findLCAWalk as bs = findLCAWalk bs as := by
  intro n
  induction n with
  | zero =>
    intro as bs h
    have ha : as = [] := List.length_eq_zero.mp (by omega)
    have hb : bs = [] := List.length_eq_zero.mp (by omega)
    subst ha
    subst hb
    rfl
  | succ n ih =>
    intro as bs h
    cases as with
    | nil =>
      cases bs with
      | nil => rfl
      | cons r rs => simp [findLCAWalk]
    | cons l ls =>
      cases bs with
      | nil => simp [findLCAWalk]
      | cons r rs =>
        rw [findLCAWalk_cons_cons l r ls rs, findLCAWalk_cons_cons r l rs ls]
        simp only [List.length_cons] at h
        by_cases hv : l.version = r.version
        · rw [if_pos hv, if_pos hv.symm]
          rcases lt_trichotomy l.eventId r.eventId with he | he | he
          · rw [if_neg (by omega), if_pos (by omega)]
          · rw [if_neg (by omega), if_neg (by omega)]
            cases l
            cases r
            simp only at hv he
            rw [hv, he]
          · rw [if_pos (by omega), if_neg (by omega)]
        · have hv2 : ¬ r.version = l.version := fun h => hv h.symm
          rw [if_neg hv, if_neg hv2]
          by_cases hgt : l.version > r.version
          · have hgt2 : ¬ r.version > l.version := by omega
            rw [if_pos hgt, if_neg hgt2]
            exact ih ls (r :: rs) (by simp only [List.length_cons]; omega)
          · have hgt2 : r.version > l.version := by omega
            rw [if_neg hgt, if_pos hgt2]
            exact ih (l :: ls) rs (by simp only [List.length_cons]; omega)

theorem FindLCAVersionHistoryItem_comm (a b : VersionHistory) :
    FindLCAVersionHistoryItem a b = FindLCAVersionHistoryItem b a :=
  findLCAWalk_comm _ _ _ (Nat.le_refl _)

theorem findLCAWalk_ok (v0 : Int) : ∀ (n : Nat) (as bs : List VersionHistoryItem),
    as.length + bs.length ≤ n →
    (∃ x, as.getLast? = some x ∧ x.version = v0) → (∀ x ∈ as, v0 ≤ x.version) →
    (∃ y, bs.getLast? = some y ∧ y.version = v0) → (∀ y ∈ bs, v0 ≤ y.version) →
    ∃ item, findLCAWalk as bs = .ok item := by
  intro n
  induction n with
  | zero =>
    intro as bs h ha _ _ _
    have hnil : as = [] := List.length_eq_zero.mp (by omega)
    subst hnil
    obtain ⟨x, hx, _⟩ := ha
    simp at hx
  | succ n ih =>
    intro as bs h ha hale hb hble
    cases as with
    | nil =>
      obtain ⟨x, hx, _⟩ := ha
      simp at hx
    | cons l ls =>
      cases bs with
      | nil =>
        obtain ⟨y, hy, _⟩ := hb
        simp at hy
      | cons r rs =>
        rw [findLCAWalk_cons_cons]
        simp only [List.length_cons] at h
        have hl := hale l (List.mem_cons_self _ _)
        have hr := hble r (List.mem_cons_self _ _)
        by_cases hv : l.version = r.version
        · rw [if_pos hv]
          split_ifs
          · exact ⟨r, rfl⟩
          · exact ⟨l, rfl⟩
        · rw [if_neg hv]
          by_cases hgt : l.version > r.version
          · rw [if_pos hgt]
            refine ih ls (r :: rs) (by simp only [List.length_cons]; omega) ?_
              (fun x hx => hale x (List.mem_cons_of_mem _ hx)) hb hble
            cases ls with
            | nil =>
              obtain ⟨x, hx, hxv⟩ := ha
              simp only [List.getLast?_singleton, Option.some.injEq] at hx
              subst hx
              omega
            | cons l2 ls2 =>
              rw [List.getLast?_cons_cons] at ha
              exact ha
          · rw [if_neg hgt]
            refine ih (l :: ls) rs (by simp only [List.length_cons]; omega) ha hale ?_
              (fun y hy => hble y (List.mem_cons_of_mem _ hy))
            cases rs with
            | nil =>
              obtain ⟨y, hy, hyv⟩ := hb
              simp only [List.getLast?_singleton, Option.some.injEq] at hy
              subst hy
              omega
            | cons r2 rs2 =>
              rw [List.getLast?_cons_cons] at hb
              exact hb

theorem head_version_le_of_pairwise (items : List VersionHistoryItem) (x : VersionHistoryItem)
    (hhead : items.head? = some x)
    (hmono : List.Pairwise (fun p q => p.version ≤ q.version) items) :
    ∀ y ∈ items, x.version ≤ y.version := by
  cases items with
  | nil => simp at hhead
  | cons z zs =>
    simp only [List.head?_cons, Option.some.injEq] at hhead
    subst hhead
    intro y hy
    rw [List.pairwise_cons] at hmono
    rcases List.mem_cons.mp hy with h | h
    · subst h
      exact le_refl _
    · exact hmono.1 y h

/-- C27: `FindLCAVersionHistoryItem(a, b)` and `FindLCAVersionHistoryItem(b, a)` return the same
result, so the condition "the LCA item is appendable to either history", by which
`compareVersionHistory` tells pure extension from divergence, does not depend on which side is
passed first; and for two histories with non-decreasing versions and a common first version both
calls return one and the same item. -/
theorem FindLCAVersionHistoryItem_symmetric (a b : VersionHistory) :
    FindLCAVersionHistoryItem a b = FindLCAVersionHistoryItem b a ∧
    (∀ lcaItem,
      (IsLCAVersionHistoryItemAppendable a lcaItem || IsLCAVersionHistoryItemAppendable b lcaItem)
        = (IsLCAVersionHistoryItemAppendable b lcaItem
            || IsLCAVersionHistoryItemAppendable a lcaItem)) ∧
    (List.Pairwise (fun p q => p.version ≤ q.version) a.items →
      List.Pairwise (fun p q => p.version ≤ q.version) b.items →
      (∃ x y, a.items.head? = some x ∧ b.items.head? = some y ∧ x.version = y.version) →
      ∃ item, FindLCAVersionHistoryItem a b = .ok item ∧
        FindLCAVersionHistoryItem b a = .ok item) := by
  refine ⟨FindLCAVersionHistoryItem_comm a b, fun _ => Bool.or_comm _ _, ?_⟩
  rintro hma hmb ⟨x, y, hx, hy, hxy⟩
  have hale := head_version_le_of_pairwise a.items x hx hma
  have hble := head_version_le_of_pairwise b.items y hy hmb
  obtain ⟨item, hitem⟩ := findLCAWalk_ok x.version _ a.items.reverse b.items.reverse
    (Nat.le_refl _)
    ⟨x, by rw [List.getLast?_reverse]; exact hx, rfl⟩
    (fun z hz => hale z (List.mem_reverse.mp hz))
    ⟨y, by rw [List.getLast?_reverse]; exact hy, hxy.symm⟩
    (fun z hz => by rw [hxy]; exact hble z (List.mem_reverse.mp hz))
  refine ⟨item, hitem, ?_⟩
  rw [← FindLCAVersionHistoryItem_comm a b]
  exact hitem

/-- Instance of C27: the histories [(100, 5)] and [(80, 5), (90, 7)] have the LCA item (80, 5)
in both orders. -/
theorem FindLCAVersionHistoryItem_symmetric_witness :
    FindLCAVersionHistoryItem (historyOf [{ eventId := 100, version := 5 }])
        (historyOf [{ eventId := 80, version := 5 }, { eventId := 90, version := 7 }])
      = .ok { eventId := 80, version := 5 } ∧
    FindLCAVersionHistoryItem
        (historyOf [{ eventId := 80, version := 5 }, { eventId := 90, version := 7 }])
        (historyOf [{ eventId := 100, version := 5 }])
      = .ok { eventId := 80, version := 5 } := by
  obtain ⟨item, h1, h2⟩ :=
    (FindLCAVersionHistoryItem_symmetric (historyOf [{ eventId := 100, version := 5 }])
      (historyOf [{ eventId := 80, version := 5 }, { eventId := 90, version := 7 }])).2.2
      (by simp [historyOf]) (by simp [historyOf])
      ⟨{ eventId := 100, version := 5 }, { eventId := 80, version := 5 }, rfl, rfl, rfl⟩
  have h3 : FindLCAVersionHistoryItem (historyOf [{ eventId := 100, version := 5 }])
        (historyOf [{ eventId := 80, version := 5 }, { eventId := 90, version := 7 }])
      = .ok { eventId := 80, version := 5 } := by
    simp [FindLCAVersionHistoryItem, historyOf, findLCAWalk]
  rw [h3] at h1
  injection h1 with h1
  subst h1
  exact ⟨h3, h2⟩

/-- C29: whenever `syncSingleActivityState` returns `applied = false` it returns the mutable
state it was given, with no task added and no activity overwritten; it does so exactly on its
early exits: the version-history comparison returned an error or "do not apply" (which covers
the completed workflow), the activity is absent, or `compareActivity` discarded the update; and
an update for an activity that `GetActivityInfo` does not find is discarded with a nil error. -/
theorem syncSingleActivityState_discard_frame (key : WorkflowKey) (ms : MutableState)
    (u : ActivitySyncInfo) :
    ((syncSingleActivityState key ms u).1.1 = false → (syncSingleActivityState key ms u).2 = ms) ∧
    ((syncSingleActivityState key ms u).1.1 = false ↔
      ((compareVersionHistory key.NamespaceID key.WorkflowID key.RunID u.ScheduledEventId ms
          u.VersionHistory).2 ≠ none ∨
        (compareVersionHistory key.NamespaceID key.WorkflowID key.RunID u.ScheduledEventId ms
          u.VersionHistory).1 = false ∨
        ms.GetActivityInfo u.ScheduledEventId = none ∨
        ∃ ai, ms.GetActivityInfo u.ScheduledEventId = some ai ∧
          compareActivity u.Version u.Attempt u.Stamp (TimeValue u.LastHeartbeatTime) ai
            = false)) ∧
    (compareVersionHistory key.NamespaceID key.WorkflowID key.RunID u.ScheduledEventId ms
        u.VersionHistory = (true, none) →
      ms.GetActivityInfo u.ScheduledEventId = none →
      syncSingleActivityState key ms u = ((false, none), ms)) := by
  rcases hvh : compareVersionHistory key.NamespaceID key.WorkflowID key.RunID u.ScheduledEventId
    ms u.VersionHistory with ⟨b, oe⟩
  cases oe with
  | some e =>
    have h : syncSingleActivityState key ms u = ((false, some e), ms) := by
      simp only [syncSingleActivityState, hvh]
    rw [h]
    simp
  | none =>
    cases b with
    | false =>
      have h : syncSingleActivityState key ms u = ((false, none), ms) := by
        simp only [syncSingleActivityState, hvh]
      rw [h]
      simp
    | true =>
      cases hget : ms.GetActivityInfo u.ScheduledEventId with
      | none =>
        have h : syncSingleActivityState key ms u = ((false, none), ms) := by
          simp only [syncSingleActivityState, hvh, hget]
        rw [h]
        simp
      | some ai =>
        have happ := syncSingleActivityState_applied key ms u ai hvh hget
        cases hc : compareActivity u.Version u.Attempt u.Stamp (TimeValue u.LastHeartbeatTime)
          ai with
        | false =>
          have h : syncSingleActivityState key ms u = ((false, none), ms) := by
            simp [syncSingleActivityState, hvh, hget, hc]
          rw [h]
          simp [hc]
        | true =>
          rw [hc] at happ
          have h1 : (syncSingleActivityState key ms u).1.1 = true := by rw [happ]
          rw [h1]
          simp [hc]

/-- C30: `SyncActivityState` returns the same error, takes the same steps in the same order and
leaves the same mutable state as `SyncActivitiesState` called with the one-element batch that
holds the `ActivitySyncInfo` built from the request, for the same namespace, workflow and
run. -/
theorem SyncActivityState_eq_batch (c : Collaborators) (request : SyncActivityRequest) :
    SyncActivityState c request =
      SyncActivitiesState c
        { NamespaceId := request.NamespaceId, WorkflowId := request.WorkflowId,
          RunId := request.RunId, ActivitiesInfo := [request.toActivitySyncInfo] } := by
  have hbody : syncActivityStateBody c request =
      syncActivitiesStateBody c
        { NamespaceId := request.NamespaceId, WorkflowId := request.WorkflowId,
          RunId := request.RunId, ActivitiesInfo := [request.toActivitySyncInfo] } := by
    cases hload : c.LoadMutableState with
    | error e =>
      by_cases hnf : ∃ msg, e = .NotFound msg
      · obtain ⟨msg, rfl⟩ := hnf
        rw [syncActivityStateBody_of_not_found c request msg hload,
          syncActivitiesStateBody_of_not_found c _ msg hload]
      · push_neg at hnf
        rw [syncActivityStateBody_of_load_error c request e hload hnf,
          syncActivitiesStateBody_of_load_error c _ e hload hnf]
    | ok ms =>
      cases herr : (syncSingleActivityState request.workflowKey ms
          request.toActivitySyncInfo).1.2 with
      | some e =>
        rw [syncActivityStateBody_of_err c request ms e hload herr]
        have hl := syncActivitiesLoop_cons_err request.workflowKey ms false
          request.toActivitySyncInfo [] e herr
        rw [syncActivitiesStateBody_of_loop_err c _ ms e hload (by
          show (syncActivitiesLoop request.workflowKey ms false [request.toActivitySyncInfo]).err
            = some e
          rw [hl])]
        show _ = ({ err := some e
                    ops := Op.LoadMutableState ::
                      (syncActivitiesLoop request.workflowKey ms false
                        [request.toActivitySyncInfo]).calls
                    mutableState := some (syncActivitiesLoop request.workflowKey ms false
                        [request.toActivitySyncInfo]).mutableState } : SyncOutcome)
        rw [hl]
      | none =>
        have hl := syncActivitiesLoop_cons_ok request.workflowKey ms false
          request.toActivitySyncInfo [] herr
        simp only [syncActivitiesLoop, Bool.false_or] at hl
        cases ha : (syncSingleActivityState request.workflowKey ms
            request.toActivitySyncInfo).1.1 with
        | false =>
          rw [syncActivityStateBody_of_not_applied c request ms hload herr ha]
          simp [syncActivitiesStateBody, hload, SyncActivitiesRequest.workflowKey,
            SyncActivityRequest.workflowKey, syncActivitiesLoop, herr, ha] at *
        | true =>
          rw [syncActivityStateBody_of_applied c request ms hload herr ha]
          simp [syncActivitiesStateBody, hload, SyncActivitiesRequest.workflowKey,
            SyncActivityRequest.workflowKey, syncActivitiesLoop, herr, ha] at *
  unfold SyncActivityState SyncActivitiesState
  rw [hbody]

/-- Instance of C29: an update for event 7, which `sampleState` does not hold, is discarded
with a nil error and `sampleState` is returned as it was. -/
theorem syncSingleActivityState_discard_frame_witness :
    syncSingleActivityState sampleKey sampleState { sampleUpdate with ScheduledEventId := 7 }
      = ((false, none), sampleState) :=
  (syncSingleActivityState_discard_frame sampleKey sampleState
    { sampleUpdate with ScheduledEventId := 7 }).2.2
    (by simp [compareVersionHistory, GetCurrentVersionHistory, GetLastVersionHistoryItem,
          IsLCAVersionHistoryItemAppendable, FindLCAVersionHistoryItem, historyOf, stateOf,
          findLCAWalk, sampleState, sampleUpdate, sampleKey])
    (by decide)

/-! ## The timer sequence: start-to-close, status bits and timer creation -/

theorem Nat.pos_iff_of_testBit_single (N k : Nat) (f : Nat → Bool)
    (h : ∀ j, N.testBit j = (f j && decide (k = j))) : 0 < N ↔ f k = true := by
  constructor
  · intro hpos
    obtain ⟨j, hj⟩ := Nat.ne_zero_implies_bit_true (Nat.pos_iff_ne_zero.mp hpos)
    rw [h j] at hj
    simp only [Bool.and_eq_true, decide_eq_true_iff] at hj
    rw [hj.2]
    exact hj.1
  · intro hf
    rw [Nat.pos_iff_ne_zero]
    intro h0
    have := h k
    rw [h0, Nat.zero_testBit, hf] at this
    simp at this

theorem Int.land_two_pow_pos_iff (x : Int) (k : Nat) :
    0 < Int.land x ((2 ^ k : Nat) : Int) ↔ Int.testBit x k = true := by
  cases x with
  | ofNat m =>
    show 0 < ((m &&& 2 ^ k : Nat) : Int) ↔ Nat.testBit m k = true
    rw [Int.natCast_pos]
    apply Nat.pos_iff_of_testBit_single
    intro j
    rw [Nat.testBit_and, Nat.testBit_two_pow]
  | negSucc m =>
    show 0 < ((Nat.ldiff (2 ^ k) m : Nat) : Int) ↔ (!Nat.testBit m k) = true
    rw [Int.natCast_pos]
    apply Nat.pos_iff_of_testBit_single (f := fun j => !Nat.testBit m j)
    intro j
    rw [Nat.testBit_ldiff, Nat.testBit_two_pow, Bool.and_comm]

theorem created_flag_eq_testBit (status : Int) (k : Nat) (mask : Int)
    (hmask : mask = ((2 ^ k : Nat) : Int)) :
    decide (Int.land status mask > 0) = Int.testBit status k := by
  subst hmask
  rw [Bool.eq_iff_iff, decide_eq_true_iff]
  exact Int.land_two_pow_pos_iff status k

/-- An obligation of an activity is the outcome of one of the four rules. -/
theorem mem_activityTimers (activityInfo : ActivityInfo) (t : TimerSequenceID) :
    t ∈ activityTimers activityInfo ↔
      getActivityScheduleToStartTimeout activityInfo = some t ∨
      getActivityScheduleToCloseTimeout activityInfo = some t ∨
      getActivityStartToCloseTimeout activityInfo = some t ∨
      getActivityHeartbeatTimeout activityInfo = some t := by
  unfold activityTimers
  simp only [List.mem_filterMap, List.mem_cons, List.mem_singleton, id, List.not_mem_nil,
    or_false]
  constructor
  · rintro ⟨o, ho, rfl⟩
    rcases ho with h | h | h | h
    · exact Or.inl h.symm
    · exact Or.inr (Or.inl h.symm)
    · exact Or.inr (Or.inr (Or.inl h.symm))
    · exact Or.inr (Or.inr (Or.inr h.symm))
  · rintro (h | h | h | h)
    · exact ⟨some t, Or.inl h.symm, rfl⟩
    · exact ⟨some t, Or.inr (Or.inl h.symm), rfl⟩
    · exact ⟨some t, Or.inr (Or.inr (Or.inl h.symm)), rfl⟩
    · exact ⟨some t, Or.inr (Or.inr (Or.inr h.symm)), rfl⟩

/-- What every obligation of an activity carries: the scheduled event id, the attempt, and the
created flag read from the bit of its own kind. -/
theorem activityTimers_fields (activityInfo : ActivityInfo) (t : TimerSequenceID)
    (ht : t ∈ activityTimers activityInfo) :
    t.EventID = activityInfo.ScheduledEventId ∧ t.Attempt = activityInfo.Attempt ∧
    t.TimerType ≠ TimeoutType.UNSPECIFIED ∧
    t.TimerCreated =
      decide (Int.land activityInfo.TimerTaskStatus (timerTypeToTimerMask t.TimerType) > 0) := by
  rw [mem_activityTimers] at ht
  rcases ht with h | h | h | h
  · unfold getActivityScheduleToStartTimeout at h
    split_ifs at h
    split at h
    · cases h
    · injection h with h
      subst h
      exact ⟨rfl, rfl, by simp, rfl⟩
  · unfold getActivityScheduleToCloseTimeout at h
    split_ifs at h
    split at h
    · cases h
    · injection h with h
      subst h
      exact ⟨rfl, rfl, by simp, rfl⟩
  · unfold getActivityStartToCloseTimeout at h
    split_ifs at h
    split at h
    · cases h
    · injection h with h
      subst h
      exact ⟨rfl, rfl, by simp, rfl⟩
  · unfold getActivityHeartbeatTimeout at h
    split_ifs at h
    split at h
    · cases h
    · injection h with h
      subst h
      exact ⟨rfl, rfl, by simp, rfl⟩

/-- C21, as the rule behaves: the activity of the
`TestCreateNextActivityTimer_HeartbeatTimer_*` tests with its started time taken away is
started and has a start-to-close timeout of 100 s, but no started time; the rule yields no
obligation. -/
theorem getActivityStartToCloseTimeout_no_started_time_counterexample :
    ({ testActivityStarted TimerTaskStatusNone with StartedTime := none } :
      ActivityInfo).StartedEventId ≠ EmptyEventID ∧
    ({ testActivityStarted TimerTaskStatusNone with StartedTime := none } :
      ActivityInfo).StartToCloseTimeout > 0 ∧
    getActivityStartToCloseTimeout
      { testActivityStarted TimerTaskStatusNone with StartedTime := none } = none := by
  decide

/-- C21, amended: `getActivityStartToCloseTimeout` yields an obligation if and only if the
activity is started, its start-to-close timeout is positive and its started time is present,
with timestamp started time plus that timeout; so an activity scheduled at T0 with a
schedule-to-start timeout of 10 s, a start-to-close timeout of 100 s, no other timeout and no
bit set derives exactly the schedule-to-start obligation at T0 + 10 s, not created, before it
starts, and exactly the start-to-close obligation at started time + 100 s, not created, once it
is marked started at that time. -/
theorem getActivityStartToCloseTimeout_spec (activityInfo : ActivityInfo) :
    ((getActivityStartToCloseTimeout activityInfo).isSome = true ↔
      activityInfo.StartedEventId ≠ EmptyEventID ∧ activityInfo.StartToCloseTimeout > 0 ∧
      activityInfo.StartedTime.isSome = true) ∧
    (∀ t, getActivityStartToCloseTimeout activityInfo = some t →
      ∃ startedTime, activityInfo.StartedTime = some startedTime ∧
        t.Timestamp = startedTime.AsTime.Add activityInfo.StartToCloseTimeout ∧
        t.TimerType = TimeoutType.START_TO_CLOSE ∧
        t.EventID = activityInfo.ScheduledEventId ∧ t.Attempt = activityInfo.Attempt) ∧
    (activityInfo.ScheduledEventId ≠ EmptyEventID →
      activityInfo.ScheduleToStartTimeout = 10000000000 →
      activityInfo.StartToCloseTimeout = 100000000000 →
      activityInfo.ScheduleToCloseTimeout = 0 → activityInfo.HeartbeatTimeout = 0 →
      activityInfo.TimerTaskStatus = TimerTaskStatusNone →
      (∀ scheduledTime, activityInfo.StartedEventId = EmptyEventID →
        activityInfo.ScheduledTime = some scheduledTime →
        activityTimers activityInfo =
          [{ EventID := activityInfo.ScheduledEventId
             Timestamp := scheduledTime.AsTime.Add 10000000000
             TimerType := TimeoutType.SCHEDULE_TO_START
             TimerCreated := false
             Attempt := activityInfo.Attempt }]) ∧
      (∀ startedTime, activityInfo.StartedEventId ≠ EmptyEventID →
        activityInfo.StartedTime = some startedTime →
        activityTimers activityInfo =
          [{ EventID := activityInfo.ScheduledEventId
             Timestamp := startedTime.AsTime.Add 100000000000
             TimerType := TimeoutType.START_TO_CLOSE
             TimerCreated := false
             Attempt := activityInfo.Attempt }])) := by
  refine ⟨?_, ?_, ?_⟩
  · unfold getActivityStartToCloseTimeout
    cases hbase : activityInfo.StartedTime <;> split_ifs with h1 h2 <;> simp [h1] <;> omega
  · intro t ht
    unfold getActivityStartToCloseTimeout at ht
    split_ifs at ht
    cases hbase : activityInfo.StartedTime with
    | none => simp [hbase] at ht
    | some startedTime =>
      simp only [hbase, Option.some.injEq] at ht
      subst ht
      exact ⟨startedTime, rfl, rfl, rfl, rfl, rfl⟩
  · intro hs h1 h2 h3 h4 h5
    constructor
    · intro scheduledTime hns hsched
      simp [activityTimers, getActivityScheduleToStartTimeout, getActivityScheduleToCloseTimeout,
        getActivityStartToCloseTimeout, getActivityHeartbeatTimeout, hs, h1, h2, h3, h4, h5, hns,
        hsched, TimerTaskStatusNone, TimerTaskStatusCreatedScheduleToStart, Int.land]
    · intro startedTime hst hstarted
      simp [activityTimers, getActivityScheduleToStartTimeout, getActivityScheduleToCloseTimeout,
        getActivityStartToCloseTimeout, getActivityHeartbeatTimeout, hs, h1, h2, h3, h4, h5, hst,
        hstarted, TimerTaskStatusNone, TimerTaskStatusCreatedStartToClose, Int.land]

/-- Instance of C21 as amended, with T0 at Unix second 1700000000: before the start the only
obligation is schedule-to-start at T0 + 10 s; after the start at T0 + 2 s the only obligation is
start-to-close at T0 + 102 s. -/
theorem getActivityStartToCloseTimeout_spec_witness :
    activityTimers scenarioScheduled =
      [{ EventID := 5, Timestamp := Timestamp.AsTime { seconds := 1700000010, nanos := 0 }
         TimerType := TimeoutType.SCHEDULE_TO_START, TimerCreated := false, Attempt := 1 }] ∧
    activityTimers scenarioStarted =
      [{ EventID := 5, Timestamp := Timestamp.AsTime { seconds := 1700000102, nanos := 0 }
         TimerType := TimeoutType.START_TO_CLOSE, TimerCreated := false, Attempt := 1 }] ∧
    (∃ startedTime, scenarioStarted.StartedTime = some startedTime ∧
      ({ EventID := 5, Timestamp := Timestamp.AsTime { seconds := 1700000102, nanos := 0 }
         TimerType := TimeoutType.START_TO_CLOSE, TimerCreated := false
         Attempt := 1 } : TimerSequenceID).Timestamp =
        startedTime.AsTime.Add scenarioStarted.StartToCloseTimeout ∧
      TimeoutType.START_TO_CLOSE = TimeoutType.START_TO_CLOSE ∧
      (5 : Int) = scenarioStarted.ScheduledEventId ∧ (1 : Int) = scenarioStarted.Attempt) :=
  ⟨(((getActivityStartToCloseTimeout_spec scenarioScheduled).2.2 (by decide) rfl rfl rfl rfl
      rfl).1 { seconds := 1700000000, nanos := 0 } rfl rfl).trans (by decide),
   (((getActivityStartToCloseTimeout_spec scenarioStarted).2.2 (by decide) rfl rfl rfl rfl
      rfl).2 { seconds := 1700000002, nanos := 0 } (by decide) rfl).trans (by decide),
   (getActivityStartToCloseTimeout_spec scenarioStarted).2.1
     { EventID := 5, Timestamp := Timestamp.AsTime { seconds := 1700000102, nanos := 0 }
       TimerType := TimeoutType.START_TO_CLOSE, TimerCreated := false, Attempt := 1 }
     (by decide)⟩

/-- C26: `timerTypeToTimerMask` maps START_TO_CLOSE to 1, SCHEDULE_TO_START to 2,
SCHEDULE_TO_CLOSE to 4 and HEARTBEAT to 8, each a single bit of its own, with None = 0; and the
created flag of every obligation derived from an activity is the bit of the obligation's own
kind in the activity's status mask, whatever the other bits are. -/
theorem timerTypeToTimerMask_bits :
    timerTypeToTimerMask TimeoutType.START_TO_CLOSE = 1 ∧
    timerTypeToTimerMask TimeoutType.SCHEDULE_TO_START = 2 ∧
    timerTypeToTimerMask TimeoutType.SCHEDULE_TO_CLOSE = 4 ∧
    timerTypeToTimerMask TimeoutType.HEARTBEAT = 8 ∧
    TimerTaskStatusNone = 0 ∧
    (∀ timerType, timerType ≠ TimeoutType.UNSPECIFIED →
      timerTypeToTimerMask timerType = ((2 ^ timerTypeBit timerType : Nat) : Int)) ∧
    (∀ a b, a ≠ TimeoutType.UNSPECIFIED → b ≠ TimeoutType.UNSPECIFIED → a ≠ b →
      timerTypeBit a ≠ timerTypeBit b) ∧
    (∀ (activityInfo : ActivityInfo) (t : TimerSequenceID), t ∈ activityTimers activityInfo →
      t.TimerCreated =
        decide (Int.land activityInfo.TimerTaskStatus (timerTypeToTimerMask t.TimerType) > 0) ∧
      t.TimerCreated = Int.testBit activityInfo.TimerTaskStatus (timerTypeBit t.TimerType)) := by
  have hpow : ∀ timerType, timerType ≠ TimeoutType.UNSPECIFIED →
      timerTypeToTimerMask timerType = ((2 ^ timerTypeBit timerType : Nat) : Int) := by
    intro ty hty
    cases ty
    · exact absurd rfl hty
    all_goals rfl
  refine ⟨rfl, rfl, rfl, rfl, rfl, hpow, ?_, ?_⟩
  · intro a b ha hb hab
    cases a <;> cases b <;> simp_all [timerTypeBit]
  · intro activityInfo t ht
    obtain ⟨_, _, hty, hc⟩ := activityTimers_fields activityInfo t ht
    refine ⟨hc, ?_⟩
    rw [hc]
    exact created_flag_eq_testBit _ _ _ (hpow _ hty)

/-- Instance of C26, the activity of
`TestLoadAndSortActivityTimers_One_Scheduled_Started_WithHeartbeatTimeout`: with the mask
4 + 1 + 8 the heartbeat obligation is created, bit 3 of the mask being set. -/
theorem timerTypeToTimerMask_bits_witness :
    ({ EventID := 234
       Timestamp :=
        (Timestamp.AsTime { seconds := 1700000000, nanos := 200000000 }).Add 1000000000
       TimerType := TimeoutType.HEARTBEAT, TimerCreated := true
       Attempt := 12 } : TimerSequenceID).TimerCreated = Int.testBit 13 3 :=
  (timerTypeToTimerMask_bits.2.2.2.2.2.2.2 testActivityStartedBits
    { EventID := 234
      Timestamp :=
        (Timestamp.AsTime { seconds := 1700000000, nanos := 200000000 }).Add 1000000000
      TimerType := TimeoutType.HEARTBEAT, TimerCreated := true, Attempt := 12 }
    (by decide)).2

theorem lookup_of_mem_of_nodup_keys {α : Type} (l : List (Int × α)) (k : Int) (v : α)
    (hnodup : (l.map Prod.fst).Nodup) (hmem : (k, v) ∈ l) : l.lookup k = some v := by
  induction l with
  | nil => simp at hmem
  | cons hd tl ih =>
    obtain ⟨k1, v1⟩ := hd
    simp only [List.map_cons, List.nodup_cons, List.mem_map, not_exists, not_and] at hnodup
    rcases List.mem_cons.mp hmem with h | h
    · injection h with hk hv
      subst hk
      subst hv
      simp [List.lookup]
    · have hne : k ≠ k1 := by
        intro hk
        exact hnodup.1 (k, v) h hk
      have hbeq : (k == k1) = false := by simpa using hne
      simp only [List.lookup, hbeq]
      exact ih hnodup.2 h

theorem find_of_mem_of_nodup_keys {α β : Type} [DecidableEq β] (f : α → β) (l : List α) (a : α)
    (hnodup : (l.map f).Nodup) (hmem : a ∈ l) :
    l.find? (fun p => decide (f p = f a)) = some a := by
  induction l with
  | nil => simp at hmem
  | cons hd tl ih =>
    simp only [List.map_cons, List.nodup_cons, List.mem_map, not_exists, not_and] at hnodup
    rcases List.mem_cons.mp hmem with h | h
    · subst h
      simp [List.find?]
    · have hne : f hd ≠ f a := by
        intro hk
        exact hnodup.1 a h hk.symm
      simp only [List.find?, hne, decide_False]
      exact ih hnodup.2 h

/-- The first sorted activity obligation belongs to a pending activity. -/
theorem first_of_LoadAndSortActivityTimers (ms : MutableState) (first : TimerSequenceID)
    (rest : List TimerSequenceID) (hsort : LoadAndSortActivityTimers ms = first :: rest) :
    ∃ p ∈ ms.pendingActivityInfoIDs, first ∈ activityTimers p.2 := by
  have hmem : first ∈ LoadAndSortActivityTimers ms := by
    rw [hsort]
    exact List.mem_cons_self _ _
  unfold LoadAndSortActivityTimers at hmem
  rw [(List.perm_insertionSort timerOrder _).mem_iff, List.mem_flatMap] at hmem
  exact hmem

/-- The first sorted user timer obligation belongs to a pending user timer. -/
theorem first_of_LoadAndSortUserTimers (ms : MutableState) (first : TimerSequenceID)
    (rest : List TimerSequenceID) (hsort : LoadAndSortUserTimers ms = first :: rest) :
    ∃ p ∈ ms.pendingTimerInfoIDs, first = getUserTimerTimeout p.2 := by
  have hmem : first ∈ LoadAndSortUserTimers ms := by
    rw [hsort]
    exact List.mem_cons_self _ _
  unfold LoadAndSortUserTimers at hmem
  rw [(List.perm_insertionSort timerOrder _).mem_iff, List.mem_map] at hmem
  obtain ⟨p, hp, hpe⟩ := hmem
  exact ⟨p, hp, hpe.symm⟩

/-- A first activity obligation that is already created, or that is due after the workflow run
expiration time, leaves the snapshot as it is. -/
theorem CreateNextActivityTimer_skip (ms : MutableState) (first : TimerSequenceID)
    (rest : List TimerSequenceID) (hsort : LoadAndSortActivityTimers ms = first :: rest)
    (h : first.TimerCreated = true ∨ afterWorkflowExpiry ms first.Timestamp = true) :
    CreateNextActivityTimer ms = ((false, none), ms) := by
  unfold CreateNextActivityTimer
  rw [hsort]
  rcases h with h | h
  · simp [h]
  · by_cases hc : first.TimerCreated = true
    · simp [hc]
    · simp [hc, h]

/-- A first user timer obligation that is already created, or that is due after the workflow
run expiration time, leaves the snapshot as it is. -/
theorem CreateNextUserTimer_skip (ms : MutableState) (first : TimerSequenceID)
    (rest : List TimerSequenceID) (hsort : LoadAndSortUserTimers ms = first :: rest)
    (h : first.TimerCreated = true ∨ afterWorkflowExpiry ms first.Timestamp = true) :
    CreateNextUserTimer ms = ((false, none), ms) := by
  unfold CreateNextUserTimer
  rw [hsort]
  rcases h with h | h
  · simp [h]
  · by_cases hc : first.TimerCreated = true
    · simp [hc]
    · simp [hc, h]

/-- The creation step for activities: under the map invariants, a first obligation that is not
created and not due after the workflow run expiration time gets its bit set on the owning
activity and one task at its own deadline. -/
theorem CreateNextActivityTimer_creates (ms : MutableState) (first : TimerSequenceID)
    (rest : List TimerSequenceID)
    (hkey : ∀ p ∈ ms.pendingActivityInfoIDs, p.1 = p.2.ScheduledEventId)
    (hnodup : (ms.pendingActivityInfoIDs.map Prod.fst).Nodup)
    (hsort : LoadAndSortActivityTimers ms = first :: rest)
    (hnew : first.TimerCreated = false)
    (hexp : afterWorkflowExpiry ms first.Timestamp = false) :
    ∃ owner, (first.EventID, owner) ∈ ms.pendingActivityInfoIDs ∧
      first ∈ activityTimers owner ∧
      CreateNextActivityTimer ms =
        ((true, none),
          { ms with
            pendingActivityInfoIDs := ms.pendingActivityInfoIDs.map fun p =>
              if p.1 = first.EventID then
                (p.1, { p.2 with
                  TimerTaskStatus :=
                    Int.lor owner.TimerTaskStatus (timerTypeToTimerMask first.TimerType) })
              else p
            pendingActivityTimerHeartbeats :=
              if first.TimerType = TimeoutType.HEARTBEAT then
                (first.EventID, first.Timestamp) ::
                  ms.pendingActivityTimerHeartbeats.filter fun q => q.1 ≠ first.EventID
              else ms.pendingActivityTimerHeartbeats
            insertTimerTasks := ms.insertTimerTasks ++
              [TimerTask.ActivityTimeout
                { WorkflowKey := ms.workflowKey
                  VisibilityTimestamp := first.Timestamp
                  TimeoutType := first.TimerType
                  EventID := first.EventID
                  Attempt := first.Attempt }] }) := by
  obtain ⟨p, hp, hfirst⟩ := first_of_LoadAndSortActivityTimers ms first rest hsort
  obtain ⟨k, owner⟩ := p
  have hid : first.EventID = owner.ScheduledEventId :=
    (activityTimers_fields owner first hfirst).1
  have hk : k = owner.ScheduledEventId := hkey (k, owner) hp
  have hp2 : (first.EventID, owner) ∈ ms.pendingActivityInfoIDs := by
    rw [hid, ← hk]
    exact hp
  have hget : ms.GetActivityInfo first.EventID = some owner :=
    lookup_of_mem_of_nodup_keys _ _ _ hnodup hp2
  have hget2 : ms.GetActivityInfo owner.ScheduledEventId = some owner := by
    rw [← hid]
    exact hget
  refine ⟨owner, hp2, hfirst, ?_⟩
  unfold CreateNextActivityTimer
  rw [hsort]
  simp only [hnew, hexp, hget, Bool.false_eq_true, if_false]
  unfold MutableState.UpdateActivityTaskStatusWithTimerHeartbeat
  simp only [hget2, MutableState.AddTimerTask, ← hid]
  by_cases hhb : first.TimerType = TimeoutType.HEARTBEAT
  · simp [hhb, hget]
  · simp [hhb, hget]

/-- The creation step for user timers: under the map invariants, a first obligation that is
not created and not due after the workflow run expiration time has its timer marked created and
one task at its own deadline. -/
theorem CreateNextUserTimer_creates (ms : MutableState) (first : TimerSequenceID)
    (rest : List TimerSequenceID)
    (hkey : ∀ p ∈ ms.pendingTimerInfoIDs, p.1 = p.2.TimerId)
    (hnodup : (ms.pendingTimerInfoIDs.map fun p => p.2.StartedEventId).Nodup)
    (hsort : LoadAndSortUserTimers ms = first :: rest)
    (hnew : first.TimerCreated = false)
    (hexp : afterWorkflowExpiry ms first.Timestamp = false) :
    ∃ owner, (owner.TimerId, owner) ∈ ms.pendingTimerInfoIDs ∧
      first = getUserTimerTimeout owner ∧
      CreateNextUserTimer ms =
        ((true, none),
          { ms with
            pendingTimerInfoIDs := ms.pendingTimerInfoIDs.map fun p =>
              if p.1 = owner.TimerId then
                (p.1, { p.2 with TaskStatus := TimerTaskStatusCreated })
              else p
            insertTimerTasks := ms.insertTimerTasks ++
              [TimerTask.UserTimer
                { WorkflowKey := ms.workflowKey
                  VisibilityTimestamp := first.Timestamp
                  EventID := first.EventID }] }) := by
  obtain ⟨p, hp, hfirst⟩ := first_of_LoadAndSortUserTimers ms first rest hsort
  obtain ⟨k, owner⟩ := p
  have hk : k = owner.TimerId := hkey (k, owner) hp
  subst hk
  have hid : first.EventID = owner.StartedEventId := by
    rw [hfirst]
    rfl
  have hfind : ms.GetUserTimerInfoByEventID first.EventID = some owner := by
    unfold MutableState.GetUserTimerInfoByEventID
    rw [hid]
    have := find_of_mem_of_nodup_keys (fun p : String × TimerInfo => p.2.StartedEventId)
      ms.pendingTimerInfoIDs (owner.TimerId, owner) hnodup hp
    simp only at this
    rw [this]
    rfl
  have hany : ms.pendingTimerInfoIDs.any (fun p => decide (p.1 = owner.TimerId)) = true := by
    rw [List.any_eq_true]
    exact ⟨(owner.TimerId, owner), hp, by simp⟩
  refine ⟨owner, hp, hfirst, ?_⟩
  unfold CreateNextUserTimer
  rw [hsort]
  simp only [hnew, hexp, hfind, Bool.false_eq_true, if_false]
  unfold MutableState.UpdateUserTimerTaskStatus
  simp only [hany, if_true, MutableState.AddTimerTask]

/-- When `CreateNextActivityTimer` reports a modification, the first obligation was not created
and not due after the expiration time, and exactly one task was added, at that obligation's own
deadline. -/
theorem CreateNextActivityTimer_modified (ms : MutableState)
    (h : (CreateNextActivityTimer ms).1.1 = true) :
    ∃ first rest, LoadAndSortActivityTimers ms = first :: rest ∧
      first.TimerCreated = false ∧ afterWorkflowExpiry ms first.Timestamp = false ∧
      (CreateNextActivityTimer ms).2.insertTimerTasks = ms.insertTimerTasks ++
        [TimerTask.ActivityTimeout
          { WorkflowKey := ms.workflowKey
            VisibilityTimestamp := first.Timestamp
            TimeoutType := first.TimerType
            EventID := first.EventID
            Attempt := first.Attempt }] := by
  cases hs : LoadAndSortActivityTimers ms with
  | nil =>
    exfalso
    simp [CreateNextActivityTimer, hs] at h
  | cons first rest =>
    refine ⟨first, rest, rfl, ?_⟩
    by_cases hc : first.TimerCreated = true
    · exfalso
      rw [CreateNextActivityTimer_skip ms first rest hs (Or.inl hc)] at h
      simp at h
    · by_cases he : afterWorkflowExpiry ms first.Timestamp = true
      · exfalso
        rw [CreateNextActivityTimer_skip ms first rest hs (Or.inr he)] at h
        simp at h
      · simp only [Bool.not_eq_true] at hc he
        refine ⟨hc, he, ?_⟩
        unfold CreateNextActivityTimer at h ⊢
        simp only [hs, hc, he, Bool.false_eq_true, if_false] at h ⊢
        cases hg : ms.GetActivityInfo first.EventID with
        | none => simp [hg] at h
        | some activityInfo =>
          simp only [hg] at h ⊢
          unfold MutableState.UpdateActivityTaskStatusWithTimerHeartbeat at h ⊢
          cases hg2 : ms.GetActivityInfo activityInfo.ScheduledEventId with
          | none => simp [hg2] at h
          | some other => simp [hg2, MutableState.AddTimerTask]

/-- When `CreateNextUserTimer` reports a modification, the first obligation was not created and
not due after the expiration time, and exactly one task was added, at that obligation's own
deadline. -/
theorem CreateNextUserTimer_modified (ms : MutableState)
    (h : (CreateNextUserTimer ms).1.1 = true) :
    ∃ first rest, LoadAndSortUserTimers ms = first :: rest ∧
      first.TimerCreated = false ∧ afterWorkflowExpiry ms first.Timestamp = false ∧
      (CreateNextUserTimer ms).2.insertTimerTasks = ms.insertTimerTasks ++
        [TimerTask.UserTimer
          { WorkflowKey := ms.workflowKey
            VisibilityTimestamp := first.Timestamp
            EventID := first.EventID }] := by
  cases hs : LoadAndSortUserTimers ms with
  | nil =>
    exfalso
    simp [CreateNextUserTimer, hs] at h
  | cons first rest =>
    refine ⟨first, rest, rfl, ?_⟩
    by_cases hc : first.TimerCreated = true
    · exfalso
      rw [CreateNextUserTimer_skip ms first rest hs (Or.inl hc)] at h
      simp at h
    · by_cases he : afterWorkflowExpiry ms first.Timestamp = true
      · exfalso
        rw [CreateNextUserTimer_skip ms first rest hs (Or.inr he)] at h
        simp at h
      · simp only [Bool.not_eq_true] at hc he
        refine ⟨hc, he, ?_⟩
        unfold CreateNextUserTimer at h ⊢
        simp only [hs, hc, he, Bool.false_eq_true, if_false] at h ⊢
        cases hg : ms.GetUserTimerInfoByEventID first.EventID with
        | none => simp [hg] at h
        | some timerInfo =>
          simp only [hg] at h ⊢
          unfold MutableState.UpdateUserTimerTaskStatus at h ⊢
          by_cases hany : ms.pendingTimerInfoIDs.any (fun p => decide (p.1 = timerInfo.TimerId))
              = true
          · simp [hany, MutableState.AddTimerTask]
          · simp [hany] at h

/-- Setting the bit of a timer type with OR changes that bit and no other. -/
theorem testBit_lor_timerTypeToTimerMask (status : Int) (timerType : TimeoutType)
    (hty : timerType ≠ TimeoutType.UNSPECIFIED) (j : Nat) :
    Int.testBit (Int.lor status (timerTypeToTimerMask timerType)) j =
      (Int.testBit status j || decide (timerTypeBit timerType = j)) := by
  have hpow : timerTypeToTimerMask timerType = ((2 ^ timerTypeBit timerType : Nat) : Int) := by
    cases timerType
    · exact absurd rfl hty
    all_goals rfl
  rw [hpow, Int.testBit_lor]
  congr 1
  show Nat.testBit (2 ^ timerTypeBit timerType) j = _
  rw [Nat.testBit_two_pow]

/-- The mask of a timer type is the power of two at the position `timerTypeBit`. -/
theorem timerTypeToTimerMask_eq_two_pow (timerType : TimeoutType)
    (hty : timerType ≠ TimeoutType.UNSPECIFIED) :
    timerTypeToTimerMask timerType = ((2 ^ timerTypeBit timerType : Nat) : Int) := by
  cases timerType
  · exact absurd rfl hty
  all_goals rfl

/-- C22, as the creation step behaves: with a first created obligation followed by one that is
not created (the activity of the `NotCreated` tests with only the schedule-to-start bit set, no
workflow run expiration time), `CreateNextActivityTimer` does not pick the later obligation: it
returns modified = false and leaves the snapshot as it is. -/
theorem CreateNextActivityTimer_later_not_created_counterexample :
    LoadAndSortActivityTimers
        (timerStateOf [testActivityScheduled TimerTaskStatusCreatedScheduleToStart] [] none) =
      [{ EventID := 234, Timestamp := Timestamp.AsTime { seconds := 1700000010, nanos := 0 }
         TimerType := TimeoutType.SCHEDULE_TO_START, TimerCreated := true, Attempt := 12 },
       { EventID := 234, Timestamp := Timestamp.AsTime { seconds := 1700001000, nanos := 0 }
         TimerType := TimeoutType.SCHEDULE_TO_CLOSE, TimerCreated := false, Attempt := 12 }] ∧
    CreateNextActivityTimer
        (timerStateOf [testActivityScheduled TimerTaskStatusCreatedScheduleToStart] [] none) =
      ((false, none),
        timerStateOf [testActivityScheduled TimerTaskStatusCreatedScheduleToStart] [] none) := by
  decide

/-- C22, amended: for every snapshot whose first obligation in sorted order is not yet created
and is not due after a set workflow run expiration time, and whose maps are keyed by scheduled
event id (activities) and timer id (user timers) without two entries for one event,
`CreateNextActivityTimer` / `CreateNextUserTimer` find the owner of that first obligation, set
exactly its bit (old status OR the mask of the kind; `Created` for a user timer), add exactly
one timer task at the obligation's deadline, and return modified = true with no error. -/
theorem CreateNextTimer_creates_first (ms : MutableState) (first : TimerSequenceID)
    (rest : List TimerSequenceID) (hnew : first.TimerCreated = false)
    (hexp : afterWorkflowExpiry ms first.Timestamp = false) :
    ((∀ p ∈ ms.pendingActivityInfoIDs, p.1 = p.2.ScheduledEventId) →
      (ms.pendingActivityInfoIDs.map Prod.fst).Nodup →
      LoadAndSortActivityTimers ms = first :: rest →
      ∃ owner, (first.EventID, owner) ∈ ms.pendingActivityInfoIDs ∧
        first ∈ activityTimers owner ∧
        Int.testBit owner.TimerTaskStatus (timerTypeBit first.TimerType) = false ∧
        (∀ j, Int.testBit
            (Int.lor owner.TimerTaskStatus (timerTypeToTimerMask first.TimerType)) j =
          (Int.testBit owner.TimerTaskStatus j || decide (timerTypeBit first.TimerType = j))) ∧
        CreateNextActivityTimer ms =
          ((true, none),
            { ms with
              pendingActivityInfoIDs := ms.pendingActivityInfoIDs.map fun p =>
                if p.1 = first.EventID then
                  (p.1, { p.2 with
                    TimerTaskStatus :=
                      Int.lor owner.TimerTaskStatus (timerTypeToTimerMask first.TimerType) })
                else p
              pendingActivityTimerHeartbeats :=
                if first.TimerType = TimeoutType.HEARTBEAT then
                  (first.EventID, first.Timestamp) ::
                    ms.pendingActivityTimerHeartbeats.filter fun q => q.1 ≠ first.EventID
                else ms.pendingActivityTimerHeartbeats
              insertTimerTasks := ms.insertTimerTasks ++
                [TimerTask.ActivityTimeout
                  { WorkflowKey := ms.workflowKey
                    VisibilityTimestamp := first.Timestamp
                    TimeoutType := first.TimerType
                    EventID := first.EventID
                    Attempt := first.Attempt }] })) ∧
    ((∀ p ∈ ms.pendingTimerInfoIDs, p.1 = p.2.TimerId) →
      (ms.pendingTimerInfoIDs.map fun p => p.2.StartedEventId).Nodup →
      LoadAndSortUserTimers ms = first :: rest →
      ∃ owner, (owner.TimerId, owner) ∈ ms.pendingTimerInfoIDs ∧
        first = getUserTimerTimeout owner ∧
        owner.TaskStatus = TimerTaskStatusNone ∧
        CreateNextUserTimer ms =
          ((true, none),
            { ms with
              pendingTimerInfoIDs := ms.pendingTimerInfoIDs.map fun p =>
                if p.1 = owner.TimerId then
                  (p.1, { p.2 with TaskStatus := TimerTaskStatusCreated })
                else p
              insertTimerTasks := ms.insertTimerTasks ++
                [TimerTask.UserTimer
                  { WorkflowKey := ms.workflowKey
                    VisibilityTimestamp := first.Timestamp
                    EventID := first.EventID }] })) := by
  constructor
  · intro hkey hnodup hsort
    obtain ⟨owner, hmem, hfirst, heq⟩ :=
      CreateNextActivityTimer_creates ms first rest hkey hnodup hsort hnew hexp
    obtain ⟨_, _, hty, hc⟩ := activityTimers_fields owner first hfirst
    refine ⟨owner, hmem, hfirst, ?_, ?_, heq⟩
    · rw [← created_flag_eq_testBit owner.TimerTaskStatus (timerTypeBit first.TimerType)
        (timerTypeToTimerMask first.TimerType)
        (timerTypeToTimerMask_eq_two_pow first.TimerType hty), ← hc]
      exact hnew
    · exact testBit_lor_timerTypeToTimerMask owner.TimerTaskStatus first.TimerType hty
  · intro hkey hnodup hsort
    obtain ⟨owner, hmem, hfirst, heq⟩ :=
      CreateNextUserTimer_creates ms first rest hkey hnodup hsort hnew hexp
    refine ⟨owner, hmem, hfirst, ?_, heq⟩
    rw [hfirst] at hnew
    simpa [getUserTimerTimeout] using hnew

/-- Instance of C22 as amended. `TestCreateNextActivityTimer_NotCreated_BeforeWorkflowExpiry`:
the schedule-to-start obligation at `now` + 10 s is first and not created, the workflow expires
2000 s after `now`; the status mask becomes 2 and one schedule-to-start task is added at
`now` + 10 s. `TestCreateNextUserTimer_NotCreated_BeforeWorkflowExpiry`: the timer is marked
created and one user timer task is added at its expiry. -/
theorem CreateNextTimer_creates_first_witness :
    (∃ owner, ((234 : Int), owner) ∈
          (timerStateOf [testActivityScheduled TimerTaskStatusNone] []
            (some testExpiryLate)).pendingActivityInfoIDs ∧
      (⟨234, Timestamp.AsTime { seconds := 1700000010, nanos := 0 },
          TimeoutType.SCHEDULE_TO_START, false, 12⟩ : TimerSequenceID) ∈ activityTimers owner ∧
      Int.testBit owner.TimerTaskStatus 1 = false ∧
      (∀ j, Int.testBit (Int.lor owner.TimerTaskStatus 2) j =
        (Int.testBit owner.TimerTaskStatus j || decide (1 = j))) ∧
      CreateNextActivityTimer
          (timerStateOf [testActivityScheduled TimerTaskStatusNone] [] (some testExpiryLate)) =
        ((true, none),
          { timerStateOf [testActivityScheduled TimerTaskStatusNone] [] (some testExpiryLate) with
            pendingActivityInfoIDs :=
              [(234, { testActivityScheduled TimerTaskStatusNone with
                TimerTaskStatus := Int.lor owner.TimerTaskStatus 2 })]
            insertTimerTasks :=
              [TimerTask.ActivityTimeout
                { WorkflowKey := testWorkflowKey
                  VisibilityTimestamp := Timestamp.AsTime { seconds := 1700000010, nanos := 0 }
                  TimeoutType := TimeoutType.SCHEDULE_TO_START
                  EventID := 234
                  Attempt := 12 }] })) ∧
    (∃ owner, (owner.TimerId, owner) ∈
          (timerStateOf [] [testTimerInfo TimerTaskStatusNone]
            (some testExpiryAfterTimer)).pendingTimerInfoIDs ∧
      (⟨456, Timestamp.AsTime { seconds := 1700000000, nanos := 100 },
          TimeoutType.START_TO_CLOSE, false, 1⟩ : TimerSequenceID) = getUserTimerTimeout owner ∧
      owner.TaskStatus = TimerTaskStatusNone ∧
      CreateNextUserTimer
          (timerStateOf [] [testTimerInfo TimerTaskStatusNone] (some testExpiryAfterTimer)) =
        ((true, none),
          { timerStateOf [] [testTimerInfo TimerTaskStatusNone] (some testExpiryAfterTimer) with
            pendingTimerInfoIDs :=
              [("some random timer ID", testTimerInfo TimerTaskStatusNone)].map fun p =>
                if p.1 = owner.TimerId then
                  (p.1, { p.2 with TaskStatus := TimerTaskStatusCreated })
                else p
            insertTimerTasks :=
              [TimerTask.UserTimer
                { WorkflowKey := testWorkflowKey
                  VisibilityTimestamp := Timestamp.AsTime { seconds := 1700000000, nanos := 100 }
                  EventID := 456 }] })) :=
  ⟨(CreateNextTimer_creates_first
    (timerStateOf [testActivityScheduled TimerTaskStatusNone] [] (some testExpiryLate))
    ⟨234, Timestamp.AsTime { seconds := 1700000010, nanos := 0 },
      TimeoutType.SCHEDULE_TO_START, false, 12⟩
    [⟨234, Timestamp.AsTime { seconds := 1700001000, nanos := 0 },
      TimeoutType.SCHEDULE_TO_CLOSE, false, 12⟩]
    rfl (by decide)).1 (by decide) (by decide) (by decide),
   (CreateNextTimer_creates_first
    (timerStateOf [] [testTimerInfo TimerTaskStatusNone] (some testExpiryAfterTimer))
    ⟨456, Timestamp.AsTime { seconds := 1700000000, nanos := 100 },
      TimeoutType.START_TO_CLOSE, false, 1⟩ []
    rfl (by decide)).2 (by decide) (by decide) (by decide)⟩

/-- C23: for every snapshot whose first obligation in sorted order is already created,
`CreateNextActivityTimer` and `CreateNextUserTimer` return (modified = false, no error) and
leave the snapshot as it is (no status updated, no task added); hence any number of calls in a
row leaves the snapshot unchanged. -/
theorem CreateNextTimer_exactly_once (ms : MutableState) (first : TimerSequenceID)
    (rest : List TimerSequenceID) (hcreated : first.TimerCreated = true) :
    (LoadAndSortActivityTimers ms = first :: rest →
      CreateNextActivityTimer ms = ((false, none), ms) ∧
      ∀ n : Nat, (fun m => (CreateNextActivityTimer m).2)^[n] ms = ms) ∧
    (LoadAndSortUserTimers ms = first :: rest →
      CreateNextUserTimer ms = ((false, none), ms) ∧
      ∀ n : Nat, (fun m => (CreateNextUserTimer m).2)^[n] ms = ms) := by
  constructor
  · intro hsort
    have h := CreateNextActivityTimer_skip ms first rest hsort (Or.inl hcreated)
    refine ⟨h, fun n => Function.iterate_fixed ?_ n⟩
    show (CreateNextActivityTimer ms).2 = ms
    rw [h]
  · intro hsort
    have h := CreateNextUserTimer_skip ms first rest hsort (Or.inl hcreated)
    refine ⟨h, fun n => Function.iterate_fixed ?_ n⟩
    show (CreateNextUserTimer ms).2 = ms
    rw [h]

/-- Instance of C23. `TestCreateNextActivityTimer_AlreadyCreated_BeforeWorkflowExpiry`: no
first scheduled time, the bits of schedule-to-close and schedule-to-start set; the first
obligation is the created schedule-to-start one. `TestCreateNextUserTimer_AlreadyCreated_NoWorkflowExpiry`:
the timer is created. Neither call changes the snapshot, however often it is made. -/
theorem CreateNextTimer_exactly_once_witness :
    (CreateNextActivityTimer
        (timerStateOf [{ testActivityScheduled 6 with FirstScheduledTime := none }] []
          (some testExpiryLate)) =
        ((false, none),
          timerStateOf [{ testActivityScheduled 6 with FirstScheduledTime := none }] []
            (some testExpiryLate)) ∧
      ∀ n : Nat, (fun m => (CreateNextActivityTimer m).2)^[n]
        (timerStateOf [{ testActivityScheduled 6 with FirstScheduledTime := none }] []
          (some testExpiryLate)) =
        timerStateOf [{ testActivityScheduled 6 with FirstScheduledTime := none }] []
          (some testExpiryLate)) ∧
    (CreateNextUserTimer (timerStateOf [] [testTimerInfo TimerTaskStatusCreated] none) =
        ((false, none), timerStateOf [] [testTimerInfo TimerTaskStatusCreated] none) ∧
      ∀ n : Nat, (fun m => (CreateNextUserTimer m).2)^[n]
        (timerStateOf [] [testTimerInfo TimerTaskStatusCreated] none) =
        timerStateOf [] [testTimerInfo TimerTaskStatusCreated] none) :=
  ⟨(CreateNextTimer_exactly_once
      (timerStateOf [{ testActivityScheduled 6 with FirstScheduledTime := none }] []
        (some testExpiryLate))
      ⟨234, Timestamp.AsTime { seconds := 1700000010, nanos := 0 },
        TimeoutType.SCHEDULE_TO_START, true, 12⟩ []
      rfl).1 (by decide),
   (CreateNextTimer_exactly_once
      (timerStateOf [] [testTimerInfo TimerTaskStatusCreated] none)
      ⟨456, Timestamp.AsTime { seconds := 1700000000, nanos := 100 },
        TimeoutType.START_TO_CLOSE, true, 1⟩ []
      rfl).2 (by decide)⟩

/-- C24, as the creation step behaves: in the snapshots of
`TestCreateNextActivityTimer_NotCreated_AfterWorkflowExpiry` and
`TestCreateNextUserTimer_NotCreated_AfterWorkflowExpiry` the first obligation is not created and
its deadline is after the workflow run expiration time; nothing is created: the result is
modified = false with no error and the snapshot is as before. -/
theorem CreateNextTimer_beyond_expiry_counterexample :
    (LoadAndSortActivityTimers
        (timerStateOf [testActivityScheduled TimerTaskStatusNone] [] (some testExpiryEarly)) =
      [{ EventID := 234, Timestamp := Timestamp.AsTime { seconds := 1700000010, nanos := 0 }
         TimerType := TimeoutType.SCHEDULE_TO_START, TimerCreated := false, Attempt := 12 },
       { EventID := 234, Timestamp := Timestamp.AsTime { seconds := 1700001000, nanos := 0 }
         TimerType := TimeoutType.SCHEDULE_TO_CLOSE, TimerCreated := false, Attempt := 12 }] ∧
     (Timestamp.AsTime { seconds := 1700000010, nanos := 0 }).After
        (Timestamp.AsTime testExpiryEarly) = true ∧
     CreateNextActivityTimer
        (timerStateOf [testActivityScheduled TimerTaskStatusNone] [] (some testExpiryEarly)) =
      ((false, none),
        timerStateOf [testActivityScheduled TimerTaskStatusNone] [] (some testExpiryEarly))) ∧
    (LoadAndSortUserTimers
        (timerStateOf [] [testTimerInfo TimerTaskStatusNone] (some testExpiryBeforeTimer)) =
      [{ EventID := 456, Timestamp := Timestamp.AsTime { seconds := 1700000000, nanos := 100 }
         TimerType := TimeoutType.START_TO_CLOSE, TimerCreated := false, Attempt := 1 }] ∧
     (Timestamp.AsTime { seconds := 1700000000, nanos := 100 }).After
        (Timestamp.AsTime testExpiryBeforeTimer) = true ∧
     CreateNextUserTimer
        (timerStateOf [] [testTimerInfo TimerTaskStatusNone] (some testExpiryBeforeTimer)) =
      ((false, none),
        timerStateOf [] [testTimerInfo TimerTaskStatusNone] (some testExpiryBeforeTimer))) := by
  decide

/-- C24, amended: for every snapshot whose first obligation in sorted order has a deadline after
the set workflow run expiration time, `CreateNextActivityTimer` / `CreateNextUserTimer` create
nothing (modified = false, no error, no task added); and whenever they report modified = true
the first obligation was not created, its deadline is not after a set expiration time, and the
one task added carries that obligation's own deadline: the deadline is compared with the
expiration time, never capped by it. -/
theorem CreateNextTimer_deadline_comparison (ms : MutableState) :
    (∀ first rest, LoadAndSortActivityTimers ms = first :: rest →
      afterWorkflowExpiry ms first.Timestamp = true →
      (CreateNextActivityTimer ms).1 = (false, none) ∧
      (CreateNextActivityTimer ms).2.insertTimerTasks = ms.insertTimerTasks) ∧
    (∀ first rest, LoadAndSortUserTimers ms = first :: rest →
      afterWorkflowExpiry ms first.Timestamp = true →
      (CreateNextUserTimer ms).1 = (false, none) ∧
      (CreateNextUserTimer ms).2.insertTimerTasks = ms.insertTimerTasks) ∧
    ((CreateNextActivityTimer ms).1.1 = true →
      ∃ first rest, LoadAndSortActivityTimers ms = first :: rest ∧
        first.TimerCreated = false ∧ afterWorkflowExpiry ms first.Timestamp = false ∧
        (CreateNextActivityTimer ms).2.insertTimerTasks = ms.insertTimerTasks ++
          [TimerTask.ActivityTimeout
            { WorkflowKey := ms.workflowKey
              VisibilityTimestamp := first.Timestamp
              TimeoutType := first.TimerType
              EventID := first.EventID
              Attempt := first.Attempt }]) ∧
    ((CreateNextUserTimer ms).1.1 = true →
      ∃ first rest, LoadAndSortUserTimers ms = first :: rest ∧
        first.TimerCreated = false ∧ afterWorkflowExpiry ms first.Timestamp = false ∧
        (CreateNextUserTimer ms).2.insertTimerTasks = ms.insertTimerTasks ++
          [TimerTask.UserTimer
            { WorkflowKey := ms.workflowKey
              VisibilityTimestamp := first.Timestamp
              EventID := first.EventID }]) := by
  refine ⟨?_, ?_, CreateNextActivityTimer_modified ms, CreateNextUserTimer_modified ms⟩
  · intro first rest hsort hexp
    rw [CreateNextActivityTimer_skip ms first rest hsort (Or.inr hexp)]
    exact ⟨rfl, rfl⟩
  · intro first rest hsort hexp
    rw [CreateNextUserTimer_skip ms first rest hsort (Or.inr hexp)]
    exact ⟨rfl, rfl⟩

/-- Instance of C24 as amended. In `TestCreateNextActivityTimer_HeartbeatTimer_AfterWorkflowExpiry`
and `TestCreateNextUserTimer_NotCreated_AfterWorkflowExpiry` the first obligation is after the
expiration time and nothing is created; in
`TestCreateNextActivityTimer_HeartbeatTimer_BeforeWorkflowExpiry` and
`TestCreateNextUserTimer_NotCreated_BeforeWorkflowExpiry` the call reports a modification and
the task carries the deadline of the first obligation, not the expiration time. -/
theorem CreateNextTimer_deadline_comparison_witness :
    ((CreateNextActivityTimer
        (timerStateOf [testActivityStarted TimerTaskStatusNone] []
          (some testExpiryEarly))).1 = (false, none) ∧
      (CreateNextActivityTimer
        (timerStateOf [testActivityStarted TimerTaskStatusNone] []
          (some testExpiryEarly))).2.insertTimerTasks = []) ∧
    ((CreateNextUserTimer
        (timerStateOf [] [testTimerInfo TimerTaskStatusNone]
          (some testExpiryBeforeTimer))).1 = (false, none) ∧
      (CreateNextUserTimer
        (timerStateOf [] [testTimerInfo TimerTaskStatusNone]
          (some testExpiryBeforeTimer))).2.insertTimerTasks = []) ∧
    (∃ first rest,
      LoadAndSortActivityTimers
        (timerStateOf [testActivityStarted TimerTaskStatusNone] [] (some testExpiryLate)) =
          first :: rest ∧
      first.TimerCreated = false ∧
      afterWorkflowExpiry
        (timerStateOf [testActivityStarted TimerTaskStatusNone] [] (some testExpiryLate))
        first.Timestamp = false ∧
      (CreateNextActivityTimer
        (timerStateOf [testActivityStarted TimerTaskStatusNone] []
          (some testExpiryLate))).2.insertTimerTasks =
        [] ++ [TimerTask.ActivityTimeout
          { WorkflowKey := testWorkflowKey
            VisibilityTimestamp := first.Timestamp
            TimeoutType := first.TimerType
            EventID := first.EventID
            Attempt := first.Attempt }]) ∧
    (∃ first rest,
      LoadAndSortUserTimers
        (timerStateOf [] [testTimerInfo TimerTaskStatusNone] (some testExpiryAfterTimer)) =
          first :: rest ∧
      first.TimerCreated = false ∧
      afterWorkflowExpiry
        (timerStateOf [] [testTimerInfo TimerTaskStatusNone] (some testExpiryAfterTimer))
        first.Timestamp = false ∧
      (CreateNextUserTimer
        (timerStateOf [] [testTimerInfo TimerTaskStatusNone]
          (some testExpiryAfterTimer))).2.insertTimerTasks =
        [] ++ [TimerTask.UserTimer
          { WorkflowKey := testWorkflowKey
            VisibilityTimestamp := first.Timestamp
            EventID := first.EventID }]) :=
  ⟨(CreateNextTimer_deadline_comparison
      (timerStateOf [testActivityStarted TimerTaskStatusNone] [] (some testExpiryEarly))).1
      ⟨234, Timestamp.AsTime { seconds := 1700000001, nanos := 200000000 },
        TimeoutType.HEARTBEAT, false, 12⟩
      [⟨234, Timestamp.AsTime { seconds := 1700000100, nanos := 200000000 },
        TimeoutType.START_TO_CLOSE, false, 12⟩,
       ⟨234, Timestamp.AsTime { seconds := 1700001000, nanos := 0 },
        TimeoutType.SCHEDULE_TO_CLOSE, false, 12⟩]
      (by decide) (by decide),
   (CreateNextTimer_deadline_comparison
      (timerStateOf [] [testTimerInfo TimerTaskStatusNone] (some testExpiryBeforeTimer))).2.1
      ⟨456, Timestamp.AsTime { seconds := 1700000000, nanos := 100 },
        TimeoutType.START_TO_CLOSE, false, 1⟩ []
      (by decide) (by decide),
   (CreateNextTimer_deadline_comparison
      (timerStateOf [testActivityStarted TimerTaskStatusNone] [] (some testExpiryLate))).2.2.1
      (by decide),
   (CreateNextTimer_deadline_comparison
      (timerStateOf [] [testTimerInfo TimerTaskStatusNone] (some testExpiryAfterTimer))).2.2.2
      (by decide)⟩

/-- C25: for every snapshot in which the workflow run expiration time is set and the first
obligation in sorted order has a deadline strictly after it, `CreateNextActivityTimer` and
`CreateNextUserTimer` return (modified = false, no error) and leave the snapshot as it is (no
status bit updated, no task added), created or not; and when the expiration time is unset, a
first obligation that is not yet created is created (modified = true, no error, one task at its
deadline) in every snapshot whose maps are keyed by scheduled event id and timer id without two
entries for one event. -/
theorem CreateNextTimer_after_expiry (ms : MutableState) (first : TimerSequenceID)
    (rest : List TimerSequenceID) :
    (∀ expiry, ms.WorkflowRunExpirationTime = some expiry →
      first.Timestamp.After expiry.AsTime = true →
      (LoadAndSortActivityTimers ms = first :: rest →
        CreateNextActivityTimer ms = ((false, none), ms)) ∧
      (LoadAndSortUserTimers ms = first :: rest →
        CreateNextUserTimer ms = ((false, none), ms))) ∧
    (ms.WorkflowRunExpirationTime = none → first.TimerCreated = false →
      ((∀ p ∈ ms.pendingActivityInfoIDs, p.1 = p.2.ScheduledEventId) →
        (ms.pendingActivityInfoIDs.map Prod.fst).Nodup →
        LoadAndSortActivityTimers ms = first :: rest →
        (CreateNextActivityTimer ms).1 = (true, none) ∧
        (CreateNextActivityTimer ms).2.insertTimerTasks = ms.insertTimerTasks ++
          [TimerTask.ActivityTimeout
            { WorkflowKey := ms.workflowKey
              VisibilityTimestamp := first.Timestamp
              TimeoutType := first.TimerType
              EventID := first.EventID
              Attempt := first.Attempt }]) ∧
      ((∀ p ∈ ms.pendingTimerInfoIDs, p.1 = p.2.TimerId) →
        (ms.pendingTimerInfoIDs.map fun p => p.2.StartedEventId).Nodup →
        LoadAndSortUserTimers ms = first :: rest →
        (CreateNextUserTimer ms).1 = (true, none) ∧
        (CreateNextUserTimer ms).2.insertTimerTasks = ms.insertTimerTasks ++
          [TimerTask.UserTimer
            { WorkflowKey := ms.workflowKey
              VisibilityTimestamp := first.Timestamp
              EventID := first.EventID }])) := by
  constructor
  · intro expiry hset hafter
    have hexp : afterWorkflowExpiry ms first.Timestamp = true := by
      unfold afterWorkflowExpiry
      rw [hset]
      exact hafter
    exact ⟨fun hsort => CreateNextActivityTimer_skip ms first rest hsort (Or.inr hexp),
      fun hsort => CreateNextUserTimer_skip ms first rest hsort (Or.inr hexp)⟩
  · intro hunset hnew
    have hexp : afterWorkflowExpiry ms first.Timestamp = false := by
      unfold afterWorkflowExpiry
      rw [hunset]
    constructor
    · intro hkey hnodup hsort
      obtain ⟨owner, _, _, heq⟩ :=
        CreateNextActivityTimer_creates ms first rest hkey hnodup hsort hnew hexp
      rw [heq]
      exact ⟨rfl, rfl⟩
    · intro hkey hnodup hsort
      obtain ⟨owner, _, _, heq⟩ :=
        CreateNextUserTimer_creates ms first rest hkey hnodup hsort hnew hexp
      rw [heq]
      exact ⟨rfl, rfl⟩

/-- Instance of C25. `TestCreateNextActivityTimer_NotCreated_AfterWorkflowExpiry` and
`TestCreateNextUserTimer_NotCreated_AfterWorkflowExpiry`: the first obligation is not created
and is due after the expiration time, and the snapshot stays as it is.
`TestCreateNextActivityTimer_NotCreated_NoWorkflowExpiry` and
`TestCreateNextUserTimer_NotCreated_NoWorkflowExpiry`: no expiration time, and the obligation is
created. -/
theorem CreateNextTimer_after_expiry_witness :
    (CreateNextActivityTimer
        (timerStateOf [testActivityScheduled TimerTaskStatusNone] [] (some testExpiryEarly)) =
      ((false, none),
        timerStateOf [testActivityScheduled TimerTaskStatusNone] [] (some testExpiryEarly))) ∧
    (CreateNextUserTimer
        (timerStateOf [] [testTimerInfo TimerTaskStatusNone] (some testExpiryBeforeTimer)) =
      ((false, none),
        timerStateOf [] [testTimerInfo TimerTaskStatusNone] (some testExpiryBeforeTimer))) ∧
    ((CreateNextActivityTimer
        (timerStateOf [testActivityScheduled TimerTaskStatusNone] [] none)).1 = (true, none) ∧
      (CreateNextActivityTimer
        (timerStateOf [testActivityScheduled TimerTaskStatusNone] [] none)).2.insertTimerTasks =
        [] ++ [TimerTask.ActivityTimeout
          { WorkflowKey := testWorkflowKey
            VisibilityTimestamp := Timestamp.AsTime { seconds := 1700000010, nanos := 0 }
            TimeoutType := TimeoutType.SCHEDULE_TO_START
            EventID := 234
            Attempt := 12 }]) ∧
    ((CreateNextUserTimer
        (timerStateOf [] [testTimerInfo TimerTaskStatusNone] none)).1 = (true, none) ∧
      (CreateNextUserTimer
        (timerStateOf [] [testTimerInfo TimerTaskStatusNone] none)).2.insertTimerTasks =
        [] ++ [TimerTask.UserTimer
          { WorkflowKey := testWorkflowKey
            VisibilityTimestamp := Timestamp.AsTime { seconds := 1700000000, nanos := 100 }
            EventID := 456 }]) :=
  ⟨((CreateNextTimer_after_expiry
      (timerStateOf [testActivityScheduled TimerTaskStatusNone] [] (some testExpiryEarly))
      ⟨234, Timestamp.AsTime { seconds := 1700000010, nanos := 0 },
        TimeoutType.SCHEDULE_TO_START, false, 12⟩
      [⟨234, Timestamp.AsTime { seconds := 1700001000, nanos := 0 },
        TimeoutType.SCHEDULE_TO_CLOSE, false, 12⟩]).1 testExpiryEarly rfl (by decide)).1
      (by decide),
   ((CreateNextTimer_after_expiry
      (timerStateOf [] [testTimerInfo TimerTaskStatusNone] (some testExpiryBeforeTimer))
      ⟨456, Timestamp.AsTime { seconds := 1700000000, nanos := 100 },
        TimeoutType.START_TO_CLOSE, false, 1⟩ []).1 testExpiryBeforeTimer rfl (by decide)).2
      (by decide),
   ((CreateNextTimer_after_expiry
      (timerStateOf [testActivityScheduled TimerTaskStatusNone] [] none)
      ⟨234, Timestamp.AsTime { seconds := 1700000010, nanos := 0 },
        TimeoutType.SCHEDULE_TO_START, false, 12⟩
      [⟨234, Timestamp.AsTime { seconds := 1700001000, nanos := 0 },
        TimeoutType.SCHEDULE_TO_CLOSE, false, 12⟩]).2 rfl rfl).1
      (by decide) (by decide) (by decide),
   ((CreateNextTimer_after_expiry
      (timerStateOf [] [testTimerInfo TimerTaskStatusNone] none)
      ⟨456, Timestamp.AsTime { seconds := 1700000000, nanos := 100 },
        TimeoutType.START_TO_CLOSE, false, 1⟩ []).2 rfl rfl).2
      (by decide) (by decide) (by decide)⟩

end Ndc
